import Mathlib

/-!
Verification of apparent_sun_moon: apparent position of the Sun and the Moon.

A shallow embedding of the reduction pipeline of `apparent_sun_moon`
(`apos.cpp`, `bpn.cpp`, `nutation.cpp`, `time.cpp`, `delta_t.cpp`, `file.cpp`)
and the properties proved about it.

Conventions of the embedding.

* A C++ `double` is an element of an ordered field `K`; the theorems take
  `K = ℝ`, so arithmetic is exact.  A division by zero, which IEEE arithmetic
  answers with an infinity or a NaN, follows the field convention `x / 0 = 0`;
  the theorems that depend on a quotient state that its divisor is not zero.
* One constant is evaluated as IEEE binary64 arithmetic evaluates it: the
  increment `(kTtTai - f_tt_tai) * 1.0e9` of `Time::tai2tt`, a whole number in
  exact arithmetic, which the conversion to `long` that follows would keep;
  see `round_b64` and `Time.tai2tt`.
* The functions of `<cmath>` that have no field counterpart (`sqrt`, `sin`,
  `cos`, `atan`) are arguments of the definitions that call them; the theorems
  pass `Real.sqrt`, `Real.sin`, `Real.cos` and `Real.arctan`.
* Member functions take the object they read as an argument and return the
  object they have written.
* A `try { ... } catch (...) { throw; }` block is the block itself.
-/

namespace ApparentSunMoon

/-! Data. -/

/-- Modelled from the spec: `coord.hpp` is not among the sources.  A `Coord`
is the `Vector3 {x, y, z}` of the data model, used through its members `x`,
`y` and `z` only. -/
structure Coord (K : Type) where
  x : K
  y : K
  z : K

/-- Modelled from the spec: class `Jpl` (`jpl.hpp`, `jpl.cpp`) is not among the
sources.  A value of this type is a `Jpl` object after `read_bin()`: the
ephemeris provider opened at one Julian Day.  `calc_pv target center` is the
pair `(pos, vel)` left in the members `pos[3]` and `vel[3]` by
`calc_pv(target, center)`; `au` is the astronomical unit in km; `cnams` and
`cvals` are the names and values of the provider's constants. -/
structure Jpl (K : Type) where
  au : K
  cnams : List String
  cvals : List K
  calc_pv : Nat → Nat → Coord K × Coord K

/-- The data members of class `Apos` (`apos.hpp`) that the position
computation reads or writes.  The arrays of two elements are indexed by
`0` (time `t1`) and `1` (time `t2`).  A radius is `none` when `get_cval` read
outside `cvals`. -/
structure Apos (K : Type) where
  dat_ls : List (List K)
  dat_pl : List (List K)
  jcn : K
  au : K
  p_e : Fin 2 → Coord K
  v_e : Fin 2 → Coord K
  p_m : Fin 2 → Coord K
  v_m : Fin 2 → Coord K
  p_s : Fin 2 → Coord K
  v_s : Fin 2 → Coord K
  d_e_m : K
  d_e_s : K
  r_e : Option K
  r_m : Option K
  r_s : Option K
  eps : K
  jd : K

/-- The local variables of `Apos::calc_t1` that its loop reads and writes. -/
structure T1Vars (K : Type) where
  t1 : K
  p_1 : Coord K
  v_1 : Coord K
  df : K
  m : Nat

/-- How the loop of `Apos::calc_t1` ended: the variables at that point, and
the message thrown, if one was. -/
structure T1Exit (K : Type) where
  vars : T1Vars K
  thrown : Option String

/-! The code of `apos.cpp`. -/

/-- Speed of light (m/s): `kC` of `apos.cpp`. -/
def kC : Nat := 299792458

/-- Seconds in a day: `kDaySec` of `apos.cpp`. -/
def kDaySec : Nat := 86400

section AposCode

variable {K : Type} [LinearOrderedField K]
variable (sqrt : K → K) (jpl : K → Jpl K)

/-- Method `Apos::calc_dist`: distance between two bodies. -/
def calc_dist (p_1 p_2 : Coord K) : K :=
  sqrt ((p_2.x - p_1.x) * (p_2.x - p_1.x)
      + (p_2.y - p_1.y) * (p_2.y - p_1.y)
      + (p_2.z - p_1.z) * (p_2.z - p_1.z))

/-- The loop of `Apos::get_cval`: the index of the first name equal to `cnam`,
counted from `idx`; the length of the list (plus `idx`) when there is none. -/
def get_cval_idx (cnam : String) : List String → Nat → Nat
  | [], idx => idx
  | a :: rest, idx => if a = cnam then idx else get_cval_idx cnam rest (idx + 1)

/-- Method `Apos::get_cval`: `cvals[idx]` for the index found by the loop.  The result
is `none` when `idx` is not an index of `cvals`: `operator[]` does not check
its argument, so C++ gives that read no defined value. -/
def get_cval (cnams : List String) (cvals : List K) (cnam : String) : Option K :=
  cvals.get? (get_cval_idx cnam cnams 0)

/-- Method `Apos::calc_val_t2`: the state of Earth (3), Moon (10) and Sun (11)
relative to the barycentre (12) at time `t2`, the two distances from Earth and
the three radii. -/
def calc_val_t2 (a : Apos K) : Apos K :=
  let o_jpl := jpl a.jd
  let e := o_jpl.calc_pv 3 12
  let m := o_jpl.calc_pv 10 12
  let s := o_jpl.calc_pv 11 12
  { a with
    au := o_jpl.au
    p_e := Function.update a.p_e 1 e.1
    v_e := Function.update a.v_e 1 e.2
    p_m := Function.update a.p_m 1 m.1
    v_m := Function.update a.v_m 1 m.2
    p_s := Function.update a.p_s 1 s.1
    v_s := Function.update a.v_s 1 s.2
    d_e_s := calc_dist sqrt e.1 s.1
    d_e_m := calc_dist sqrt e.1 m.1
    r_s := get_cval o_jpl.cnams o_jpl.cvals "ASUN"
    r_m := get_cval o_jpl.cnams o_jpl.cvals "AM"
    r_e := get_cval o_jpl.cnams o_jpl.cvals "RE" }

/-- Method `Apos::calc_val_t1`: the state of Earth, Moon and Sun at time `t1`. -/
def calc_val_t1 (a : Apos K) (t1 : K) : Apos K :=
  let o_jpl := jpl t1
  let e := o_jpl.calc_pv 3 12
  let m := o_jpl.calc_pv 10 12
  let s := o_jpl.calc_pv 11 12
  { a with
    p_e := Function.update a.p_e 0 e.1
    v_e := Function.update a.v_e 0 e.2
    p_m := Function.update a.p_m 0 m.1
    v_m := Function.update a.v_m 0 m.2
    p_s := Function.update a.p_s 0 s.1
    v_s := Function.update a.v_s 0 s.2 }

/-- The body of the loop of `Apos::calc_t1` from its first statement to `++m`
(lines 341 to 349): the step `df` and the update of `t1`. -/
def calc_t1_update (a : Apos K) (t2 : K) (s : T1Vars K) : T1Vars K :=
  let r_12 : Coord K :=
    ⟨s.p_1.x - (a.p_e 1).x, s.p_1.y - (a.p_e 1).y, s.p_1.z - (a.p_e 1).z⟩
  let d_12 := calc_dist sqrt s.p_1 (a.p_e 1)
  let df := (((kC * kDaySec : Nat) : K) / a.au) * (t2 - s.t1) - d_12
  let df_wk := r_12.x * s.v_1.x + r_12.y * s.v_1.y + r_12.z * s.v_1.z
  let df := df / ((((kC * kDaySec : Nat) : K) / (a.au * 1000.0)) + df_wk / d_12)
  { s with t1 := s.t1 + df, df := df, m := s.m + 1 }

/-- The end of the body of the loop of `Apos::calc_t1` (lines 351 to 359): the
state of the target at the new `t1`. -/
def calc_t1_query (target : Nat) (s : T1Vars K) : T1Vars K :=
  let o_jpl := jpl s.t1
  let pv := o_jpl.calc_pv target 12
  { s with p_1 := pv.1, v_1 := pv.2 }

/-- The loop `while (df > 1.0e-10) { ... }` of `Apos::calc_t1`.  The counter
`m` is below 11 whenever the body is entered again, which is the measure of
the recursion. -/
def calc_t1_loop (a : Apos K) (target : Nat) (t2 : K) (s : T1Vars K) : T1Exit K :=
  if s.df > 1.0e-10 then
    if (calc_t1_update sqrt a t2 s).m > 10 then
      ⟨calc_t1_update sqrt a t2 s, some "[ERROR] Newton method error!"⟩
    else
      calc_t1_loop a target t2 (calc_t1_query jpl target (calc_t1_update sqrt a t2 s))
  else
    ⟨s, none⟩
termination_by 11 - s.m
decreasing_by
  all_goals simp_wf
  all_goals simp only [calc_t1_query, calc_t1_update] at *
  all_goals omega

/-- The beginning of `Apos::calc_t1` (lines 316 to 339): the variables before
the loop.  The result is `none` for a target other than Moon (10) and Sun
(11), for which the function returns `0.0` at once. -/
def calc_t1_init (a : Apos K) (target : Nat) : Option (T1Vars K) :=
  if target = 10 then
    some ⟨a.jd, a.p_m 1, a.v_m 1, 1.0, 0⟩
  else if target = 11 then
    some ⟨a.jd, a.p_s 1, a.v_s 1, 1.0, 0⟩
  else
    none

/-- Method `Apos::calc_t1` up to the end of its loop: how the loop ended;
`none` when the function returned before the loop. -/
def calc_t1_run (a : Apos K) (target : Nat) : Option (T1Exit K) :=
  match calc_t1_init a target with
  | none => none
  | some s => some (calc_t1_loop sqrt jpl a target a.jd s)

/-- The variables of `Apos::calc_t1` after `k` passes through the whole body
of its loop, started from `s`, whatever the tests of the loop say. -/
def calc_t1_iter (a : Apos K) (target : Nat) (s : T1Vars K) : Nat → T1Vars K
  | 0 => s
  | k + 1 => calc_t1_query jpl target (calc_t1_update sqrt a a.jd (calc_t1_iter a target s k))

/-- Method `Apos::calc_t1`: the time `t1` (Julian Day) at which the target emitted the
light received at `t2 = jd`; an error is the message thrown. -/
def calc_t1 (a : Apos K) (target : Nat) : Except String K :=
  match calc_t1_run sqrt jpl a target with
  | none => .ok 0.0
  | some r =>
    match r.thrown with
    | some msg => .error msg
    | none => .ok r.vars.t1

/-- Method `Apos::calc_unit_vector`: direction of body B seen from body A. -/
def calc_unit_vector (pos_a pos_b : Coord K) : Coord K :=
  let w := calc_dist sqrt pos_a pos_b
  let vec : Coord K := ⟨pos_b.x - pos_a.x, pos_b.y - pos_a.y, pos_b.z - pos_a.z⟩
  if w ≠ 0.0 then ⟨vec.x / w, vec.y / w, vec.z / w⟩ else vec

/-- Method `Apos::inner_prod`: inner product of two vectors. -/
def inner_prod (a b : Coord K) : K :=
  a.x * b.x + a.y * b.y + a.z * b.z

/-- Method `Apos::calc_vel`: the speed of a velocity vector. -/
def calc_vel (vec : Coord K) : K :=
  sqrt (vec.x * vec.x + vec.y * vec.y + vec.z * vec.z)

/-- Method `Apos::conv_lorentz`: correction of the aberration of a direction
vector. -/
def conv_lorentz (a : Apos K) (vec_d : Coord K) : Coord K :=
  let vec_v : Coord K :=
    ⟨((a.v_e 1).x / (kDaySec : K)) / ((kC : K) / (a.au * 1000.0)),
     ((a.v_e 1).y / (kDaySec : K)) / ((kC : K) / (a.au * 1000.0)),
     ((a.v_e 1).z / (kDaySec : K)) / ((kC : K) / (a.au * 1000.0))⟩
  let g := inner_prod vec_v vec_d
  let f := sqrt (1.0 - calc_vel sqrt vec_v)
  let vec_dd_1 : Coord K := ⟨vec_d.x * f, vec_d.y * f, vec_d.z * f⟩
  let vec_dd_2 : Coord K :=
    ⟨(1.0 + g / (1.0 + f)) * vec_v.x,
     (1.0 + g / (1.0 + f)) * vec_v.y,
     (1.0 + g / (1.0 + f)) * vec_v.z⟩
  let vec_dd : Coord K :=
    ⟨vec_dd_1.x + vec_dd_2.x, vec_dd_1.y + vec_dd_2.y, vec_dd_1.z + vec_dd_2.z⟩
  ⟨vec_dd.x / (1.0 + g), vec_dd.y / (1.0 + g), vec_dd.z / (1.0 + g)⟩

/-- Method `Apos::calc_pos`: position vector from a direction vector and a
distance. -/
def calc_pos (d : Coord K) (r : K) : Coord K :=
  ⟨d.x * r, d.y * r, d.z * r⟩

/-- The beginning of `Apos::sun` (lines 61 to 68): the rectangular position
`pos_sun` that is handed to `apply_bias_prec_nut`, and the object after
`calc_val_t1`. -/
def sun_pos_sun (a : Apos K) : Except String (Coord K × Apos K) :=
  match calc_t1 sqrt jpl a 11 with
  | .error msg => .error msg
  | .ok t1_jd =>
    let a := calc_val_t1 jpl a t1_jd
    let v_21 := calc_unit_vector sqrt (a.p_e 1) (a.p_s 0)
    let v_dd := conv_lorentz sqrt a v_21
    .ok (calc_pos v_dd a.d_e_s, a)

/-- The beginning of `Apos::moon` (lines 115 to 122): the rectangular position
`pos_moon` that is handed to `apply_bias_prec_nut`, and the object after
`calc_val_t1`. -/
def moon_pos_moon (a : Apos K) : Except String (Coord K × Apos K) :=
  match calc_t1 sqrt jpl a 10 with
  | .error msg => .error msg
  | .ok t1_jd =>
    let a := calc_val_t1 jpl a t1_jd
    let v_21 := calc_unit_vector sqrt (a.p_e 1) (a.p_m 0)
    let v_dd := conv_lorentz sqrt a v_21
    .ok (calc_pos v_dd a.d_e_m, a)

end AposCode

/-! The code of `nutation.cpp`. -/

section NutationCode

variable {K : Type} [LinearOrderedField K] [FloorRing K]
variable (sin cos atan : K → K)

/-- Function `std::fmod` of `<cmath>` in exact arithmetic: `x - n * y`, where
`n` is the quotient `x / y` with its fractional part cut off (rounded toward
zero), so that the result has the sign of `x`. -/
def fmod (x y : K) : K :=
  if 0 ≤ x / y then x - (⌊x / y⌋ : K) * y else x - (⌈x / y⌉ : K) * y

/-- Element `row[j]` of a table row.  A read outside the row, which C++ leaves
undefined, reads `0`. -/
def col (row : List K) (j : Nat) : K :=
  row.getD j 0

namespace Nutation

/-- Constant `kPi` of `nutation.cpp`. -/
def kPi : K := atan 1.0 * 4

/-- Constant `kPi2` of `nutation.cpp`. -/
def kPi2 : K := kPi atan * 2

/-- Constant `kAs2R` of `nutation.cpp`: arcseconds to radians. -/
def kAs2R : K := 4.848136811095359935899141e-6

/-- Constant `kTurnas` of `nutation.cpp`: arcseconds in a full circle. -/
def kTurnas : K := 1296000.0

/-- Constant `kU2R` of `nutation.cpp`: units of 0.1 microarcsecond to
radians. -/
def kU2R : K := kAs2R / 1.0e7

/-- Method `Nutation::fmod_p`: the non-negative remainder. -/
def fmod_p (a n : K) : K :=
  a - (⌊a / n⌋ : K) * n

/-- Method `Nutation::calc_l_iers2003`: mean anomaly of the Moon. -/
def calc_l_iers2003 (t : K) : K :=
  let v : K := (485868.249036 + (1717915923.2178 + (31.8792 + (0.051635 +
    (-0.00024470) * t) * t) * t) * t)
  fmod_p v kTurnas * kAs2R

/-- Method `Nutation::calc_lp_mhb2000`: mean anomaly of the Sun. -/
def calc_lp_mhb2000 (t : K) : K :=
  let v : K := (1287104.79305 + (129596581.0481 + (-0.5532 + (0.000136 +
    (-0.00001149) * t) * t) * t) * t)
  fmod_p v kTurnas * kAs2R

/-- Method `Nutation::calc_f_iers2003`: mean longitude of the Moon minus that
of the ascending node. -/
def calc_f_iers2003 (t : K) : K :=
  let v : K := (335779.526232 + (1739527262.8478 + (-12.7512 + (-0.001037 +
    (0.00000417) * t) * t) * t) * t)
  fmod_p v kTurnas * kAs2R

/-- Method `Nutation::calc_d_mhb2000`: mean elongation of the Moon from the
Sun. -/
def calc_d_mhb2000 (t : K) : K :=
  let v : K := (1072260.70369 + (1602961601.2090 + (-6.3706 + (0.006593 +
    (-0.00003169) * t) * t) * t) * t)
  fmod_p v kTurnas * kAs2R

/-- Method `Nutation::calc_om_iers2003`: mean longitude of the ascending node
of the Moon. -/
def calc_om_iers2003 (t : K) : K :=
  let v : K := (450160.398036 + (-6962890.5431 + (7.4722 + (0.007702 +
    (-0.00005939) * t) * t) * t) * t)
  fmod_p v kTurnas * kAs2R

/-- Method `Nutation::calc_l_mhb2000`: mean anomaly of the Moon (MHB2000). -/
def calc_l_mhb2000 (t : K) : K :=
  fmod (2.35555598 + 8328.6914269554 * t) (kPi2 atan)

/-- Method `Nutation::calc_f_mhb2000`: mean longitude of the Moon minus that
of the ascending node (MHB2000). -/
def calc_f_mhb2000 (t : K) : K :=
  fmod (1.627905234 + 8433.466158131 * t) (kPi2 atan)

/-- Method `Nutation::calc_d_mhb2000_2`: mean elongation of the Moon from the
Sun (MHB2000). -/
def calc_d_mhb2000_2 (t : K) : K :=
  fmod (5.198466741 + 7771.3771468121 * t) (kPi2 atan)

/-- Method `Nutation::calc_om_mhb2000`: mean longitude of the ascending node
of the Moon (MHB2000). -/
def calc_om_mhb2000 (t : K) : K :=
  let v : K := 2.18243920 - 33.757045 * t
  fmod_p v (kPi2 atan)

/-- Method `Nutation::calc_pa_iers2003`: general accumulated precession in
longitude. -/
def calc_pa_iers2003 (t : K) : K :=
  (0.024381750 + 0.00000538691 * t) * t

/-- Method `Nutation::calc_lme_iers2003`: mean longitude of Mercury. -/
def calc_lme_iers2003 (t : K) : K :=
  fmod (4.402608842 + 2608.7903141574 * t) (kPi2 atan)

/-- Method `Nutation::calc_lve_iers2003`: mean longitude of Venus. -/
def calc_lve_iers2003 (t : K) : K :=
  fmod (3.176146697 + 1021.3285546211 * t) (kPi2 atan)

/-- Method `Nutation::calc_lea_iers2003`: mean longitude of Earth. -/
def calc_lea_iers2003 (t : K) : K :=
  fmod (1.753470314 + 628.3075849991 * t) (kPi2 atan)

/-- Method `Nutation::calc_lma_iers2003`: mean longitude of Mars. -/
def calc_lma_iers2003 (t : K) : K :=
  fmod (6.203480913 + 334.0612426700 * t) (kPi2 atan)

/-- Method `Nutation::calc_lju_iers2003`: mean longitude of Jupiter. -/
def calc_lju_iers2003 (t : K) : K :=
  fmod (0.599546497 + 52.9690962641 * t) (kPi2 atan)

/-- Method `Nutation::calc_lsa_iers2003`: mean longitude of Saturn. -/
def calc_lsa_iers2003 (t : K) : K :=
  fmod (0.874016757 + 21.3299104960 * t) (kPi2 atan)

/-- Method `Nutation::calc_lur_iers2003`: mean longitude of Uranus. -/
def calc_lur_iers2003 (t : K) : K :=
  fmod (5.481293872 + 7.4781598567 * t) (kPi2 atan)

/-- Method `Nutation::calc_lne_mhb2000`: mean longitude of Neptune. -/
def calc_lne_mhb2000 (t : K) : K :=
  fmod (5.321159000 + 3.8127774000 * t) (kPi2 atan)

/-- The body of the loop of `Nutation::calc_lunisolar` (lines 96 to 102) for
one row of the table: the sums `(dp, de)` after the row, from the sums `acc`
before it. -/
def calc_lunisolar_row (t l lp f d om : K) (row : List K) (acc : K × K) : K × K :=
  let a := col row 0 * l + col row 1 * lp + col row 2 * f
    + col row 3 * d + col row 4 * om
  let a := fmod_p a (kPi2 atan)
  let sa := sin a
  let ca := cos a
  (acc.1 + ((col row 5 + col row 6 * t) * sa + col row 7 * ca),
   acc.2 + ((col row 8 + col row 9 * t) * ca + col row 10 * sa))

/-- Method `Nutation::calc_lunisolar`: the luni-solar nutation
`(dpsi, deps)`.  The loop runs from the last row of the table to the first,
which is the order in which `List.foldr` meets the rows.  No statement of the
body can throw, so the status returned is always `true`; the model returns
the two angles written through the reference arguments. -/
def calc_lunisolar (t : K) (dat_ls : List (List K)) : K × K :=
  let l := calc_l_iers2003 t
  let lp := calc_lp_mhb2000 t
  let f := calc_f_iers2003 t
  let d := calc_d_mhb2000 t
  let om := calc_om_iers2003 t
  let acc := dat_ls.foldr (calc_lunisolar_row sin cos atan t l lp f d om) (0.0, 0.0)
  (acc.1 * kU2R, acc.2 * kU2R)

/-- The body of the loop of `Nutation::calc_planetary` (lines 156 to 165) for
one row of the table. -/
def calc_planetary_row (l f d om pa lme lve lea lma lju lsa lur lne : K)
    (row : List K) (acc : K × K) : K × K :=
  let a := col row 0 * l + col row 2 * f + col row 3 * d
    + col row 4 * om + col row 5 * lme + col row 6 * lve
    + col row 7 * lea + col row 8 * lma + col row 9 * lju
    + col row 10 * lsa + col row 11 * lur + col row 12 * lne
    + col row 13 * pa
  let a := fmod_p a (kPi2 atan)
  let sa := sin a
  let ca := cos a
  (acc.1 + (col row 14 * sa + col row 15 * ca),
   acc.2 + (col row 16 * sa + col row 17 * ca))

/-- Method `Nutation::calc_planetary`: the planetary nutation `(dpsi, deps)`.
The remarks on `calc_lunisolar` apply. -/
def calc_planetary (t : K) (dat_pl : List (List K)) : K × K :=
  let l := calc_l_mhb2000 atan t
  let f := calc_f_mhb2000 atan t
  let d := calc_d_mhb2000_2 atan t
  let om := calc_om_mhb2000 atan t
  let pa := calc_pa_iers2003 t
  let lme := calc_lme_iers2003 atan t
  let lve := calc_lve_iers2003 atan t
  let lea := calc_lea_iers2003 atan t
  let lma := calc_lma_iers2003 atan t
  let lju := calc_lju_iers2003 atan t
  let lsa := calc_lsa_iers2003 atan t
  let lur := calc_lur_iers2003 atan t
  let lne := calc_lne_mhb2000 atan t
  let acc := dat_pl.foldr
    (calc_planetary_row sin cos atan l f d om pa lme lve lea lma lju lsa lur lne) (0.0, 0.0)
  (acc.1 * kU2R, acc.2 * kU2R)

/-- Method `Nutation::calc_nutation`: the nutation `(dpsi, deps)` at the Julian
century `t`, the sum of the luni-solar and the planetary part.  Both parts
report success, so the branches that leave the function early are not taken. -/
def calc_nutation (t : K) (dat_ls dat_pl : List (List K)) : K × K :=
  let ls := calc_lunisolar sin cos atan t dat_ls
  let pl := calc_planetary sin cos atan t dat_pl
  (ls.1 + pl.1, ls.2 + pl.2)

end Nutation

end NutationCode

/-! The code of `matrix.hpp` and `bpn.cpp`. -/

/-- A `double[3][3]`: a matrix of three rows and three columns. -/
abbrev Mat3 (K : Type) : Type := Matrix (Fin 3) (Fin 3) K

/-- The data members of class `Bpn` (`bpn.hpp`). -/
structure Bpn (K : Type) where
  dat_ls : List (List K)
  dat_pl : List (List K)
  jcn : K
  eps : K
  r_bias : Mat3 K
  r_bias_prec : Mat3 K
  r_bias_prec_nut : Mat3 K
  r_prec : Mat3 K
  r_prec_nut : Mat3 K
  r_nut : Mat3 K

section BpnCode

variable {K : Type} [LinearOrderedField K] [FloorRing K]
variable (calc_ob : K → K) (sin cos atan : K → K)

/-- The unit matrix `kMtxUnit` of `matrix.hpp`. -/
def kMtxUnit : Mat3 K :=
  !![1.0, 0.0, 0.0;
     0.0, 1.0, 0.0;
     0.0, 0.0, 1.0]

/-- The rotation `R1(A)` about the x axis, as the comments of `bpn.cpp` write
it. -/
def R1 (A : K) : Mat3 K :=
  !![1, 0, 0;
     0, cos A, sin A;
     0, -sin A, cos A]

/-- The rotation `R2(A)` about the y axis, as the comments of `bpn.cpp` write
it. -/
def R2 (A : K) : Mat3 K :=
  !![cos A, 0, -sin A;
     0, 1, 0;
     sin A, 0, cos A]

/-- The rotation `R3(A)` about the z axis, as the comments of `bpn.cpp` write
it. -/
def R3 (A : K) : Mat3 K :=
  !![cos A, sin A, 0;
     -sin A, cos A, 0;
     0, 0, 1]

/-- Modelled from the spec: `matrix.cpp` is not among the sources, only the
declaration of `r_x` in `matrix.hpp` is.  The call `r_x(phi, r_dst, r_src)`
writes to `r_dst` the source matrix `r_src` multiplied on the left by the
rotation `R1(phi)`, the reading under which the calls of `gen_r_prec` build
the product `R1(-eps) * R3(-psi) * R1(phi) * R3(gamma)` of its comment; the
model returns `r_dst` (the status returned is always `true`). -/
def r_x (phi : K) (r_src : Mat3 K) : Mat3 K :=
  R1 sin cos phi * r_src

/-- Modelled from the spec: `matrix.cpp` is not among the sources.  The call
`r_y(theta, r_dst, r_src)` writes to `r_dst` the source matrix multiplied on
the left by the rotation `R2(theta)`. -/
def r_y (theta : K) (r_src : Mat3 K) : Mat3 K :=
  R2 sin cos theta * r_src

/-- Modelled from the spec: `matrix.cpp` is not among the sources.  The call
`r_z(psi, r_dst, r_src)` writes to `r_dst` the source matrix multiplied on
the left by the rotation `R3(psi)`. -/
def r_z (psi : K) (r_src : Mat3 K) : Mat3 K :=
  R3 sin cos psi * r_src

namespace Bpn

/-- Constant `kPi` of `bpn.cpp`. -/
def kPi : K := atan 1.0 * 4

/-- Constant `kPi2` of `bpn.cpp`. -/
def kPi2 : K := kPi atan * 2

/-- Constant `kAs2R` of `bpn.cpp`: arcseconds to radians. -/
def kAs2R : K := kPi atan / (3600.0 * 180.0)

/-- Constant `kMas2R` of `bpn.cpp`: milliarcseconds to radians. -/
def kMas2R : K := kAs2R atan / 1000.0

/-- Method `Bpn::comp_gamma_bp`: the angle gamma of bias and precession. -/
def comp_gamma_bp (jcn : K) : K :=
  (-0.052928 + (10.556378 + (0.4932044 + (-0.00031238 + (-0.000002788 +
    (0.0000000260) * jcn) * jcn) * jcn) * jcn) * jcn) * kAs2R atan

/-- Method `Bpn::comp_phi_bp`: the angle phi of bias and precession. -/
def comp_phi_bp (jcn : K) : K :=
  (84381.412819 + (-46.811016 + (0.0511268 + (0.00053289 + (-0.000000440 +
    (-0.0000000176) * jcn) * jcn) * jcn) * jcn) * jcn) * kAs2R atan

/-- Method `Bpn::comp_psi_bp`: the angle psi of bias and precession. -/
def comp_psi_bp (jcn : K) : K :=
  (-0.041775 + (5038.481484 + (1.5584175 + (-0.00018522 + (-0.000026452 +
    (-0.0000000148) * jcn) * jcn) * jcn) * jcn) * jcn) * kAs2R atan

/-- Method `Bpn::comp_gamma_p`: the angle gamma of precession. -/
def comp_gamma_p (jcn : K) : K :=
  ((10.556403 + (0.4932044 + (-0.00031238 + (-0.000002788 +
    (0.0000000260) * jcn) * jcn) * jcn) * jcn) * jcn) * kAs2R atan

/-- Method `Bpn::comp_phi_p`: the angle phi of precession. -/
def comp_phi_p (jcn : K) : K :=
  (84381.406000 + (-46.811015 + (0.0511269 + (0.00053289 + (-0.000000440 +
    (-0.0000000176) * jcn) * jcn) * jcn) * jcn) * jcn) * kAs2R atan

/-- Method `Bpn::comp_psi_p`: the angle psi of precession. -/
def comp_psi_p (jcn : K) : K :=
  ((5038.481507 + (1.5584176 + (-0.00018522 + (-0.000026452 +
    (-0.0000000148) * jcn) * jcn) * jcn) * jcn) * jcn) * kAs2R atan

/-- Method `Bpn::gen_r_bias`: the matrix of the frame bias.  Like the other
`gen_r_` methods it reports success, and the model returns the matrix written
through the reference argument. -/
def gen_r_bias : Mat3 K :=
  let r_0 := r_x sin cos (-5.1 * kMas2R atan) kMtxUnit
  let r_1 := r_y sin cos (-17.3 * kMas2R atan) r_0
  r_z sin cos (78.0 * kMas2R atan) r_1

/-- Method `Bpn::gen_r_bias_prec`: the matrix of bias and precession. -/
def gen_r_bias_prec (jcn eps : K) : Mat3 K :=
  let gamma := comp_gamma_bp atan jcn
  let phi := comp_phi_bp atan jcn
  let psi := comp_psi_bp atan jcn
  let r_0 := r_z sin cos gamma kMtxUnit
  let r_1 := r_x sin cos phi r_0
  let r_2 := r_z sin cos (-psi) r_1
  r_x sin cos (-eps) r_2

/-- Method `Bpn::gen_r_bias_prec_nut`: the matrix of bias, precession and
nutation. -/
def gen_r_bias_prec_nut (dat_ls dat_pl : List (List K)) (jcn eps : K) : Mat3 K :=
  let n := Nutation.calc_nutation sin cos atan jcn dat_ls dat_pl
  let dpsi := n.1
  let deps := n.2
  let gamma := comp_gamma_bp atan jcn
  let phi := comp_phi_bp atan jcn
  let psi := comp_psi_bp atan jcn
  let fj2 := -2.7774e-6 * jcn
  let dpsi := dpsi + dpsi * (0.4697e-6 + fj2)
  let deps := deps + deps * fj2
  let r_0 := r_z sin cos gamma kMtxUnit
  let r_1 := r_x sin cos phi r_0
  let r_2 := r_z sin cos (-psi - dpsi) r_1
  r_x sin cos (-eps - deps) r_2

/-- Method `Bpn::gen_r_prec`: the matrix of precession. -/
def gen_r_prec (jcn eps : K) : Mat3 K :=
  let gamma := comp_gamma_p atan jcn
  let phi := comp_phi_p atan jcn
  let psi := comp_psi_p atan jcn
  let r_0 := r_z sin cos gamma kMtxUnit
  let r_1 := r_x sin cos phi r_0
  let r_2 := r_z sin cos (-psi) r_1
  r_x sin cos (-eps) r_2

/-- Method `Bpn::gen_r_prec_nut`: the matrix of precession and nutation. -/
def gen_r_prec_nut (dat_ls dat_pl : List (List K)) (jcn eps : K) : Mat3 K :=
  let n := Nutation.calc_nutation sin cos atan jcn dat_ls dat_pl
  let dpsi := n.1
  let deps := n.2
  let gamma := comp_gamma_p atan jcn
  let phi := comp_phi_p atan jcn
  let psi := comp_psi_p atan jcn
  let fj2 := -2.7774e-6 * jcn
  let dpsi := dpsi + dpsi * (0.4697e-6 + fj2)
  let deps := deps + deps * fj2
  let r_0 := r_z sin cos gamma kMtxUnit
  let r_1 := r_x sin cos phi r_0
  let r_2 := r_z sin cos (-psi - dpsi) r_1
  r_x sin cos (-eps - deps) r_2

/-- Method `Bpn::gen_r_nut`: the matrix of nutation. -/
def gen_r_nut (dat_ls dat_pl : List (List K)) (jcn eps : K) : Mat3 K :=
  let n := Nutation.calc_nutation sin cos atan jcn dat_ls dat_pl
  let dpsi := n.1
  let deps := n.2
  let fj2 := -2.7774e-6 * jcn
  let dpsi := dpsi + dpsi * (0.4697e-6 + fj2)
  let deps := deps + deps * fj2
  let r_0 := r_x sin cos eps kMtxUnit
  let r_1 := r_z sin cos (-dpsi) r_0
  r_x sin cos (-eps - deps) r_1

/-- The constructor `Bpn::Bpn`: the obliquity at `jcn` and the six matrices.
The method `Obliquity::calc_ob` (`obliquity.cpp` is not among the sources) is
the argument `calc_ob`. -/
def ctor (jcn : K) (dat_ls dat_pl : List (List K)) : Bpn K :=
  let eps := calc_ob jcn
  { dat_ls := dat_ls
    dat_pl := dat_pl
    jcn := jcn
    eps := eps
    r_bias := gen_r_bias sin cos atan
    r_bias_prec := gen_r_bias_prec sin cos atan jcn eps
    r_bias_prec_nut := gen_r_bias_prec_nut sin cos atan dat_ls dat_pl jcn eps
    r_prec := gen_r_prec sin cos atan jcn eps
    r_prec_nut := gen_r_prec_nut sin cos atan dat_ls dat_pl jcn eps
    r_nut := gen_r_nut sin cos atan dat_ls dat_pl jcn eps }

end Bpn

end BpnCode


/-! The class `Time` of `time.cpp`. -/

/-- The members of `struct tm` that `time.cpp` reads after `localtime_r`. -/
structure Tm where
  tm_year : Int
  tm_mon : Int
  tm_mday : Int
  tm_hour : Int
  tm_min : Int
  tm_sec : Int
deriving DecidableEq

/-- The `struct timespec`: seconds and nanoseconds, integers without
wraparound. -/
structure Timespec where
  tv_sec : Int
  tv_nsec : Int
deriving DecidableEq

/-- The class `Time` of `time.hpp`: the two tables (static members in
`time.cpp`) and the members of one object. -/
structure Time (K : Type) where
  l_ls : List (List String)
  l_dut : List (List String)
  ts : Timespec
  ts_tai : Timespec
  ts_ut1 : Timespec
  ts_tt : Timespec
  ts_tcg : Timespec
  ts_tcb : Timespec
  ts_tdb : Timespec
  jd : K
  t : K
  dut1 : K
  dlt_t : K
  utc_tai : Int

section TimeCode

variable {K : Type} [LinearOrderedField K] [FloorRing K]
variable (localtime_r : Int → Tm)
variable (stoi : String → Except String Int) (stod : String → Except String K)

/-- The conversion of a `double` to `long` in an assignment: the fractional
part is discarded (truncation toward zero). -/
def toLong (x : K) : Int :=
  if 0 ≤ x then ⌊x⌋ else ⌈x⌉

/-- The output of an integer to a stream after `std::setw(w)`,
`std::setfill('0')` and `std::right`: the decimal digits, with a minus sign
when negative, filled on the left with `0` up to `w` characters. -/
def put_int (w : Nat) (n : Int) : String :=
  let s := toString n
  String.mk (List.replicate (w - s.length) '0') ++ s

/-- Element `j` of a row, `row[j]` in the source. The source does not check
the index; an absent column is an error here. -/
def at_col (row : List String) (j : Nat) : Except String String :=
  match row.get? j with
  | some s => .ok s
  | none => .error "column out of range"

namespace Time

/-- The target date `dt_t` of `Time::get_utc_tai` and `Time::get_dut1`
(lines 422 to 429 and 462 to 469): year, month and day of the broken-down
time in 4, 2 and 2 characters. -/
def gen_dt_t (ts : Timespec) : String :=
  let t := localtime_r ts.tv_sec
  put_int 4 (t.tm_year + 1900) ++ put_int 2 (t.tm_mon + 1) ++ put_int 2 t.tm_mday

/-- The loop of `Time::get_utc_tai` (lines 432 to 437) from the index `n - 1`
downward: at `n = 0` the index is `-1`, the loop is over and `utc_tai` still
has its initial value `0`. -/
def get_utc_tai_loop (l_ls : List (List String)) (dt_t : String) :
    Nat → Except String Int
  | 0 => .ok 0
  | i + 1 =>
    match l_ls.get? i with
    | none => .error "row out of range"
    | some row =>
      match at_col row 0 with
      | .error e => .error e
      | .ok d =>
        if d ≤ dt_t then
          match at_col row 1 with
          | .error e => .error e
          | .ok v => stoi v
        else get_utc_tai_loop l_ls dt_t i

/-- Method `Time::get_utc_tai`: the value returned, which is also the value
left in the member `utc_tai`. The function `std::stoi` is the argument
`stoi`, an exception is an error. -/
def get_utc_tai (l_ls : List (List String)) (ts : Timespec) : Except String Int :=
  get_utc_tai_loop stoi l_ls (gen_dt_t localtime_r ts) l_ls.length

/-- The loop of `Time::get_dut1` (lines 472 to 477) from the index `n - 1`
downward: at `n = 0` the loop is over and `dut1` still has its initial value
`0.0`. -/
def get_dut1_loop (l_dut : List (List String)) (dt_t : String) :
    Nat → Except String K
  | 0 => .ok 0.0
  | i + 1 =>
    match l_dut.get? i with
    | none => .error "row out of range"
    | some row =>
      match at_col row 0 with
      | .error e => .error e
      | .ok d =>
        if d ≤ dt_t then
          match at_col row 1 with
          | .error e => .error e
          | .ok v => stod v
        else get_dut1_loop l_dut dt_t i

/-- Method `Time::get_dut1`: the value returned, which is also the value left
in the member `dut1`. The function `std::stod` is the argument `stod`, an
exception is an error. -/
def get_dut1 (l_dut : List (List String)) (ts : Timespec) : Except String K :=
  get_dut1_loop stod l_dut (gen_dt_t localtime_r ts) l_dut.length

/-- The constructor `Time::Time(ts)` of `time.cpp`. The arguments `l_ls` and
`l_dut` are the static tables before the call. When one of them is empty the
files are read: `f_ls` and `f_dut` are the rows that `File::get_leap_sec_list`
and `File::get_dut1_list` append, `none` when the method returns `false`
(the file cannot be opened); the bare `throw;` that follows ends the program,
an error here. -/
def ctor (f_ls f_dut : Option (List (List String)))
    (l_ls l_dut : List (List String)) (ts : Timespec) : Except String (Time K) :=
  let tables : Except String (List (List String) × List (List String)) :=
    if l_ls.length = 0 ∨ l_dut.length = 0 then
      match f_ls with
      | none => .error "terminate"
      | some a =>
        match f_dut with
        | none => .error "terminate"
        | some b => .ok (l_ls ++ a, l_dut ++ b)
    else .ok (l_ls, l_dut)
  match tables with
  | .error e => .error e
  | .ok (l_ls1, l_dut1) =>
    match get_utc_tai localtime_r stoi l_ls1 ts with
    | .error e => .error e
    | .ok utc_tai =>
      match get_dut1 localtime_r stod l_dut1 ts with
      | .error e => .error e
      | .ok dut1 =>
        .ok { l_ls := l_ls1
              l_dut := l_dut1
              ts := ts
              ts_tai := ⟨0, 0⟩
              ts_ut1 := ⟨0, 0⟩
              ts_tt := ⟨0, 0⟩
              ts_tcg := ⟨0, 0⟩
              ts_tcb := ⟨0, 0⟩
              ts_tdb := ⟨0, 0⟩
              jd := 0.0
              t := 0.0
              dut1 := dut1
              dlt_t := 0.0
              utc_tai := utc_tai }

/-- Method `Time::utc2ut1`: the instant returned and the object after the
call (the member `ts_ut1` holds the instant returned). -/
def utc2ut1 (o : Time K) (ts : Timespec) : Timespec × Time K :=
  let s0 : Timespec :=
    { tv_sec := ts.tv_sec
      tv_nsec := toLong ((ts.tv_nsec : K) + o.dut1 * 1.0e9) }
  let s1 : Timespec :=
    if (s0.tv_nsec : K) > 1.0e9 then
      { tv_sec := s0.tv_sec + 1
        tv_nsec := toLong ((s0.tv_nsec : K) - 1.0e9) }
    else if s0.tv_nsec < 0 then
      { tv_sec := s0.tv_sec - 1
        tv_nsec := toLong ((s0.tv_nsec : K) + 1.0e9) }
    else s0
  (s1, { o with ts_ut1 := s1 })

end Time

end TimeCode


/-! The functions of `delta_t.cpp`. -/

section DeltaTCode

variable {K : Type} [LinearOrderedField K]

/-- Function `calc_dlt_t_bf_m500`: ΔT for `year < -500`. -/
def calc_dlt_t_bf_m500 (y : K) : K :=
  let t := (y - 1820) / 100.0;
  -20 + 32 * t * t

/-- Function `calc_dlt_t_bf_0500`: ΔT for `-500 <= year < 500`. -/
def calc_dlt_t_bf_0500 (y : K) : K :=
  let t := y / 100.0
  10583.6 + (-1014.41 + (33.78311 + (-5.952053 + (-0.1798452 + (0.022174192
    + (0.0090316521) * t) * t) * t) * t) * t) * t

/-- Function `calc_dlt_t_bf_1600`: ΔT for `500 <= year < 1600`. -/
def calc_dlt_t_bf_1600 (y : K) : K :=
  let t := (y - 1000) / 100.0
  1574.2 + (-556.01 + (71.23472 + (0.319781 + (-0.8503463 + (-0.005050998
    + (0.0083572073) * t) * t) * t) * t) * t) * t

/-- Function `calc_dlt_t_bf_1700`: ΔT for `1600 <= year < 1700`. -/
def calc_dlt_t_bf_1700 (y : K) : K :=
  let t := y - 1600
  120 + (-0.9808 + (-0.01532 + (1.0 / 7129.0) * t) * t) * t

/-- Function `calc_dlt_t_bf_1800`: ΔT for `1700 <= year < 1800`. -/
def calc_dlt_t_bf_1800 (y : K) : K :=
  let t := y - 1700
  8.83 + (0.1603 + (-0.0059285 + (0.00013336 + (-1.0 / 1174000.0) * t) * t) * t) * t

/-- Function `calc_dlt_t_bf_1860`: ΔT for `1800 <= year < 1860`. -/
def calc_dlt_t_bf_1860 (y : K) : K :=
  let t := y - 1800
  13.72 + (-0.332447 + (0.0068612 + (0.0041116 + (-0.00037436 + (0.0000121272
    + (-0.0000001699 + (0.000000000875) * t) * t) * t) * t) * t) * t) * t

/-- Function `calc_dlt_t_bf_1900`: ΔT for `1860 <= year < 1900`. -/
def calc_dlt_t_bf_1900 (y : K) : K :=
  let t := y - 1860
  7.62 + (0.5737 + (-0.251754 + (0.01680668 + (-0.0004473624
    + (1.0 / 233174.0) * t) * t) * t) * t) * t

/-- Function `calc_dlt_t_bf_1920`: ΔT for `1900 <= year < 1920`. -/
def calc_dlt_t_bf_1920 (y : K) : K :=
  let t := y - 1900;
  -2.79 + (1.494119 + (-0.0598939 + (0.0061966 + (-0.000197) * t) * t) * t) * t

/-- Function `calc_dlt_t_bf_1941`: ΔT for `1920 <= year < 1941`. -/
def calc_dlt_t_bf_1941 (y : K) : K :=
  let t := y - 1920
  21.20 + (0.84493 + (-0.076100 + (0.0020936) * t) * t) * t

/-- Function `calc_dlt_t_bf_1961`: ΔT for `1941 <= year < 1961`. -/
def calc_dlt_t_bf_1961 (y : K) : K :=
  let t := y - 1950
  29.07 + (0.407 + (-1 / 233.0 + (1 / 2547.0) * t) * t) * t

/-- Function `calc_dlt_t_bf_1986`: ΔT for `1961 <= year < 1986`. -/
def calc_dlt_t_bf_1986 (y : K) : K :=
  let t := y - 1975
  45.45 + (1.067 + (-1 / 260.0 + (-1 / 718.0) * t) * t) * t

/-- Function `calc_dlt_t_bf_2005`: ΔT for `1986 <= year < 2005`. -/
def calc_dlt_t_bf_2005 (y : K) : K :=
  let t := y - 2000
  63.86 + (0.3345 + (-0.060374 + (0.0017275 + (0.000651814
    + (0.00002373599) * t) * t) * t) * t) * t

/-- Function `calc_dlt_t_bf_2050`: ΔT for `2005 <= year < 2050`. -/
def calc_dlt_t_bf_2050 (y : K) : K :=
  let t := y - 2000
  62.92 + (0.32217 + (0.005589) * t) * t

/-- Function `calc_dlt_t_to_2150`: ΔT for `2050 <= year <= 2150`. -/
def calc_dlt_t_to_2150 (y : K) : K :=
  let t := (y - 1820) / 100.0;
  -20 + 32 * t * t - 0.5628 * (2150 - y)

/-- Function `calc_dlt_t_af_2150`: ΔT for `2150 < year`. -/
def calc_dlt_t_af_2150 (y : K) : K :=
  let t := (y - 1820) / 100.0;
  -20 + 32 * t * t

end DeltaTCode

/-! The time scales of `time.cpp`. -/

/-- Seconds in a day: `kSecDay` of `time.cpp`. -/
def kSecDay : Int := 86400

/-- Julian Day of 2000-01-01 12:00:00: `kJ2000` of `time.cpp`. -/
def kJ2000 : Int := 2451545

section TimeScales

variable {K : Type} [LinearOrderedField K] [FloorRing K]
variable (localtime_r : Int → Tm)

/-- One Julian year in days: `kJy` of `time.cpp`. -/
def kJy : K := 365.25

/-- The difference TT - TAI in seconds: `kTtTai` of `time.cpp`. -/
def kTtTai : K := 32.184

/-- The rate `L_G` of TCG: `kLG` of `time.cpp`. -/
def kLG : K := 6.969290134e-10

/-- The rate `L_B` of TCB and TDB: `kLB` of `time.cpp`. -/
def kLB : K := 1.550519768e-8

/-- The Julian Day `T0` of 1977-01-01 00:00:32.184: `kT0` of `time.cpp`. -/
def kT0 : K := 2443144.5003725

/-- The offset `TDB0` in seconds: `kTdb0` of `time.cpp`. -/
def kTdb0 : K := -6.55e-5

/-- The conversion of an `int` to `unsigned int`: the value modulo `2^32`. -/
def toUInt (n : Int) : Int :=
  n % 4294967296

/-- The IEEE binary64 number nearest to `x`, for an `x` in the binade whose
numbers are spaced `2^-p` apart (`2^(52-p) ≤ |x| < 2^(53-p)`): the nearest
multiple of `2^-p`.  A tie, which binary64 rounds to the even multiple, is
rounded upward here; the two uses in `Time.tai2tt` meet none. -/
def round_b64 (p : Nat) (x : K) : K :=
  (⌊x * 2 ^ p + 1 / 2⌋ : K) / 2 ^ p

namespace Time

/-- Method `Time::gc2jd`: the Julian Day of an instant from its broken-down
time. The members of `struct tm` are stored in `unsigned int` variables; a
`static_cast<int>` cuts off the fractional part. -/
def gc2jd (ts : Timespec) : K :=
  let t := localtime_r ts.tv_sec
  let year0 : Int := toUInt (t.tm_year + 1900)
  let month0 : Int := toUInt (t.tm_mon + 1)
  let day : Int := toUInt t.tm_mday
  let hour : Int := toUInt t.tm_hour
  let min : Int := toUInt t.tm_min
  let sec : Int := toUInt t.tm_sec
  let year : Int := if month0 < 3 then toUInt (year0 - 1) else year0
  let month : Int := if month0 < 3 then toUInt (month0 + 12) else month0
  let n : Int := toLong (365.25 * (year : K)) + toLong ((year : K) / 400.0)
    - toLong ((year : K) / 100.0) + toLong (30.59 * ((toUInt (month - 2) : Int) : K))
  let jd : K := ((toUInt (n + day) : Int) : K) + 1721088.5
  let jd : K := jd + ((sec : K) / 3600.0 + (min : K) / 60.0 + (hour : K)) / 24.0
  jd + (ts.tv_nsec : K) / 1000000000.0 / 3600.0 / 24.0

/-- Method `Time::jd2t`: the Julian century number of a Julian Day. -/
def jd2t (jd_a : K) : K :=
  (jd_a - (kJ2000 : K)) / (kJy * 100)

/-- Method `Time::calc_jd`: the Julian Day returned and the object after the
call. -/
def calc_jd (o : Time K) : K × Time K :=
  let jd := gc2jd localtime_r o.ts
  (jd, { o with jd := jd })

/-- Method `Time::calc_t`: the Julian century number returned and the object
after the call. -/
def calc_t (o : Time K) : K × Time K :=
  let jd := if o.jd = 0.0 then gc2jd localtime_r o.ts else o.jd
  let t := jd2t jd
  (t, { o with jd := jd, t := t })

/-- The choice of the regime in `Time::calc_dlt_t` (lines 179 to 209): the
value assigned to `dlt_t` for the calendar year `year` and the year `y` of
the computation; `dlt_t` keeps its value when no test holds. -/
def calc_dlt_t_regime (dlt_t : K) (year : Int) (y : K) : K :=
  if year < -500 then calc_dlt_t_bf_m500 y
  else if -500 ≤ year ∧ year < 500 then calc_dlt_t_bf_0500 y
  else if 500 ≤ year ∧ year < 1600 then calc_dlt_t_bf_1600 y
  else if 1600 ≤ year ∧ year < 1700 then calc_dlt_t_bf_1700 y
  else if 1700 ≤ year ∧ year < 1800 then calc_dlt_t_bf_1800 y
  else if 1800 ≤ year ∧ year < 1860 then calc_dlt_t_bf_1860 y
  else if 1860 ≤ year ∧ year < 1900 then calc_dlt_t_bf_1900 y
  else if 1900 ≤ year ∧ year < 1920 then calc_dlt_t_bf_1920 y
  else if 1920 ≤ year ∧ year < 1941 then calc_dlt_t_bf_1941 y
  else if 1941 ≤ year ∧ year < 1961 then calc_dlt_t_bf_1961 y
  else if 1961 ≤ year ∧ year < 1986 then calc_dlt_t_bf_1986 y
  else if 1986 ≤ year ∧ year < 2005 then calc_dlt_t_bf_2005 y
  else if 2005 ≤ year ∧ year < 2050 then calc_dlt_t_bf_2050 y
  else if 2050 ≤ year ∧ year ≤ 2150 then calc_dlt_t_to_2150 y
  else if 2150 < year then calc_dlt_t_af_2150 y
  else dlt_t

/-- Method `Time::calc_dlt_t`: the ΔT returned and the object after the
call. -/
def calc_dlt_t (o : Time K) : K × Time K :=
  if o.dlt_t ≠ 0.0 then (o.dlt_t, o)
  else if o.utc_tai ≠ 0 then (kTtTai - (o.utc_tai : K) - o.dut1, o)
  else
    let t := localtime_r o.ts.tv_sec
    let year : Int := t.tm_year + 1900
    let y : K := (year : K) + (((t.tm_mon + 1 : Int) : K) - 0.5) / 12
    let dlt_t := calc_dlt_t_regime o.dlt_t year y
    (dlt_t, { o with dlt_t := dlt_t })

/-- Method `Time::utc2tai`: the instant returned and the object after the
call. -/
def utc2tai (o : Time K) (ts : Timespec) : Timespec × Time K :=
  let s : Timespec := { tv_sec := ts.tv_sec - o.utc_tai, tv_nsec := ts.tv_nsec }
  (s, { o with ts_tai := s })

/-- Method `Time::tai2tt`: the instant returned and the object after the
call.  The increment of the nanoseconds, `(kTtTai - f_tt_tai) * 1.0e9`, is a
constant of the program.  In exact arithmetic it is the whole number
184000000, which the conversion to `long` would keep; the program computes it
in binary64, where it lies just below that number, and the conversion cuts
the sum one nanosecond lower.  The model evaluates the constant as the
program does: `kTtTai` is the binary64 number nearest to 32.184 (spacing
`2^-47`), `f_tt_tai` is 32, the subtraction is exact, and the product is
rounded to binary64 (spacing `2^-25`).  The sum with `tv_nsec` is exact in
the model; in binary64 it is rounded by less than `2.4e-7` for
`|tv_nsec| < 2^31`, which does not reach the next whole number, `2.5e-6`
away. -/
def tai2tt (o : Time K) (ts : Timespec) : Timespec × Time K :=
  let k_tt_tai : K := round_b64 47 kTtTai
  let f_tt_tai : Int := ⌊k_tt_tai⌋
  let s0 : Timespec :=
    { tv_sec := ts.tv_sec + f_tt_tai
      tv_nsec := toLong ((ts.tv_nsec : K)
        + round_b64 25 ((k_tt_tai - (f_tt_tai : K)) * 1.0e9)) }
  let s1 : Timespec :=
    if (s0.tv_nsec : K) > 1.0e9 then
      { tv_sec := s0.tv_sec + 1
        tv_nsec := toLong ((s0.tv_nsec : K) - 1.0e9) }
    else if s0.tv_nsec < 0 then
      { tv_sec := s0.tv_sec - 1
        tv_nsec := toLong ((s0.tv_nsec : K) + 1.0e9) }
    else s0
  (s1, { o with ts_tt := s1 })

/-- Method `Time::tt2tcg`: the instant returned and the object after the
call. -/
def tt2tcg (o : Time K) (ts : Timespec) : Timespec × Time K :=
  let v : K := kLG * (o.jd - kT0) * (kSecDay : K)
  let f_v : Int := ⌊v⌋
  let s0 : Timespec :=
    { tv_sec := ts.tv_sec + f_v
      tv_nsec := toLong ((ts.tv_nsec : K) + (v - (f_v : K)) * 1.0e9) }
  let s1 : Timespec :=
    if (s0.tv_nsec : K) > 1.0e9 then
      { tv_sec := s0.tv_sec + 1
        tv_nsec := toLong ((s0.tv_nsec : K) - 1.0e9) }
    else if s0.tv_nsec < 0 then
      { tv_sec := s0.tv_sec - 1
        tv_nsec := toLong ((s0.tv_nsec : K) + 1.0e9) }
    else s0
  (s1, { o with ts_tcg := s1 })

/-- Method `Time::tt2tcb`: the instant returned (the member `ts_tcb`) and the
object after the call. In the branch of the carry the source increments
`ts_tcg.tv_sec` (line 598), and so does this definition. -/
def tt2tcb (o : Time K) (ts : Timespec) : Timespec × Time K :=
  let v : K := kLB * (o.jd - kT0) * (kSecDay : K)
  let f_v : Int := ⌊v⌋
  let s0 : Timespec :=
    { tv_sec := ts.tv_sec + f_v
      tv_nsec := toLong ((ts.tv_nsec : K) + (v - (f_v : K)) * 1.0e9) }
  let o1 : Time K :=
    if (s0.tv_nsec : K) > 1.0e9 then
      { o with
        ts_tcg := { tv_sec := o.ts_tcg.tv_sec + 1, tv_nsec := o.ts_tcg.tv_nsec }
        ts_tcb := { tv_sec := s0.tv_sec
                    tv_nsec := toLong ((s0.tv_nsec : K) - 1.0e9) } }
    else if s0.tv_nsec < 0 then
      { o with
        ts_tcb := { tv_sec := s0.tv_sec - 1
                    tv_nsec := toLong ((s0.tv_nsec : K) + 1.0e9) } }
    else { o with ts_tcb := s0 }
  (o1.ts_tcb, o1)

/-- Method `Time::tcb2tdb`: the instant returned (the member `ts_tdb`) and the
object after the call. In the branch of the carry the source increments
`ts_tcg.tv_sec` (line 627), and so does this definition. -/
def tcb2tdb (o : Time K) (ts : Timespec) : Timespec × Time K :=
  let v : K := kLB * (o.jd - kT0) * (kSecDay : K) + kTdb0
  let f_v : Int := ⌊v⌋
  let s0 : Timespec :=
    { tv_sec := ts.tv_sec - f_v
      tv_nsec := toLong ((ts.tv_nsec : K) - (v - (f_v : K)) * 1.0e9) }
  let o1 : Time K :=
    if (s0.tv_nsec : K) > 1.0e9 then
      { o with
        ts_tcg := { tv_sec := o.ts_tcg.tv_sec + 1, tv_nsec := o.ts_tcg.tv_nsec }
        ts_tdb := { tv_sec := s0.tv_sec
                    tv_nsec := toLong ((s0.tv_nsec : K) - 1.0e9) } }
    else if s0.tv_nsec < 0 then
      { o with
        ts_tdb := { tv_sec := s0.tv_sec - 1
                    tv_nsec := toLong ((s0.tv_nsec : K) + 1.0e9) } }
    else { o with ts_tdb := s0 }
  (o1.ts_tdb, o1)

end Time

end TimeScales

/-! The methods `sun` and `moon` of `apos.cpp`. -/

/-- The `struct Position` of `position.hpp`. The apparent radius and the
parallax have no value when the radius they are computed from has none (see
`get_cval`). -/
structure Position (K : Type) where
  lambda : K
  beta : K
  d_ec : K
  alpha : K
  delta : K
  d_eq : K
  a_radius : Option K
  parallax : Option K

section AposSunMoon

variable {K : Type} [LinearOrderedField K] [FloorRing K]
variable (sqrt : K → K) (jpl : K → Jpl K)
variable (calc_ob : K → K) (sin cos atan asin : K → K)
variable (rotate : Coord K → Mat3 K → Coord K)
variable (rect2pol rect_eq2ec : K → Coord K → Coord K)

/-- The number π: `kPi` of `apos.cpp`. -/
def kPi : K := atan 1.0 * 4

/-- Method `Apos::sun`: the apparent position of the Sun and the object after
the call. The function `rotate` (`matrix.cpp`), the methods `rect2pol` and
`rect_eq2ec` of class `Convert` (`convert.cpp`, with the member `eps` of the
object as first argument) and `Obliquity::calc_ob` (`obliquity.cpp`) are not
among the sources and are arguments, as is `asin` of `<cmath>`. -/
def sun (a : Apos K) : Except String (Position K × Apos K) :=
  match sun_pos_sun sqrt jpl a with
  | .error msg => .error msg
  | .ok (pos_sun, a) =>
    let o_bpn := Bpn.ctor calc_ob sin cos atan a.jcn a.dat_ls a.dat_pl
    let pos_sun_bpn := rotate pos_sun o_bpn.r_bias_prec_nut
    let a := { a with eps := calc_ob a.jcn }
    let eq_pol := rect2pol a.eps pos_sun_bpn
    let ec_rect := rect_eq2ec a.eps pos_sun_bpn
    let ec_pol := rect2pol a.eps ec_rect
    .ok ({ lambda := ec_pol.x
           beta := ec_pol.y
           d_ec := ec_pol.z
           alpha := eq_pol.x
           delta := eq_pol.y
           d_eq := eq_pol.z
           a_radius := a.r_s.map (fun r_s =>
             asin (r_s / (eq_pol.z * a.au)) * 180.0 / kPi atan * 3600.0)
           parallax := a.r_e.map (fun r_e =>
             asin (r_e / (eq_pol.z * a.au)) * 180.0 / kPi atan * 3600.0) }, a)

/-- Method `Apos::moon`: the apparent position of the Moon and the object
after the call; the arguments are those of `sun`. -/
def moon (a : Apos K) : Except String (Position K × Apos K) :=
  match moon_pos_moon sqrt jpl a with
  | .error msg => .error msg
  | .ok (pos_moon, a) =>
    let o_bpn := Bpn.ctor calc_ob sin cos atan a.jcn a.dat_ls a.dat_pl
    let pos_moon_bpn := rotate pos_moon o_bpn.r_bias_prec_nut
    let a := { a with eps := calc_ob a.jcn }
    let eq_pol := rect2pol a.eps pos_moon_bpn
    let ec_rect := rect_eq2ec a.eps pos_moon_bpn
    let ec_pol := rect2pol a.eps ec_rect
    .ok ({ lambda := ec_pol.x
           beta := ec_pol.y
           d_ec := ec_pol.z
           alpha := eq_pol.x
           delta := eq_pol.y
           d_eq := eq_pol.z
           a_radius := a.r_m.map (fun r_m =>
             asin (r_m / (eq_pol.z * a.au)) * 180.0 / kPi atan * 3600.0)
           parallax := a.r_e.map (fun r_e =>
             asin (r_e / (eq_pol.z * a.au)) * 180.0 / kPi atan * 3600.0) }, a)

end AposSunMoon

/-! The readers of the nutation tables of `file.cpp`. -/

section FileCode

variable {K : Type} [LinearOrderedField K]

/-- The loop `while (iss >> s)` of `File::get_param_ls` and
`File::get_param_pl` for one line: the record `rec` of the numbers of the
line, from the column counter `c` on; a number in a column beyond `limit`
(`c > 4`, `c > 13`) is multiplied by 10000. -/
def read_rec (limit : Nat) : List K → Nat → List K
  | [], _ => []
  | s :: rest, c => (if c > limit then s * 10000 else s) :: read_rec limit rest (c + 1)

/-- The loop `while (getline(ifs, buf))` of `File::get_param_ls` and
`File::get_param_pl`: every line whose record is not empty is appended to
`data`. -/
def read_lines (limit : Nat) : List (List K) → List (List K) → List (List K)
  | [], data => data
  | line :: rest, data =>
    let rec_ := read_rec limit line 0
    read_lines limit rest (if rec_.length ≠ 0 then data ++ [rec_] else data)

/-- Method `File::get_param_ls`: the value returned and the table `data`
after the call. The argument `file` is the content of `NUT_LS.txt`: `none`
when the file cannot be opened, otherwise, for each line, the numbers that
`iss >> s` extracts from it. -/
def get_param_ls (file : Option (List (List K))) (data : List (List K)) :
    Bool × List (List K) :=
  match file with
  | none => (false, data)
  | some lines =>
    let data := read_lines 4 lines data
    (decide (data.length ≠ 0), data)

/-- Method `File::get_param_pl`: the value returned and the table `data`
after the call. The argument `file` is the content of `NUT_PL.txt`, as for
`get_param_ls`. -/
def get_param_pl (file : Option (List (List K))) (data : List (List K)) :
    Bool × List (List K) :=
  match file with
  | none => (false, data)
  | some lines =>
    let data := read_lines 13 lines data
    (decide (data.length ≠ 0), data)

end FileCode

/-! The public time scales of `time.cpp`. -/

section TimePublic

variable {K : Type} [LinearOrderedField K] [FloorRing K]
variable (localtime_r : Int → Tm)

namespace Time

/-- Method `Time::calc_tai`: the TAI instant returned and the object after
the call. -/
def calc_tai (o : Time K) : Timespec × Time K :=
  utc2tai o o.ts

/-- Method `Time::calc_ut1`: the UT1 instant returned and the object after
the call. -/
def calc_ut1 (o : Time K) : Timespec × Time K :=
  utc2ut1 o o.ts

/-- Method `Time::calc_tt`: the TT instant returned and the object after the
call; TAI is computed first when `ts_tai.tv_sec` is zero. -/
def calc_tt (o : Time K) : Timespec × Time K :=
  let o1 := if o.ts_tai.tv_sec = 0 then (utc2tai o o.ts).2 else o
  tai2tt o1 o1.ts_tai

/-- Method `Time::calc_tcg`: the TCG instant returned and the object after
the call. -/
def calc_tcg (o : Time K) : Timespec × Time K :=
  let o1 := if o.jd = 0.0 then { o with jd := gc2jd localtime_r o.ts } else o
  let o2 := if o1.ts_tai.tv_sec = 0 then (utc2tai o1 o1.ts).2 else o1
  let o3 := if o2.ts_tt.tv_sec = 0 then (tai2tt o2 o2.ts_tai).2 else o2
  tt2tcg o3 o3.ts_tt

/-- Method `Time::calc_tcb`: the TCB instant returned and the object after
the call. -/
def calc_tcb (o : Time K) : Timespec × Time K :=
  let o1 := if o.jd = 0.0 then { o with jd := gc2jd localtime_r o.ts } else o
  let o2 := if o1.ts_tai.tv_sec = 0 then (utc2tai o1 o1.ts).2 else o1
  let o3 := if o2.ts_tt.tv_sec = 0 then (tai2tt o2 o2.ts_tai).2 else o2
  tt2tcb o3 o3.ts_tt

/-- Method `Time::calc_tdb`: the TDB instant returned and the object after
the call; the Julian Day, TAI, TT and TCB are computed first when the member
that holds them is zero (`jd == 0.0`, `tv_sec == 0`). -/
def calc_tdb (o : Time K) : Timespec × Time K :=
  let o1 := if o.jd = 0.0 then { o with jd := gc2jd localtime_r o.ts } else o
  let o2 := if o1.ts_tai.tv_sec = 0 then (utc2tai o1 o1.ts).2 else o1
  let o3 := if o2.ts_tt.tv_sec = 0 then (tai2tt o2 o2.ts_tai).2 else o2
  let o4 := if o3.ts_tcb.tv_sec = 0 then (tt2tcb o3 o3.ts_tt).2 else o3
  tcb2tdb o4 o4.ts_tcb

end Time

end TimePublic

/-! The value returned by `Nutation::calc_nutation`. -/

/-- The macro `EXIT_FAILURE` of `<cstdlib>`: the value 1. -/
def EXIT_FAILURE : Int := 1

section NutationStatus

variable {K : Type} [LinearOrderedField K] [FloorRing K]
variable (sin cos atan : K → K)

namespace Nutation

/-- The body of `Nutation::calc_nutation` (lines 45 to 62) for what the two
calls return: `ls` and `pl` are the value returned and the angles written by
`calc_lunisolar` and by `calc_planetary`, `dpsi` and `deps` the referenced
variables before the call. The result is the value returned, converted to
`bool` (a `return EXIT_FAILURE` returns `EXIT_FAILURE != 0`), and the
referenced variables after the call. -/
def calc_nutation_body (ls pl : Bool × K × K) (dpsi deps : K) : Bool × K × K :=
  if ls.1 = false then (decide (EXIT_FAILURE ≠ 0), dpsi, deps)
  else if pl.1 = false then (decide (EXIT_FAILURE ≠ 0), dpsi, deps)
  else (true, ls.2.1 + pl.2.1, ls.2.2 + pl.2.2)

end Nutation

end NutationStatus
/-! Inputs on which the code is evaluated. -/

section Inputs

variable {K : Type} [LinearOrderedField K]

/-- The astronomical unit in km, as the ephemeris files give it. -/
def exAu : K := 149597870.7

/-- The speed of light in AU per day for `exAu`. -/
def exC : K := ((kC * kDaySec : Nat) : K) / (exAu * 1000.0)

/-- A Julian Day of observation (2021-01-11 00:00). -/
def exJd : K := 2459225.5

/-- An object of class `Apos` before `calc_val_t2`: the Julian Day is `exJd`,
the other members are zero. -/
def exApos : Apos K :=
  { dat_ls := []
    dat_pl := []
    jcn := 0
    au := 0
    p_e := fun _ => ⟨0, 0, 0⟩
    v_e := fun _ => ⟨0, 0, 0⟩
    p_m := fun _ => ⟨0, 0, 0⟩
    v_m := fun _ => ⟨0, 0, 0⟩
    p_s := fun _ => ⟨0, 0, 0⟩
    v_s := fun _ => ⟨0, 0, 0⟩
    d_e_m := 0
    d_e_s := 0
    r_e := none
    r_m := none
    r_s := none
    eps := 0
    jd := exJd }

/-- An ephemeris provider with Earth at rest at the origin and every other
body at rest at the point `(1, 0, 0)`, one AU from Earth. -/
def exJplStill : K → Jpl K := fun _ =>
  { au := exAu
    cnams := []
    cvals := []
    calc_pv := fun target _ =>
      if target = 3 then (⟨0, 0, 0⟩, ⟨0, 0, 0⟩) else (⟨1, 0, 0⟩, ⟨0, 0, 0⟩) }

/-- An ephemeris provider with Earth at rest at the origin and every other
body on the x axis at `x(jd) = exC * (1 + (jd - exJd)^2)`, with the velocity
`2 * exC * (jd - exJd)` of that motion: at `exJd` the body is at rest at the
distance `exC` (one light-day), a day earlier it was at the distance
`2 * exC`. -/
def exJplMoving : K → Jpl K := fun jd =>
  { au := exAu
    cnams := []
    cvals := []
    calc_pv := fun target _ =>
      if target = 3 then (⟨0, 0, 0⟩, ⟨0, 0, 0⟩)
      else (⟨exC * (1 + (jd - exJd) * (jd - exJd)), 0, 0⟩, ⟨2 * exC * (jd - exJd), 0, 0⟩) }

end Inputs

section SpecAberration

variable {K : Type} [LinearOrderedField K]
variable (sqrt : K → K)

/-- The aberration correction as the specification words it, to be compared
with `conv_lorentz`: `(f * d + (1 + g / (1 + f)) * v) / (1 + g)` with `v` the
velocity of Earth at `t2` divided by the speed of light (both in AU per
second), `g` the inner product of `v` and `d`, and `f = sqrt (1 - |v|^2)`,
where `|v|^2` is the square of the Euclidean norm of `v`. -/
def conv_lorentz_spec (a : Apos K) (d : Coord K) : Coord K :=
  let c : K := (kC : K) / (a.au * 1000)
  let v : Coord K :=
    ⟨(a.v_e 1).x / (kDaySec : K) / c, (a.v_e 1).y / (kDaySec : K) / c,
     (a.v_e 1).z / (kDaySec : K) / c⟩
  let g := v.x * d.x + v.y * d.y + v.z * d.z
  let f := sqrt (1 - (v.x * v.x + v.y * v.y + v.z * v.z))
  ⟨(f * d.x + (1 + g / (1 + f)) * v.x) / (1 + g),
   (f * d.y + (1 + g / (1 + f)) * v.y) / (1 + g),
   (f * d.z + (1 + g / (1 + f)) * v.z) / (1 + g)⟩

/-- An object of class `Apos` after `calc_val_t2` in which Earth moves along
the x axis at one ten-thousandth of the speed of light (`exC / 10000` AU per
day, about 30 km/s, the orbital speed of Earth). -/
def exAposOrbit : Apos K :=
  { (exApos : Apos K) with
    au := exAu
    v_e := fun _ => ⟨exC / 10000, 0, 0⟩ }

end SpecAberration

section InputsNutation

variable {K : Type} [LinearOrderedField K]

/-- A row of the luni-solar table whose five multipliers are zero, so that
its argument is `0` at every `t`: it adds `C` (column 7, the cosine
coefficient of longitude) to the sum of `dpsi` and `D` (column 8, the cosine
coefficient of obliquity) to the sum of `deps`, in units of 0.1
microarcsecond. -/
def exRowLs (C D : K) : List K :=
  [0, 0, 0, 0, 0, 0, 0, C, D, 0, 0]

end InputsNutation

section SpecPlanetary

variable {K : Type} [LinearOrderedField K] [FloorRing K]
variable (sin cos atan : K → K)

/-- The contribution of one row of the planetary table as the specification
words it, to be compared with `Nutation.calc_planetary_row`: the argument is
the combination of all 14 multipliers (columns 0 to 13) with the 14
arguments, the mean anomaly `lp` of the Sun among them, reduced modulo
`2*pi`; the row adds `col14*sin a + col15*cos a` and
`col16*sin a + col17*cos a`. -/
def calc_planetary_row_spec (l lp f d om pa lme lve lea lma lju lsa lur lne : K)
    (row : List K) (acc : K × K) : K × K :=
  let a := col row 0 * l + col row 1 * lp + col row 2 * f + col row 3 * d
    + col row 4 * om + col row 5 * lme + col row 6 * lve
    + col row 7 * lea + col row 8 * lma + col row 9 * lju
    + col row 10 * lsa + col row 11 * lur + col row 12 * lne
    + col row 13 * pa
  let a := Nutation.fmod_p a (Nutation.kPi2 atan)
  (acc.1 + (col row 14 * sin a + col row 15 * cos a),
   acc.2 + (col row 16 * sin a + col row 17 * cos a))

/-- A row of the planetary table (18 columns) whose only multiplier that is
not zero is the one of column 1, and whose sine coefficient of longitude
(column 14) is 1. -/
def exRowPl : List K :=
  [0, 1, 0, 0, 0, 0, 0, 0, 0, 0, 0, 0, 0, 0, 1, 0, 0, 0]

end SpecPlanetary


section InputsTime

variable {K : Type} [LinearOrderedField K]

/-- A `localtime_r` for three instants: 2017-01-01 00:00:00 at
`tv_sec = 1483228800`, 2016-12-31 00:00:00 at `tv_sec = 1483142400`, and
1970-01-01 00:00:00 elsewhere. -/
def exLocaltime (sec : Int) : Tm :=
  if sec = 1483228800 then ⟨117, 0, 1, 0, 0, 0⟩
  else if sec = 1483142400 then ⟨116, 11, 31, 0, 0, 0⟩
  else ⟨70, 0, 1, 0, 0, 0⟩

/-- A `std::stoi` for the offsets of `exLs`; any other string is an
exception. -/
def exStoi (s : String) : Except String Int :=
  if s = "-36" then .ok (-36)
  else if s = "-37" then .ok (-37)
  else .error "invalid_argument"

/-- A `std::stod` for the values of `exDut`; any other string is an
exception. -/
def exStod (s : String) : Except String K :=
  if s = "-0.4" then .ok (-0.4)
  else if s = "0.6" then .ok 0.6
  else .error "invalid_argument"

/-- A leap-second table of two rows (effective date, UTC - TAI). -/
def exLs : List (List String) :=
  [["20150701", "-36"], ["20170101", "-37"]]

/-- A DUT1 table of two rows (effective date, DUT1). -/
def exDut : List (List String) :=
  [["20161201", "-0.4"], ["20170101", "0.6"]]

/-- An object of class `Time` with the member `dut1` given and the other
members zero. -/
def exTime (dut1 : K) : Time K :=
  { l_ls := []
    l_dut := []
    ts := ⟨0, 0⟩
    ts_tai := ⟨0, 0⟩
    ts_ut1 := ⟨0, 0⟩
    ts_tt := ⟨0, 0⟩
    ts_tcg := ⟨0, 0⟩
    ts_tcb := ⟨0, 0⟩
    ts_tdb := ⟨0, 0⟩
    jd := 0
    t := 0
    dut1 := dut1
    dlt_t := 0
    utc_tai := 0 }

/-- The total time of an instant in nanoseconds, `sec * 1e9 + nsec`. -/
def total_ns (s : Timespec) : Int :=
  s.tv_sec * 1000000000 + s.tv_nsec

end InputsTime

section InputsTimeScales

variable {K : Type} [LinearOrderedField K]

/-- An object of class `Time` with the member `jd` given and the other
members zero. -/
def exTimeJd (jd : K) : Time K :=
  { l_ls := []
    l_dut := []
    ts := ⟨0, 0⟩
    ts_tai := ⟨0, 0⟩
    ts_ut1 := ⟨0, 0⟩
    ts_tt := ⟨0, 0⟩
    ts_tcg := ⟨0, 0⟩
    ts_tcb := ⟨0, 0⟩
    ts_tdb := ⟨0, 0⟩
    jd := jd
    t := 0
    dut1 := 0
    dlt_t := 0
    utc_tai := 0 }

/-- An object of class `Time` as the constructor leaves it on 2017-01-01
00:00:00 (`tv_sec = 1483228800`) with the tables `exLs` and `exDut`:
`utc_tai = -37` and `dut1 = 0.6`. -/
def exTime2017 : Time K :=
  { l_ls := exLs
    l_dut := exDut
    ts := ⟨1483228800, 0⟩
    ts_tai := ⟨0, 0⟩
    ts_ut1 := ⟨0, 0⟩
    ts_tt := ⟨0, 0⟩
    ts_tcg := ⟨0, 0⟩
    ts_tcb := ⟨0, 0⟩
    ts_tdb := ⟨0, 0⟩
    jd := 0
    t := 0
    dut1 := 0.6
    dlt_t := 0
    utc_tai := -37 }

end InputsTimeScales

section StateT2

variable {K : Type}

/-- The members of an `Apos` object that `calc_val_t2` and the constructor
set and that `sun` and `moon` read: the two nutation tables and the state at
time `t2` (Julian Day, Julian century number, AU, the three radii, position
and velocity of Earth, Moon and Sun at index 1, the two distances). -/
def t2_state (a : Apos K) :=
  ((a.dat_ls, a.dat_pl), (a.jd, a.jcn, a.au), (a.r_e, a.r_m, a.r_s),
    (a.p_e 1, a.v_e 1), (a.p_m 1, a.v_m 1), (a.p_s 1, a.v_s 1), (a.d_e_s, a.d_e_m))

end StateT2

section SpecNewton

variable {K : Type} [LinearOrderedField K]
variable (sqrt : K → K)

/-- The update of `t1` as the specification words it, to be compared with
`calc_t1_update`: the Newton step `t1 - f / f'` for
`f = c * (t2 - t1) - |r|` and `f' = -(c + (r.v) / |r|)`, with the same speed
of light `c = kC * kDaySec / (au * 1000)` (AU per day) in `f` and in `f'`;
`r` is the position of the target relative to Earth at `t2` and `v` its
velocity, both at the estimate `t1`. -/
def calc_t1_update_spec (a : Apos K) (t2 : K) (s : T1Vars K) : K :=
  let c : K := ((kC * kDaySec : Nat) : K) / (a.au * 1000)
  let r : Coord K :=
    ⟨s.p_1.x - (a.p_e 1).x, s.p_1.y - (a.p_e 1).y, s.p_1.z - (a.p_e 1).z⟩
  let d := calc_dist sqrt s.p_1 (a.p_e 1)
  let f := c * (t2 - s.t1) - d
  let fd := -(c + (r.x * s.v_1.x + r.y * s.v_1.y + r.z * s.v_1.z) / d)
  s.t1 - f / fd

/-- An ephemeris provider with Earth at rest at the origin and every other
body at the point `(exC, 0, 0)`, one light-day from Earth; at the Julian Day
`exJd` the body has the velocity `(-2 * exC, 0, 0)`, toward Earth at twice
the speed of light, at every other Julian Day it is at rest. The first step
of `calc_t1` is then positive and its loop makes a second pass. -/
def exJplFast : K → Jpl K := fun jd =>
  { au := exAu
    cnams := []
    cvals := []
    calc_pv := fun target _ =>
      if target = 3 then (⟨0, 0, 0⟩, ⟨0, 0, 0⟩)
      else (⟨exC, 0, 0⟩, if jd = exJd then ⟨-2 * exC, 0, 0⟩ else ⟨0, 0, 0⟩) }

end SpecNewton

section SpecPlanetaryArgs

variable {K : Type} [LinearOrderedField K] [FloorRing K]
variable (sin cos atan : K → K)

/-- The planetary nutation as `Nutation::calc_planetary` computes it, except
that every fundamental argument is reduced to `[0, 2*pi)` with the
non-negative remainder `fmod_p`: the twelve arguments for which the source
calls `std::fmod` (or already `fmod_p`, for `om`), and the general precession
`pa`, which the source leaves unreduced.  The loop over the table is the one
of the source. -/
def calc_planetary_fmod_p (t : K) (dat_pl : List (List K)) : K × K :=
  let l := Nutation.fmod_p (2.35555598 + 8328.6914269554 * t) (Nutation.kPi2 atan)
  let f := Nutation.fmod_p (1.627905234 + 8433.466158131 * t) (Nutation.kPi2 atan)
  let d := Nutation.fmod_p (5.198466741 + 7771.3771468121 * t) (Nutation.kPi2 atan)
  let om := Nutation.fmod_p (2.18243920 - 33.757045 * t) (Nutation.kPi2 atan)
  let pa := Nutation.fmod_p ((0.024381750 + 0.00000538691 * t) * t) (Nutation.kPi2 atan)
  let lme := Nutation.fmod_p (4.402608842 + 2608.7903141574 * t) (Nutation.kPi2 atan)
  let lve := Nutation.fmod_p (3.176146697 + 1021.3285546211 * t) (Nutation.kPi2 atan)
  let lea := Nutation.fmod_p (1.753470314 + 628.3075849991 * t) (Nutation.kPi2 atan)
  let lma := Nutation.fmod_p (6.203480913 + 334.0612426700 * t) (Nutation.kPi2 atan)
  let lju := Nutation.fmod_p (0.599546497 + 52.9690962641 * t) (Nutation.kPi2 atan)
  let lsa := Nutation.fmod_p (0.874016757 + 21.3299104960 * t) (Nutation.kPi2 atan)
  let lur := Nutation.fmod_p (5.481293872 + 7.4781598567 * t) (Nutation.kPi2 atan)
  let lne := Nutation.fmod_p (5.321159000 + 3.8127774000 * t) (Nutation.kPi2 atan)
  let acc := dat_pl.foldr
    (Nutation.calc_planetary_row sin cos atan
      l f d om pa lme lve lea lma lju lsa lur lne) (0.0, 0.0)
  (acc.1 * Nutation.kU2R, acc.2 * Nutation.kU2R)

/-- A row of the planetary table (18 columns) with integer multipliers: 1 for
`l`, 2 for `f`, 3 for the general precession `pa`, and the sine coefficient of
longitude (column 14) equal to 1. -/
def exRowPlInt : List K :=
  [1, 0, 2, 0, 0, 0, 0, 0, 0, 0, 0, 0, 0, 3, 1, 0, 0, 0]

end SpecPlanetaryArgs

/-! The Julian Day Number of a date of the Gregorian calendar. -/

/-- The number of days of month `m` of year `y` in the Gregorian calendar:
February has 29 days in a leap year (a year divisible by 4 and not by 100, or
divisible by 400). -/
def days_in_month (y m : Int) : Int :=
  if m = 2 then
    if (y % 4 = 0 ∧ y % 100 ≠ 0) ∨ y % 400 = 0 then 29 else 28
  else if m = 4 ∨ m = 6 ∨ m = 9 ∨ m = 11 then 30
  else 31

/-- A date of the Gregorian calendar with a year from 1 on: the month is 1 to
12 and the day is 1 to the number of days of the month. -/
def valid_date (y m d : Int) : Prop :=
  1 ≤ y ∧ 1 ≤ m ∧ m ≤ 12 ∧ 1 ≤ d ∧ d ≤ days_in_month y m

/-- A time of day as `struct tm` holds it: hour 0 to 23, minute 0 to 59,
second 0 to 60 (a leap second included). -/
def valid_time (h mi s : Int) : Prop :=
  0 ≤ h ∧ h ≤ 23 ∧ 0 ≤ mi ∧ mi ≤ 59 ∧ 0 ≤ s ∧ s ≤ 60

/-- The calendar day after the date `(y, m, d)`: the next day of the month,
the first day of the next month after the last day of a month, the first of
January of the next year after the 31st of December. -/
def next_day (y m d : Int) : Int × Int × Int :=
  if d < days_in_month y m then (y, m, d + 1)
  else if m < 12 then (y, m + 1, 1)
  else (y + 1, 1, 1)

/-- The Julian Day Number of the date `(y, m, d)` of the Gregorian calendar by
the usual integer formula: with `a = (14 - m) / 12`, `y1 = y + 4800 - a` and
`m1 = m + 12 * a - 3`, it is
`d + (153 * m1 + 2) / 5 + 365 * y1 + y1 / 4 - y1 / 100 + y1 / 400 - 32045`
(integer divisions). -/
def JDN (y m d : Int) : Int :=
  let a := (14 - m) / 12
  let y1 := y + 4800 - a
  let m1 := m + 12 * a - 3
  d + (153 * m1 + 2) / 5 + 365 * y1 + y1 / 4 - y1 / 100 + y1 / 400 - 32045
/-! Properties of `Apos::calc_t1`. -/

section AposLemmas

variable {K : Type} [LinearOrderedField K]
variable (sqrt : K → K) (jpl : K → Jpl K)

theorem calc_t1_update_m (a : Apos K) (t2 : K) (s : T1Vars K) :
    (calc_t1_update sqrt a t2 s).m = s.m + 1 := rfl

theorem calc_t1_iter_m (a : Apos K) (target : Nat) (s : T1Vars K) (k : Nat) :
    (calc_t1_iter sqrt jpl a target s k).m = s.m + k := by
  induction k with
  | zero => rfl
  | succ k ih =>
    show (calc_t1_update sqrt a a.jd (calc_t1_iter sqrt jpl a target s k)).m = s.m + (k + 1)
    rw [calc_t1_update_m, ih]
    omega

/-- The loop of `calc_t1`, entered with the variables of pass `j`, leaves with
the variables of the first pass `k ≥ j` whose step fails the test of the loop,
or throws in pass 11 when no pass up to the tenth does. -/
theorem calc_t1_loop_from (a : Apos K) (target : Nat) (s : T1Vars K) (hs : s.m = 0) :
    ∀ n j : Nat, j + n = 10 →
      (∃ k, j ≤ k ∧ k ≤ 10 ∧ ¬ (calc_t1_iter sqrt jpl a target s k).df > 1.0e-10 ∧
        (∀ i, j ≤ i → i < k → (calc_t1_iter sqrt jpl a target s i).df > 1.0e-10) ∧
        calc_t1_loop sqrt jpl a target a.jd (calc_t1_iter sqrt jpl a target s j)
          = ⟨calc_t1_iter sqrt jpl a target s k, none⟩) ∨
      ((∀ i, j ≤ i → i ≤ 10 → (calc_t1_iter sqrt jpl a target s i).df > 1.0e-10) ∧
        calc_t1_loop sqrt jpl a target a.jd (calc_t1_iter sqrt jpl a target s j)
          = ⟨calc_t1_update sqrt a a.jd (calc_t1_iter sqrt jpl a target s 10),
             some "[ERROR] Newton method error!"⟩) := by
  intro n
  induction n with
  | zero =>
    intro j hj
    have hj10 : j = 10 := by omega
    subst hj10
    by_cases hdf : (calc_t1_iter sqrt jpl a target s 10).df > 1.0e-10
    · right
      refine ⟨fun i hi1 hi2 => ?_, ?_⟩
      · have : i = 10 := by omega
        subst this
        exact hdf
      · rw [calc_t1_loop]
        have hm : (calc_t1_update sqrt a a.jd (calc_t1_iter sqrt jpl a target s 10)).m > 10 := by
          rw [calc_t1_update_m, calc_t1_iter_m, hs]
          omega
        rw [if_pos hdf, if_pos hm]
    · left
      refine ⟨10, le_refl _, le_refl _, hdf, fun i hi1 hi2 => by omega, ?_⟩
      rw [calc_t1_loop, if_neg hdf]
  | succ n ih =>
    intro j hj
    by_cases hdf : (calc_t1_iter sqrt jpl a target s j).df > 1.0e-10
    · have hm : ¬ (calc_t1_update sqrt a a.jd (calc_t1_iter sqrt jpl a target s j)).m > 10 := by
        rw [calc_t1_update_m, calc_t1_iter_m, hs]
        omega
      have hstep : calc_t1_loop sqrt jpl a target a.jd (calc_t1_iter sqrt jpl a target s j)
          = calc_t1_loop sqrt jpl a target a.jd (calc_t1_iter sqrt jpl a target s (j + 1)) := by
        rw [calc_t1_loop, if_pos hdf, if_neg hm]
        rfl
      rcases ih (j + 1) (by omega) with ⟨k, hk1, hk2, hk3, hk4, hk5⟩ | ⟨h1, h2⟩
      · left
        refine ⟨k, by omega, hk2, hk3, fun i hi1 hi2 => ?_, by rw [hstep, hk5]⟩
        by_cases hij : i = j
        · subst hij
          exact hdf
        · exact hk4 i (by omega) hi2
      · right
        refine ⟨fun i hi1 hi2 => ?_, by rw [hstep, h2]⟩
        by_cases hij : i = j
        · subst hij
          exact hdf
        · exact h1 i (by omega) hi2
    · left
      refine ⟨j, le_refl _, by omega, hdf, fun i hi1 hi2 => by omega, ?_⟩
      rw [calc_t1_loop, if_neg hdf]

/-- One pass through the loop of `calc_t1`: when the step computed by the first
pass fails the test `df > 1.0e-10`, the loop is left after that pass. -/
theorem calc_t1_loop_one_pass (a : Apos K) (target : Nat) (t2 : K) (s : T1Vars K)
    (hdf : s.df > 1.0e-10) (hm : s.m < 10)
    (hstep : ¬ (calc_t1_update sqrt a t2 s).df > 1.0e-10) :
    calc_t1_loop sqrt jpl a target t2 s
      = ⟨calc_t1_query jpl target (calc_t1_update sqrt a t2 s), none⟩ := by
  have hm2 : ¬ (calc_t1_update sqrt a t2 s).m > 10 := by
    rw [calc_t1_update_m]
    omega
  rw [calc_t1_loop, if_pos hdf, if_neg hm2, calc_t1_loop]
  exact if_neg hstep

theorem calc_dist_comm (p q : Coord K) : calc_dist sqrt p q = calc_dist sqrt q p := by
  unfold calc_dist
  congr 1
  ring

theorem calc_t1_init_df (a : Apos K) (target : Nat) (s : T1Vars K)
    (hinit : calc_t1_init a target = some s) : s.df = 1.0 ∧ s.m = 0 ∧ s.t1 = a.jd := by
  unfold calc_t1_init at hinit
  split_ifs at hinit <;> simp only [Option.some.injEq, reduceCtorEq] at hinit <;> subst hinit <;>
    exact ⟨rfl, rfl, rfl⟩

/-- When the step of the first pass fails the test of the loop, `calc_t1`
returns after that pass. -/
theorem calc_t1_of_first_pass (a : Apos K) (target : Nat) (s : T1Vars K)
    (hinit : calc_t1_init a target = some s)
    (hstep : ¬ (calc_t1_update sqrt a a.jd s).df > 1.0e-10) :
    calc_t1 sqrt jpl a target = .ok (calc_t1_update sqrt a a.jd s).t1 := by
  obtain ⟨hdf, hm, _⟩ := calc_t1_init_df a target s hinit
  have h1 : s.df > 1.0e-10 := by
    rw [hdf]
    norm_num
  have hloop := calc_t1_loop_one_pass sqrt jpl a target a.jd s h1 (by omega) hstep
  simp only [calc_t1, calc_t1_run, hinit, hloop]
  rfl
end AposLemmas

/-- The loop of `calc_t1` ends.  For target 10 or 11 and every ephemeris
provider, `calc_t1` ends in one of two ways.  Either it returns `t1` after
pass `k` of its loop, with `1 ≤ k ≤ 10`: pass `k` is the first whose step `df`
fails the signed test of the loop (not `df > 1.0e-10`, which a negative step
of any size does), `t1` is the value after `k` updates.  Or each of the first
ten passes left `df > 1.0e-10`, and the function throws the Newton method
error in the eleventh pass, after the eleventh update of `t1`.  In both cases
the counter `m` of updates is at most 11. -/
theorem calc_t1_terminates (jpl : ℝ → Jpl ℝ) (a : Apos ℝ) (target : Nat)
    (htarget : target = 10 ∨ target = 11) :
    ∃ s r, calc_t1_init a target = some s ∧
      calc_t1_run Real.sqrt jpl a target = some r ∧ r.vars.m ≤ 11 ∧
      ((∃ k, 1 ≤ k ∧ k ≤ 10 ∧
          ¬ (calc_t1_iter Real.sqrt jpl a target s k).df > 1.0e-10 ∧
          (∀ i, 1 ≤ i → i < k → (calc_t1_iter Real.sqrt jpl a target s i).df > 1.0e-10) ∧
          r.vars = calc_t1_iter Real.sqrt jpl a target s k ∧ r.vars.m = k ∧
          calc_t1 Real.sqrt jpl a target
            = .ok (calc_t1_iter Real.sqrt jpl a target s k).t1) ∨
       ((∀ i, 1 ≤ i → i ≤ 10 → (calc_t1_iter Real.sqrt jpl a target s i).df > 1.0e-10) ∧
          r.vars.m = 11 ∧
          calc_t1 Real.sqrt jpl a target = .error "[ERROR] Newton method error!")) := by
  have key : ∀ s : T1Vars ℝ, calc_t1_init a target = some s → s.m = 0 → s.df = 1.0 →
      ∃ r, calc_t1_run Real.sqrt jpl a target = some r ∧ r.vars.m ≤ 11 ∧
      ((∃ k, 1 ≤ k ∧ k ≤ 10 ∧
          ¬ (calc_t1_iter Real.sqrt jpl a target s k).df > 1.0e-10 ∧
          (∀ i, 1 ≤ i → i < k → (calc_t1_iter Real.sqrt jpl a target s i).df > 1.0e-10) ∧
          r.vars = calc_t1_iter Real.sqrt jpl a target s k ∧ r.vars.m = k ∧
          calc_t1 Real.sqrt jpl a target
            = .ok (calc_t1_iter Real.sqrt jpl a target s k).t1) ∨
       ((∀ i, 1 ≤ i → i ≤ 10 → (calc_t1_iter Real.sqrt jpl a target s i).df > 1.0e-10) ∧
          r.vars.m = 11 ∧
          calc_t1 Real.sqrt jpl a target = .error "[ERROR] Newton method error!")) := by
    intro s hinit hm hdf
    have h0 : (calc_t1_iter Real.sqrt jpl a target s 0).df > 1.0e-10 := by
      show s.df > 1.0e-10
      rw [hdf]
      norm_num
    rcases calc_t1_loop_from Real.sqrt jpl a target s hm 10 0 (by omega) with
      ⟨k, _, hk2, hk3, hk4, hk5⟩ | ⟨h1, h2⟩
    · have hk1 : 1 ≤ k := by
        rcases Nat.eq_zero_or_pos k with hk0 | hk0
        · subst hk0
          exact absurd h0 hk3
        · exact hk0
      have hrun : calc_t1_run Real.sqrt jpl a target
          = some ⟨calc_t1_iter Real.sqrt jpl a target s k, none⟩ := by
        simp only [calc_t1_run, hinit]
        exact congrArg some hk5
      have hmk : (calc_t1_iter Real.sqrt jpl a target s k).m = k := by
        rw [calc_t1_iter_m, hm]
        omega
      refine ⟨_, hrun, ?_, Or.inl ⟨k, hk1, hk2, hk3, fun i hi1 hi2 => hk4 i (by omega) hi2,
        rfl, hmk, ?_⟩⟩
      · show (calc_t1_iter Real.sqrt jpl a target s k).m ≤ 11
        omega
      · simp only [calc_t1, hrun]
    · have hrun : calc_t1_run Real.sqrt jpl a target
          = some ⟨calc_t1_update Real.sqrt a a.jd (calc_t1_iter Real.sqrt jpl a target s 10),
              some "[ERROR] Newton method error!"⟩ := by
        simp only [calc_t1_run, hinit]
        exact congrArg some h2
      have hmk : (calc_t1_update Real.sqrt a a.jd
          (calc_t1_iter Real.sqrt jpl a target s 10)).m = 11 := by
        rw [calc_t1_update_m, calc_t1_iter_m, hm]
      refine ⟨_, hrun, le_of_eq hmk, Or.inr ⟨fun i hi1 hi2 => h1 i (by omega) hi2, hmk, ?_⟩⟩
      simp only [calc_t1, hrun]
  rcases htarget with h | h
  · subst h
    obtain ⟨r, hr⟩ := key _ rfl rfl rfl
    exact ⟨_, r, rfl, hr⟩
  · subst h
    obtain ⟨r, hr⟩ := key _ rfl rfl rfl
    exact ⟨_, r, rfl, hr⟩


/-- The hypothesis of `calc_t1_terminates` is met by the Sun of the provider
`exJplStill`. -/
theorem calc_t1_terminates_witness :
    ((11 : Nat) = 10 ∨ (11 : Nat) = 11) ∧
    ∃ s r, calc_t1_init (exApos : Apos ℝ) 11 = some s ∧
      calc_t1_run Real.sqrt exJplStill exApos 11 = some r ∧ r.vars.m ≤ 11 ∧
      ((∃ k, 1 ≤ k ∧ k ≤ 10 ∧
          ¬ (calc_t1_iter Real.sqrt exJplStill exApos 11 s k).df > 1.0e-10 ∧
          (∀ i, 1 ≤ i → i < k →
            (calc_t1_iter Real.sqrt exJplStill exApos 11 s i).df > 1.0e-10) ∧
          r.vars = calc_t1_iter Real.sqrt exJplStill exApos 11 s k ∧ r.vars.m = k ∧
          calc_t1 Real.sqrt exJplStill exApos 11
            = .ok (calc_t1_iter Real.sqrt exJplStill exApos 11 s k).t1) ∨
       ((∀ i, 1 ≤ i → i ≤ 10 →
            (calc_t1_iter Real.sqrt exJplStill exApos 11 s i).df > 1.0e-10) ∧
          r.vars.m = 11 ∧
          calc_t1 Real.sqrt exJplStill exApos 11 = .error "[ERROR] Newton method error!")) :=
  ⟨Or.inr rfl, calc_t1_terminates exJplStill exApos 11 (Or.inr rfl)⟩


theorem exC_pos : (0 : ℝ) < exC := by
  unfold exC exAu kC kDaySec
  norm_num

/-- The first pass of the loop of `calc_t1` for a target at rest at the
distance `D` from Earth: the step is `-D / c`. -/
theorem calc_t1_update_at_rest (a : Apos ℝ) (P : Coord ℝ) (D : ℝ)
    (hD : calc_dist Real.sqrt (a.p_e 1) P = D) :
    calc_t1_update Real.sqrt a a.jd ⟨a.jd, P, ⟨0, 0, 0⟩, 1.0, 0⟩
      = ⟨a.jd + -D / (299792458 * 86400 / (a.au * 1000)), P, ⟨0, 0, 0⟩,
          -D / (299792458 * 86400 / (a.au * 1000)), 1⟩ := by
  have hD2 : calc_dist Real.sqrt P (a.p_e 1) = D := by rw [calc_dist_comm, hD]
  simp only [calc_t1_update, hD2, kC, kDaySec]
  norm_num

theorem calc_t1_at_rest (jpl : ℝ → Jpl ℝ) (a : Apos ℝ) (target : Nat) (P : Coord ℝ) (D : ℝ)
    (hau : 0 < a.au) (hinit : calc_t1_init a target = some ⟨a.jd, P, ⟨0, 0, 0⟩, 1.0, 0⟩)
    (hD : calc_dist Real.sqrt (a.p_e 1) P = D) (hDpos : 0 < D) :
    calc_t1 Real.sqrt jpl a target = .ok (a.jd + -D / (299792458 * 86400 / (a.au * 1000))) := by
  have hu := calc_t1_update_at_rest a P D hD
  have hstep : ¬ (calc_t1_update Real.sqrt a a.jd ⟨a.jd, P, ⟨0, 0, 0⟩, 1.0, 0⟩).df > 1.0e-10 := by
    rw [hu]
    show ¬ (-D / (299792458 * 86400 / (a.au * 1000)) > 1.0e-10)
    have hc : (0 : ℝ) < 299792458 * 86400 / (a.au * 1000) := by positivity
    have : -D / (299792458 * 86400 / (a.au * 1000)) < 0 := div_neg_of_neg_of_pos (by linarith) hc
    norm_num
    linarith
  rw [calc_t1_of_first_pass Real.sqrt jpl a target _ hinit hstep, hu]

/-- C2. For a provider that gives the target the same position `P`, at the
distance `D > 0` from the position of Earth at `t2`, and the velocity zero at
every Julian Day, and with a positive astronomical unit, `calc_t1` returns a
`t1` with `|(t2 - t1) - D / c| < 1e-9`, where
`c = 299792458 * 86400 / (au * 1000)`. -/
theorem calc_t1_stationary_target (jpl : ℝ → Jpl ℝ) (a0 : Apos ℝ) (target : Nat)
    (P : Coord ℝ) (D : ℝ) (htarget : target = 10 ∨ target = 11)
    (hau : 0 < (jpl a0.jd).au)
    (hstat : ∀ jd, (jpl jd).calc_pv target 12 = (P, ⟨0, 0, 0⟩))
    (hD : calc_dist Real.sqrt ((jpl a0.jd).calc_pv 3 12).1 P = D) (hDpos : 0 < D) :
    ∃ t1, calc_t1 Real.sqrt jpl (calc_val_t2 Real.sqrt jpl a0) target = .ok t1 ∧
      |(a0.jd - t1) - D / (299792458 * 86400 / ((jpl a0.jd).au * 1000))| < 1e-9 := by
  have hjd : (calc_val_t2 Real.sqrt jpl a0).jd = a0.jd := rfl
  have hau2 : (calc_val_t2 Real.sqrt jpl a0).au = (jpl a0.jd).au := rfl
  have hpe : (calc_val_t2 Real.sqrt jpl a0).p_e 1 = ((jpl a0.jd).calc_pv 3 12).1 := by
    simp only [calc_val_t2, Function.update_same]
  have hinit : calc_t1_init (calc_val_t2 Real.sqrt jpl a0) target
      = some ⟨(calc_val_t2 Real.sqrt jpl a0).jd, P, ⟨0, 0, 0⟩, 1.0, 0⟩ := by
    rcases htarget with h | h <;> subst h <;>
      simp only [calc_t1_init, calc_val_t2, Function.update_same, hstat a0.jd] <;> rfl
  have h := calc_t1_at_rest jpl (calc_val_t2 Real.sqrt jpl a0) target P D
    (by rw [hau2]; exact hau) hinit (by rw [hpe]; exact hD) hDpos
  refine ⟨_, h, ?_⟩
  rw [hjd, hau2]
  have : a0.jd - (a0.jd + -D / (299792458 * 86400 / ((jpl a0.jd).au * 1000)))
      - D / (299792458 * 86400 / ((jpl a0.jd).au * 1000)) = 0 := by ring
  rw [this]
  norm_num

/-- Witness of C2: the provider `exJplStill`, the Sun at rest one AU from
Earth. -/
theorem calc_t1_stationary_target_witness :
    (11 = 10 ∨ 11 = 11) ∧ 0 < (exJplStill (exApos : Apos ℝ).jd).au ∧
    (∀ jd : ℝ, (exJplStill jd).calc_pv 11 12 = (⟨1, 0, 0⟩, ⟨0, 0, 0⟩)) ∧
    calc_dist Real.sqrt ((exJplStill (exApos : Apos ℝ).jd).calc_pv 3 12).1 ⟨1, 0, 0⟩ = 1 ∧
    (0 : ℝ) < 1 ∧
    ∃ t1, calc_t1 Real.sqrt exJplStill (calc_val_t2 Real.sqrt exJplStill exApos) 11 = .ok t1 ∧
      |((exApos : Apos ℝ).jd - t1)
        - 1 / (299792458 * 86400 / ((exJplStill (exApos : Apos ℝ).jd).au * 1000))| < 1e-9 :=
  have h1 : (11 : Nat) = 10 ∨ (11 : Nat) = 11 := Or.inr rfl
  have h2 : 0 < (exJplStill (exApos : Apos ℝ).jd).au := by
    show (0 : ℝ) < exAu
    unfold exAu
    norm_num
  have h3 : ∀ jd : ℝ, (exJplStill jd).calc_pv 11 12 = (⟨1, 0, 0⟩, ⟨0, 0, 0⟩) := fun _ => rfl
  have h4 : calc_dist Real.sqrt ((exJplStill (exApos : Apos ℝ).jd).calc_pv 3 12).1 ⟨1, 0, 0⟩
      = 1 := by
    simp [calc_dist, exJplStill]
  ⟨h1, h2, h3, h4, one_pos,
    calc_t1_stationary_target exJplStill exApos 11 ⟨1, 0, 0⟩ 1 h1 h2 h3 h4 one_pos⟩

theorem calc_t1_moving (target : Nat) (htarget : target = 10 ∨ target = 11) :
    calc_t1 Real.sqrt exJplMoving (calc_val_t2 Real.sqrt exJplMoving exApos) target
      = .ok (exJd - 1) := by
  have hc := exC_pos
  have hsq : Real.sqrt (exC * exC) = exC := Real.sqrt_mul_self hc.le
  have hce : ((299792458 : ℝ) * 86400 / (exAu * 1000)) = exC := by
    unfold exC kC kDaySec
    norm_num
  have hD : calc_dist Real.sqrt ((calc_val_t2 Real.sqrt exJplMoving (exApos : Apos ℝ)).p_e 1)
      ⟨exC * (1 + (exJd - exJd) * (exJd - exJd)), 0, 0⟩ = exC := by
    simp [calc_dist, calc_val_t2, exJplMoving, hsq]
  have hinit : calc_t1_init (calc_val_t2 Real.sqrt exJplMoving (exApos : Apos ℝ)) target
      = some ⟨(calc_val_t2 Real.sqrt exJplMoving (exApos : Apos ℝ)).jd,
          ⟨exC * (1 + (exJd - exJd) * (exJd - exJd)), 0, 0⟩, ⟨0, 0, 0⟩, 1.0, 0⟩ := by
    rcases htarget with h | h <;> subst h <;>
      simp [calc_t1_init, calc_val_t2, exJplMoving, exApos]
  have h := calc_t1_at_rest exJplMoving (calc_val_t2 Real.sqrt exJplMoving (exApos : Apos ℝ))
    target _ exC (by show (0 : ℝ) < exAu; unfold exAu; norm_num) hinit hD hc
  rw [h]
  have hau : (calc_val_t2 Real.sqrt exJplMoving (exApos : Apos ℝ)).au = exAu := rfl
  have hjd : (calc_val_t2 Real.sqrt exJplMoving (exApos : Apos ℝ)).jd = exJd := rfl
  rw [hau, hjd, hce, neg_div, div_self hc.ne']
  rfl

/-- C1, the code at a failing input.  With the provider `exJplMoving`, whose
target is at rest at the distance `exC` at `t2 = exJd` and was at the distance
`2 * exC` one day before, `calc_t1` returns `t1 = t2 - 1` for the Sun and for
the Moon: it leaves its loop after the first pass, the step `-1` being
negative.  At that `t1` the two sides of the light-time equation differ by
`exC`, more than 173 AU: `c * (t2 - t1) = exC` and the distance between the
target at `t1` and Earth at `t2` is `2 * exC`. -/
theorem calc_t1_residual_not_small :
    calc_t1 Real.sqrt exJplMoving (calc_val_t2 Real.sqrt exJplMoving exApos) 11
      = .ok ((exJd : ℝ) - 1) ∧
    calc_t1 Real.sqrt exJplMoving (calc_val_t2 Real.sqrt exJplMoving exApos) 10
      = .ok ((exJd : ℝ) - 1) ∧
    |(exC : ℝ) * (exJd - (exJd - 1))
      - calc_dist Real.sqrt ((exJplMoving ((exJd : ℝ) - 1)).calc_pv 11 12).1
          ((exJplMoving (exJd : ℝ)).calc_pv 3 12).1| = exC ∧
    |(exC : ℝ) * (exJd - (exJd - 1))
      - calc_dist Real.sqrt ((exJplMoving ((exJd : ℝ) - 1)).calc_pv 10 12).1
          ((exJplMoving (exJd : ℝ)).calc_pv 3 12).1| = exC ∧
    (173 : ℝ) < exC ∧
    ¬ |(exC : ℝ) * (exJd - (exJd - 1))
      - calc_dist Real.sqrt ((exJplMoving ((exJd : ℝ) - 1)).calc_pv 11 12).1
          ((exJplMoving (exJd : ℝ)).calc_pv 3 12).1| < 1e-10 := by
  have hc := exC_pos
  have h173 : (173 : ℝ) < exC := by
    unfold exC exAu kC kDaySec
    norm_num
  have hsq : Real.sqrt (exC * 2 * (exC * 2)) = exC * 2 :=
    Real.sqrt_mul_self (by linarith)
  have hres : ∀ target : Nat, target ≠ 3 → |(exC : ℝ) * (exJd - (exJd - 1))
      - calc_dist Real.sqrt ((exJplMoving ((exJd : ℝ) - 1)).calc_pv target 12).1
          ((exJplMoving (exJd : ℝ)).calc_pv 3 12).1| = exC := by
    intro target ht
    have hd : calc_dist Real.sqrt ((exJplMoving ((exJd : ℝ) - 1)).calc_pv target 12).1
          ((exJplMoving (exJd : ℝ)).calc_pv 3 12).1 = exC * 2 := by
      simp only [calc_dist, exJplMoving, if_neg ht, if_true]
      rw [← hsq]
      congr 1
      ring
    rw [hd]
    have : (exC : ℝ) * (exJd - (exJd - 1)) - exC * 2 = -exC := by ring
    rw [this, abs_neg, abs_of_pos hc]
  refine ⟨calc_t1_moving 11 (Or.inr rfl), calc_t1_moving 10 (Or.inl rfl),
    hres 11 (by decide), hres 10 (by decide), h173, ?_⟩
  rw [hres 11 (by decide)]
  norm_num
  linarith
theorem exAposOrbit_vec_v :
    (exC : ℝ) / 10000 / (kDaySec : ℝ) / ((kC : ℝ) / (exAu * 1000.0)) = 1 / 10000 := by
  simp only [exC, exAu, kC, kDaySec]
  norm_num

/-- Claim C3 fails on the code. With the provider `exJplMoving` `calc_t1` for
the Sun returns normally, with `t1 = t2 - 1`, after one update of `t1`
(`m = 1`, nothing thrown), although that iteration did not meet the
tolerance: its step is `df = -1`, so the two successive estimates `t2` and
`t2 - 1` differ by one day, not by less than `1e-10`, and its residual
`c * (t2 - t1) - d` is `-exC`, of absolute value above 173.  The loop tests
the signed step, `df > 1.0e-10`, which the negative step fails. -/
theorem calc_t1_returns_unconverged :
    calc_t1 Real.sqrt exJplMoving (calc_val_t2 Real.sqrt exJplMoving exApos) 11
      = .ok ((exJd : ℝ) - 1)
    ∧ (∃ r, calc_t1_run Real.sqrt exJplMoving (calc_val_t2 Real.sqrt exJplMoving exApos) 11
          = some r
        ∧ r.vars.m = 1 ∧ r.thrown = none ∧ r.vars.df = -1 ∧ r.vars.t1 = (exJd : ℝ) - 1
        ∧ ¬ |r.vars.df| < 1e-10 ∧ ¬ |(exJd : ℝ) - r.vars.t1| < 1e-10)
    ∧ |(exC : ℝ) * (exJd - exJd)
        - calc_dist Real.sqrt ((calc_val_t2 Real.sqrt exJplMoving (exApos : Apos ℝ)).p_s 1)
            ((calc_val_t2 Real.sqrt exJplMoving (exApos : Apos ℝ)).p_e 1)| = exC
    ∧ (173 : ℝ) < exC := by
  have hc := exC_pos
  have h173 : (173 : ℝ) < exC := by
    unfold exC exAu kC kDaySec
    norm_num
  have hsq : Real.sqrt (exC * exC) = exC := Real.sqrt_mul_self hc.le
  have hce : ((299792458 : ℝ) * 86400 / (exAu * 1000)) = exC := by
    unfold exC kC kDaySec
    norm_num
  have hau : (calc_val_t2 Real.sqrt exJplMoving (exApos : Apos ℝ)).au = exAu := rfl
  have hjd : (calc_val_t2 Real.sqrt exJplMoving (exApos : Apos ℝ)).jd = exJd := rfl
  have hps : (calc_val_t2 Real.sqrt exJplMoving (exApos : Apos ℝ)).p_s 1
      = ⟨exC * (1 + (exJd - exJd) * (exJd - exJd)), 0, 0⟩ := by
    simp [calc_val_t2, exJplMoving, exApos]
  have hpe : (calc_val_t2 Real.sqrt exJplMoving (exApos : Apos ℝ)).p_e 1 = ⟨0, 0, 0⟩ := by
    simp [calc_val_t2, exJplMoving, exApos]
  have hD : calc_dist Real.sqrt ((calc_val_t2 Real.sqrt exJplMoving (exApos : Apos ℝ)).p_e 1)
      ⟨exC * (1 + (exJd - exJd) * (exJd - exJd)), 0, 0⟩ = exC := by
    simp [calc_dist, calc_val_t2, exJplMoving, hsq]
  have hinit : calc_t1_init (calc_val_t2 Real.sqrt exJplMoving (exApos : Apos ℝ)) 11
      = some ⟨(calc_val_t2 Real.sqrt exJplMoving (exApos : Apos ℝ)).jd,
          ⟨exC * (1 + (exJd - exJd) * (exJd - exJd)), 0, 0⟩, ⟨0, 0, 0⟩, 1.0, 0⟩ := by
    simp [calc_t1_init, calc_val_t2, exJplMoving, exApos]
  have hu := calc_t1_update_at_rest (calc_val_t2 Real.sqrt exJplMoving (exApos : Apos ℝ))
    ⟨exC * (1 + (exJd - exJd) * (exJd - exJd)), 0, 0⟩ exC hD
  rw [hau, hjd, hce, neg_div, div_self hc.ne'] at hu
  have hstep : ¬ (calc_t1_update Real.sqrt (calc_val_t2 Real.sqrt exJplMoving exApos)
      (calc_val_t2 Real.sqrt exJplMoving (exApos : Apos ℝ)).jd
      ⟨(calc_val_t2 Real.sqrt exJplMoving (exApos : Apos ℝ)).jd,
        ⟨exC * (1 + (exJd - exJd) * (exJd - exJd)), 0, 0⟩, ⟨0, 0, 0⟩, 1.0, 0⟩).df
      > 1.0e-10 := by
    rw [hjd, hu]
    norm_num
  have h1 : (1.0 : ℝ) > 1.0e-10 := by norm_num
  have hloop := calc_t1_loop_one_pass Real.sqrt exJplMoving
    (calc_val_t2 Real.sqrt exJplMoving exApos) 11
    (calc_val_t2 Real.sqrt exJplMoving (exApos : Apos ℝ)).jd
    ⟨(calc_val_t2 Real.sqrt exJplMoving (exApos : Apos ℝ)).jd,
      ⟨exC * (1 + (exJd - exJd) * (exJd - exJd)), 0, 0⟩, ⟨0, 0, 0⟩, 1.0, 0⟩
    h1 (Nat.zero_lt_succ 9) hstep
  have hrun : calc_t1_run Real.sqrt exJplMoving (calc_val_t2 Real.sqrt exJplMoving exApos) 11
      = some ⟨calc_t1_query exJplMoving 11
          (⟨(exJd : ℝ) + -1, ⟨exC * (1 + (exJd - exJd) * (exJd - exJd)), 0, 0⟩,
            ⟨0, 0, 0⟩, -1, 1⟩ : T1Vars ℝ), none⟩ := by
    simp only [calc_t1_run, hinit]
    rw [hloop, hjd, hu]
  refine ⟨calc_t1_moving 11 (Or.inr rfl), ⟨_, hrun, rfl, rfl, rfl, ?_, ?_, ?_⟩, ?_, h173⟩
  · show (exJd : ℝ) + -1 = exJd - 1
    ring
  · show ¬ |(-1 : ℝ)| < 1e-10
    norm_num
  · show ¬ |(exJd : ℝ) - (exJd + -1)| < 1e-10
    norm_num
  · rw [hps, hpe, calc_dist_comm, ← hpe, hD]
    have : (exC : ℝ) * (exJd - exJd) - exC = -exC := by ring
    rw [this, abs_neg, abs_of_pos hc]

/-- C4, the code at a failing input.  For Earth moving at one ten-thousandth
of the speed of light along the x axis and the direction `(0, 1, 0)`,
`conv_lorentz` returns `(1/10000, sqrt (1 - 1/10000), 0)`: its factor `f` is
`sqrt (1 - |v|)`, since `calc_vel` returns the norm of `v`, already a square
root.  The formula of the specification, with `f = sqrt (1 - |v|^2)`, gives
`(1/10000, sqrt (1 - 1/100000000), 0)`, a different vector. -/
theorem conv_lorentz_uses_norm_not_square :
    conv_lorentz Real.sqrt (exAposOrbit : Apos ℝ) ⟨0, 1, 0⟩
      = ⟨1 / 10000, Real.sqrt (1 - 1 / 10000), 0⟩ ∧
    conv_lorentz_spec Real.sqrt (exAposOrbit : Apos ℝ) ⟨0, 1, 0⟩
      = ⟨1 / 10000, Real.sqrt (1 - 1 / 100000000), 0⟩ ∧
    conv_lorentz Real.sqrt (exAposOrbit : Apos ℝ) ⟨0, 1, 0⟩
      ≠ conv_lorentz_spec Real.sqrt (exAposOrbit : Apos ℝ) ⟨0, 1, 0⟩ := by
  have hv := exAposOrbit_vec_v
  have hv2 : (exC : ℝ) / 10000 / (kDaySec : ℝ) / ((kC : ℝ) / (exAu * 1000)) = 1 / 10000 := by
    rw [← hv]
    norm_num
  have hsq : Real.sqrt ((1 : ℝ) / 10000 * (1 / 10000)) = 1 / 10000 :=
    Real.sqrt_mul_self (by norm_num)
  have h10 : (1.0 : ℝ) = 1 := by norm_num
  have hsq2 : (1 : ℝ) - 1 / 10000 * (1 / 10000) = 1 - 1 / 100000000 := by norm_num
  have hcode : conv_lorentz Real.sqrt (exAposOrbit : Apos ℝ) ⟨0, 1, 0⟩
      = ⟨1 / 10000, Real.sqrt (1 - 1 / 10000), 0⟩ := by
    simp only [conv_lorentz, calc_vel, inner_prod, exAposOrbit, hv, zero_div, hsq, h10,
      mul_zero, zero_mul, add_zero, zero_add, one_mul, mul_one, div_one]
  have hspec : conv_lorentz_spec Real.sqrt (exAposOrbit : Apos ℝ) ⟨0, 1, 0⟩
      = ⟨1 / 10000, Real.sqrt (1 - 1 / 100000000), 0⟩ := by
    simp only [conv_lorentz_spec, exAposOrbit, hv2, zero_div, hsq2,
      mul_zero, zero_mul, add_zero, zero_add, one_mul, mul_one, div_one]
  refine ⟨hcode, hspec, ?_⟩
  rw [hcode, hspec]
  intro h
  have hy : Real.sqrt (1 - 1 / 10000) = Real.sqrt (1 - 1 / 100000000) :=
    congrArg Coord.y h
  rw [Real.sqrt_inj (by norm_num) (by norm_num)] at hy
  norm_num at hy
section
variable {K : Type} [LinearOrderedField K]
variable (sqrt : K → K) (jpl : K → Jpl K)

theorem conv_lorentz_calc_val_t1 (a : Apos K) (t1 : K) (d : Coord K) :
    conv_lorentz sqrt (calc_val_t1 jpl a t1) d = conv_lorentz sqrt a d := by
  have h : (calc_val_t1 jpl a t1).v_e 1 = a.v_e 1 := by
    simp only [calc_val_t1]
    exact Function.update_noteq (by decide) _ _
  have hau : (calc_val_t1 jpl a t1).au = a.au := rfl
  simp only [conv_lorentz, h, hau]

/-- The position `pos_sun` of `Apos::sun` in terms of what the provider
returns: the direction is to the Sun at `t1`, the distance is to the Sun at
`t2`. -/
theorem sun_pos_sun_eq (a0 : Apos K) :
    sun_pos_sun sqrt jpl (calc_val_t2 sqrt jpl a0) =
      (calc_t1 sqrt jpl (calc_val_t2 sqrt jpl a0) 11).map (fun t1 =>
        (calc_pos
          (conv_lorentz sqrt (calc_val_t2 sqrt jpl a0)
            (calc_unit_vector sqrt ((jpl a0.jd).calc_pv 3 12).1 ((jpl t1).calc_pv 11 12).1))
          (calc_dist sqrt ((jpl a0.jd).calc_pv 3 12).1 ((jpl a0.jd).calc_pv 11 12).1),
         calc_val_t1 jpl (calc_val_t2 sqrt jpl a0) t1)) := by
  unfold sun_pos_sun
  cases calc_t1 sqrt jpl (calc_val_t2 sqrt jpl a0) 11 with
  | error msg => rfl
  | ok t1 =>
    simp only [conv_lorentz_calc_val_t1, Except.map]
    have h1 : (calc_val_t1 jpl (calc_val_t2 sqrt jpl a0) t1).p_e 1
        = ((jpl a0.jd).calc_pv 3 12).1 := by
      simp only [calc_val_t1, calc_val_t2]
      rw [Function.update_noteq (by decide), Function.update_same]
    have h2 : (calc_val_t1 jpl (calc_val_t2 sqrt jpl a0) t1).p_s 0
        = ((jpl t1).calc_pv 11 12).1 := by
      simp only [calc_val_t1, Function.update_same]
    have h3 : (calc_val_t1 jpl (calc_val_t2 sqrt jpl a0) t1).d_e_s
        = calc_dist sqrt ((jpl a0.jd).calc_pv 3 12).1 ((jpl a0.jd).calc_pv 11 12).1 := rfl
    rw [h1, h2, h3]

/-- The position `pos_moon` of `Apos::moon` in terms of what the provider
returns. -/
theorem moon_pos_moon_eq (a0 : Apos K) :
    moon_pos_moon sqrt jpl (calc_val_t2 sqrt jpl a0) =
      (calc_t1 sqrt jpl (calc_val_t2 sqrt jpl a0) 10).map (fun t1 =>
        (calc_pos
          (conv_lorentz sqrt (calc_val_t2 sqrt jpl a0)
            (calc_unit_vector sqrt ((jpl a0.jd).calc_pv 3 12).1 ((jpl t1).calc_pv 10 12).1))
          (calc_dist sqrt ((jpl a0.jd).calc_pv 3 12).1 ((jpl a0.jd).calc_pv 10 12).1),
         calc_val_t1 jpl (calc_val_t2 sqrt jpl a0) t1)) := by
  unfold moon_pos_moon
  cases calc_t1 sqrt jpl (calc_val_t2 sqrt jpl a0) 10 with
  | error msg => rfl
  | ok t1 =>
    simp only [conv_lorentz_calc_val_t1, Except.map]
    have h1 : (calc_val_t1 jpl (calc_val_t2 sqrt jpl a0) t1).p_e 1
        = ((jpl a0.jd).calc_pv 3 12).1 := by
      simp only [calc_val_t1, calc_val_t2]
      rw [Function.update_noteq (by decide), Function.update_same]
    have h2 : (calc_val_t1 jpl (calc_val_t2 sqrt jpl a0) t1).p_m 0
        = ((jpl t1).calc_pv 10 12).1 := by
      simp only [calc_val_t1, Function.update_same]
    have h3 : (calc_val_t1 jpl (calc_val_t2 sqrt jpl a0) t1).d_e_m
        = calc_dist sqrt ((jpl a0.jd).calc_pv 3 12).1 ((jpl a0.jd).calc_pv 10 12).1 := rfl
    rw [h1, h2, h3]
end

/-- C5 as amended.  In `sun()` and in `moon()` the rectangular position handed
to the rotation of bias, precession and nutation is the aberration-corrected
direction from Earth at `t2` to the target at the emission time `t1`,
multiplied by the distance between Earth and the target both at `t2` (the
members `d_e_s` and `d_e_m` that `calc_val_t2` computed). -/
theorem sun_moon_pos_scaled_by_t2_distance (jpl : ℝ → Jpl ℝ) (a0 : Apos ℝ) :
    sun_pos_sun Real.sqrt jpl (calc_val_t2 Real.sqrt jpl a0) =
      (calc_t1 Real.sqrt jpl (calc_val_t2 Real.sqrt jpl a0) 11).map (fun t1 =>
        (calc_pos
          (conv_lorentz Real.sqrt (calc_val_t2 Real.sqrt jpl a0)
            (calc_unit_vector Real.sqrt ((jpl a0.jd).calc_pv 3 12).1
              ((jpl t1).calc_pv 11 12).1))
          (calc_dist Real.sqrt ((jpl a0.jd).calc_pv 3 12).1 ((jpl a0.jd).calc_pv 11 12).1),
         calc_val_t1 jpl (calc_val_t2 Real.sqrt jpl a0) t1)) ∧
    moon_pos_moon Real.sqrt jpl (calc_val_t2 Real.sqrt jpl a0) =
      (calc_t1 Real.sqrt jpl (calc_val_t2 Real.sqrt jpl a0) 10).map (fun t1 =>
        (calc_pos
          (conv_lorentz Real.sqrt (calc_val_t2 Real.sqrt jpl a0)
            (calc_unit_vector Real.sqrt ((jpl a0.jd).calc_pv 3 12).1
              ((jpl t1).calc_pv 10 12).1))
          (calc_dist Real.sqrt ((jpl a0.jd).calc_pv 3 12).1 ((jpl a0.jd).calc_pv 10 12).1),
         calc_val_t1 jpl (calc_val_t2 Real.sqrt jpl a0) t1)) :=
  ⟨sun_pos_sun_eq Real.sqrt jpl a0, moon_pos_moon_eq Real.sqrt jpl a0⟩

theorem exMoving_direction (target : Nat) (ht : target ≠ 3) :
    conv_lorentz Real.sqrt (calc_val_t2 Real.sqrt exJplMoving (exApos : Apos ℝ))
      (calc_unit_vector Real.sqrt ((exJplMoving (exJd : ℝ)).calc_pv 3 12).1
        ((exJplMoving ((exJd : ℝ) - 1)).calc_pv target 12).1) = ⟨1, 0, 0⟩ := by
  have hc := exC_pos
  have hsq : Real.sqrt (exC * 2 * (exC * 2)) = exC * 2 :=
    Real.sqrt_mul_self (by linarith)
  have hu : calc_unit_vector Real.sqrt ((exJplMoving (exJd : ℝ)).calc_pv 3 12).1
        ((exJplMoving ((exJd : ℝ) - 1)).calc_pv target 12).1 = ⟨1, 0, 0⟩ := by
    have hd : calc_dist Real.sqrt ((exJplMoving (exJd : ℝ)).calc_pv 3 12).1
          ((exJplMoving ((exJd : ℝ) - 1)).calc_pv target 12).1 = exC * 2 := by
      simp only [calc_dist, exJplMoving, if_neg ht, if_true]
      rw [← hsq]
      congr 1
      ring
    have hne : (exC : ℝ) * 2 ≠ 0.0 := by
      norm_num
      exact hc.ne'
    simp only [calc_unit_vector, hd, if_pos hne]
    simp only [exJplMoving, if_neg ht, if_true, sub_zero, zero_div]
    have hx : (exC : ℝ) * (1 + (exJd - 1 - exJd) * (exJd - 1 - exJd)) = exC * 2 := by ring
    rw [hx, div_self (by linarith)]
  rw [hu]
  have h10 : (1.0 : ℝ) = 1 := by norm_num
  have hve : (calc_val_t2 Real.sqrt exJplMoving (exApos : Apos ℝ)).v_e 1 = ⟨0, 0, 0⟩ := by
    simp [calc_val_t2, exJplMoving]
  simp only [conv_lorentz, calc_vel, inner_prod, hve, zero_div, h10,
      mul_zero, zero_mul, add_zero, zero_add, one_mul, mul_one, div_one, Real.sqrt_zero,
      sub_zero, Real.sqrt_one]

theorem exMoving_dist_t1 (target : Nat) (ht : target ≠ 3) :
    calc_dist Real.sqrt ((exJplMoving (exJd : ℝ)).calc_pv 3 12).1
      ((exJplMoving ((exJd : ℝ) - 1)).calc_pv target 12).1 = exC * 2 := by
  have hc := exC_pos
  have hsq : Real.sqrt (exC * 2 * (exC * 2)) = exC * 2 :=
    Real.sqrt_mul_self (by linarith)
  simp only [calc_dist, exJplMoving, if_neg ht, if_true]
  rw [← hsq]
  congr 1
  ring

theorem exMoving_dist_t2 (target : Nat) (ht : target ≠ 3) :
    calc_dist Real.sqrt ((exJplMoving (exJd : ℝ)).calc_pv 3 12).1
      ((exJplMoving (exJd : ℝ)).calc_pv target 12).1 = exC := by
  have hc := exC_pos
  have hsq : Real.sqrt (exC * exC) = exC := Real.sqrt_mul_self hc.le
  simp only [calc_dist, exJplMoving, if_neg ht, if_true]
  convert hsq using 2
  ring

/-- C5, counterexample.  With the provider `exJplMoving` the emission time is
`t1 = t2 - 1`, the corrected direction is `(1, 0, 0)`, the target is at the
distance `exC` from Earth at `t2` and was at the distance `2 * exC` at `t1`.
The position that `sun()` and `moon()` hand to the rotation is
`(exC, 0, 0)`; the corrected direction times the distance between Earth at
`t2` and the target at `t1` is `(2 * exC, 0, 0)`. -/
theorem sun_moon_pos_not_scaled_by_t1_distance :
    sun_pos_sun Real.sqrt exJplMoving (calc_val_t2 Real.sqrt exJplMoving exApos)
      = .ok (⟨(exC : ℝ), 0, 0⟩,
          calc_val_t1 exJplMoving (calc_val_t2 Real.sqrt exJplMoving exApos) (exJd - 1)) ∧
    moon_pos_moon Real.sqrt exJplMoving (calc_val_t2 Real.sqrt exJplMoving exApos)
      = .ok (⟨(exC : ℝ), 0, 0⟩,
          calc_val_t1 exJplMoving (calc_val_t2 Real.sqrt exJplMoving exApos) (exJd - 1)) ∧
    calc_pos
      (conv_lorentz Real.sqrt (calc_val_t2 Real.sqrt exJplMoving (exApos : Apos ℝ))
        (calc_unit_vector Real.sqrt ((exJplMoving (exJd : ℝ)).calc_pv 3 12).1
          ((exJplMoving ((exJd : ℝ) - 1)).calc_pv 11 12).1))
      (calc_dist Real.sqrt ((exJplMoving (exJd : ℝ)).calc_pv 3 12).1
        ((exJplMoving ((exJd : ℝ) - 1)).calc_pv 11 12).1) = ⟨exC * 2, 0, 0⟩ ∧
    calc_pos
      (conv_lorentz Real.sqrt (calc_val_t2 Real.sqrt exJplMoving (exApos : Apos ℝ))
        (calc_unit_vector Real.sqrt ((exJplMoving (exJd : ℝ)).calc_pv 3 12).1
          ((exJplMoving ((exJd : ℝ) - 1)).calc_pv 10 12).1))
      (calc_dist Real.sqrt ((exJplMoving (exJd : ℝ)).calc_pv 3 12).1
        ((exJplMoving ((exJd : ℝ) - 1)).calc_pv 10 12).1) = ⟨exC * 2, 0, 0⟩ ∧
    (⟨(exC : ℝ), 0, 0⟩ : Coord ℝ) ≠ ⟨exC * 2, 0, 0⟩ := by
  have hc := exC_pos
  have hjd : (exApos : Apos ℝ).jd = exJd := rfl
  refine ⟨?_, ?_, ?_, ?_, ?_⟩
  · rw [sun_pos_sun_eq, calc_t1_moving 11 (Or.inr rfl)]
    simp only [Except.map, hjd, exMoving_direction 11 (by decide),
      exMoving_dist_t2 11 (by decide), calc_pos, one_mul, zero_mul]
  · rw [moon_pos_moon_eq, calc_t1_moving 10 (Or.inl rfl)]
    simp only [Except.map, hjd, exMoving_direction 10 (by decide),
      exMoving_dist_t2 10 (by decide), calc_pos, one_mul, zero_mul]
  · simp only [exMoving_direction 11 (by decide), exMoving_dist_t1 11 (by decide), calc_pos,
      one_mul, zero_mul]
  · simp only [exMoving_direction 10 (by decide), exMoving_dist_t1 10 (by decide), calc_pos,
      one_mul, zero_mul]
  · intro h
    have hx : (exC : ℝ) = exC * 2 := congrArg Coord.x h
    linarith
section BpnLemmas

theorem kMtxUnit_eq_one {K : Type} [LinearOrderedField K] : (kMtxUnit : Mat3 K) = 1 := by
  have h1 : (1.0 : K) = 1 := by norm_num
  have h0 : (0.0 : K) = 0 := by norm_num
  rw [kMtxUnit, h1, h0, Matrix.one_fin_three]

theorem R1_transpose {K : Type} [LinearOrderedField K] (sin cos : K → K) (A : K) :
    (R1 sin cos A).transpose = !![1, 0, 0; 0, cos A, -sin A; 0, sin A, cos A] := by
  ext i j
  fin_cases i <;> fin_cases j <;> rfl

theorem R2_transpose {K : Type} [LinearOrderedField K] (sin cos : K → K) (A : K) :
    (R2 sin cos A).transpose = !![cos A, 0, sin A; 0, 1, 0; -sin A, 0, cos A] := by
  ext i j
  fin_cases i <;> fin_cases j <;> rfl

theorem R3_transpose {K : Type} [LinearOrderedField K] (sin cos : K → K) (A : K) :
    (R3 sin cos A).transpose = !![cos A, -sin A, 0; sin A, cos A, 0; 0, 0, 1] := by
  ext i j
  fin_cases i <;> fin_cases j <;> rfl

theorem R1_orthogonal (A : ℝ) :
    R1 Real.sin Real.cos A * (R1 Real.sin Real.cos A).transpose = 1 := by
  have h := Real.sin_sq_add_cos_sq A
  rw [R1_transpose, R1, Matrix.mul_fin_three, Matrix.one_fin_three]
  ext i j
  fin_cases i <;> fin_cases j <;> simp [Matrix.vecHead, Matrix.vecTail] <;> nlinarith [h]

theorem R2_orthogonal (A : ℝ) :
    R2 Real.sin Real.cos A * (R2 Real.sin Real.cos A).transpose = 1 := by
  have h := Real.sin_sq_add_cos_sq A
  rw [R2_transpose, R2, Matrix.mul_fin_three, Matrix.one_fin_three]
  ext i j
  fin_cases i <;> fin_cases j <;> simp [Matrix.vecHead, Matrix.vecTail] <;> nlinarith [h]

theorem R3_orthogonal (A : ℝ) :
    R3 Real.sin Real.cos A * (R3 Real.sin Real.cos A).transpose = 1 := by
  have h := Real.sin_sq_add_cos_sq A
  rw [R3_transpose, R3, Matrix.mul_fin_three, Matrix.one_fin_three]
  ext i j
  fin_cases i <;> fin_cases j <;> simp [Matrix.vecHead, Matrix.vecTail] <;> nlinarith [h]

theorem mul_orthogonal (M N : Mat3 ℝ) (hM : M * M.transpose = 1) (hN : N * N.transpose = 1) :
    (M * N) * (M * N).transpose = 1 := by
  rw [Matrix.transpose_mul, Matrix.mul_assoc, ← Matrix.mul_assoc N, hN, Matrix.one_mul, hM]

theorem r_x_orthogonal (phi : ℝ) (M : Mat3 ℝ) (hM : M * M.transpose = 1) :
    r_x Real.sin Real.cos phi M * (r_x Real.sin Real.cos phi M).transpose = 1 :=
  mul_orthogonal _ _ (R1_orthogonal phi) hM

theorem r_y_orthogonal (theta : ℝ) (M : Mat3 ℝ) (hM : M * M.transpose = 1) :
    r_y Real.sin Real.cos theta M * (r_y Real.sin Real.cos theta M).transpose = 1 :=
  mul_orthogonal _ _ (R2_orthogonal theta) hM

theorem r_z_orthogonal (psi : ℝ) (M : Mat3 ℝ) (hM : M * M.transpose = 1) :
    r_z Real.sin Real.cos psi M * (r_z Real.sin Real.cos psi M).transpose = 1 :=
  mul_orthogonal _ _ (R3_orthogonal psi) hM

theorem kMtxUnit_orthogonal : (kMtxUnit : Mat3 ℝ) * (kMtxUnit : Mat3 ℝ).transpose = 1 := by
  rw [kMtxUnit_eq_one, Matrix.transpose_one, Matrix.one_mul]

end BpnLemmas

/-- C6. For every Julian century `t`, every pair of nutation tables and every
obliquity function, each of the six matrices that the constructor of `Bpn`
builds is orthogonal over the reals: `M * transpose M = 1`. -/
theorem bpn_matrices_orthogonal (calc_ob : ℝ → ℝ) (t : ℝ) (dat_ls dat_pl : List (List ℝ)) :
    (Bpn.ctor calc_ob Real.sin Real.cos Real.arctan t dat_ls dat_pl).r_bias
      * (Bpn.ctor calc_ob Real.sin Real.cos Real.arctan t dat_ls dat_pl).r_bias.transpose = 1 ∧
    (Bpn.ctor calc_ob Real.sin Real.cos Real.arctan t dat_ls dat_pl).r_bias_prec
      * (Bpn.ctor calc_ob Real.sin Real.cos Real.arctan t dat_ls dat_pl).r_bias_prec.transpose
        = 1 ∧
    (Bpn.ctor calc_ob Real.sin Real.cos Real.arctan t dat_ls dat_pl).r_bias_prec_nut
      * (Bpn.ctor calc_ob Real.sin Real.cos Real.arctan t dat_ls dat_pl).r_bias_prec_nut.transpose
        = 1 ∧
    (Bpn.ctor calc_ob Real.sin Real.cos Real.arctan t dat_ls dat_pl).r_prec
      * (Bpn.ctor calc_ob Real.sin Real.cos Real.arctan t dat_ls dat_pl).r_prec.transpose = 1 ∧
    (Bpn.ctor calc_ob Real.sin Real.cos Real.arctan t dat_ls dat_pl).r_prec_nut
      * (Bpn.ctor calc_ob Real.sin Real.cos Real.arctan t dat_ls dat_pl).r_prec_nut.transpose
        = 1 ∧
    (Bpn.ctor calc_ob Real.sin Real.cos Real.arctan t dat_ls dat_pl).r_nut
      * (Bpn.ctor calc_ob Real.sin Real.cos Real.arctan t dat_ls dat_pl).r_nut.transpose = 1 := by
  refine ⟨?_, ?_, ?_, ?_, ?_, ?_⟩
  · exact r_z_orthogonal _ _ (r_y_orthogonal _ _ (r_x_orthogonal _ _ kMtxUnit_orthogonal))
  · exact r_x_orthogonal _ _ (r_z_orthogonal _ _ (r_x_orthogonal _ _
      (r_z_orthogonal _ _ kMtxUnit_orthogonal)))
  · exact r_x_orthogonal _ _ (r_z_orthogonal _ _ (r_x_orthogonal _ _
      (r_z_orthogonal _ _ kMtxUnit_orthogonal)))
  · exact r_x_orthogonal _ _ (r_z_orthogonal _ _ (r_x_orthogonal _ _
      (r_z_orthogonal _ _ kMtxUnit_orthogonal)))
  · exact r_x_orthogonal _ _ (r_z_orthogonal _ _ (r_x_orthogonal _ _
      (r_z_orthogonal _ _ kMtxUnit_orthogonal)))
  · exact r_x_orthogonal _ _ (r_z_orthogonal _ _ (r_x_orthogonal _ _ kMtxUnit_orthogonal))
theorem Bpn_kAs2R_eq : (Bpn.kAs2R Real.arctan : ℝ) = Real.pi / 648000 := by
  unfold Bpn.kAs2R Bpn.kPi
  have h1 : (1.0 : ℝ) = 1 := by norm_num
  rw [h1, Real.arctan_one]
  norm_num

/-- C7. For every `t`, `gen_r_bias_prec` and `gen_r_prec` each produce the
matrix `R1(-eps) * R3(-psi) * R1(phi) * R3(gamma)` (the rightmost factor is
applied to a vector first), where `eps` is the obliquity at `t` and `gamma`,
`phi`, `psi` are the polynomials of degree 5 in `t` computed by
`comp_gamma_bp`, `comp_phi_bp`, `comp_psi_bp` for `gen_r_bias_prec` and by
`comp_gamma_p`, `comp_phi_p`, `comp_psi_p` for `gen_r_prec`, in arcseconds
times `pi / 648000`. -/
theorem gen_r_prec_is_fw_product (calc_ob : ℝ → ℝ) (t : ℝ) (dat_ls dat_pl : List (List ℝ)) :
    (Bpn.ctor calc_ob Real.sin Real.cos Real.arctan t dat_ls dat_pl).r_bias_prec
      = R1 Real.sin Real.cos (-(calc_ob t))
        * R3 Real.sin Real.cos (-(Bpn.comp_psi_bp Real.arctan t))
        * R1 Real.sin Real.cos (Bpn.comp_phi_bp Real.arctan t)
        * R3 Real.sin Real.cos (Bpn.comp_gamma_bp Real.arctan t) ∧
    (Bpn.ctor calc_ob Real.sin Real.cos Real.arctan t dat_ls dat_pl).r_prec
      = R1 Real.sin Real.cos (-(calc_ob t))
        * R3 Real.sin Real.cos (-(Bpn.comp_psi_p Real.arctan t))
        * R1 Real.sin Real.cos (Bpn.comp_phi_p Real.arctan t)
        * R3 Real.sin Real.cos (Bpn.comp_gamma_p Real.arctan t) ∧
    Bpn.comp_gamma_bp Real.arctan t
      = (-0.052928 + 10.556378 * t + 0.4932044 * t ^ 2 - 0.00031238 * t ^ 3
          - 0.000002788 * t ^ 4 + 0.0000000260 * t ^ 5) * (Real.pi / 648000) ∧
    Bpn.comp_phi_bp Real.arctan t
      = (84381.412819 - 46.811016 * t + 0.0511268 * t ^ 2 + 0.00053289 * t ^ 3
          - 0.000000440 * t ^ 4 - 0.0000000176 * t ^ 5) * (Real.pi / 648000) ∧
    Bpn.comp_psi_bp Real.arctan t
      = (-0.041775 + 5038.481484 * t + 1.5584175 * t ^ 2 - 0.00018522 * t ^ 3
          - 0.000026452 * t ^ 4 - 0.0000000148 * t ^ 5) * (Real.pi / 648000) ∧
    Bpn.comp_gamma_p Real.arctan t
      = (10.556403 * t + 0.4932044 * t ^ 2 - 0.00031238 * t ^ 3
          - 0.000002788 * t ^ 4 + 0.0000000260 * t ^ 5) * (Real.pi / 648000) ∧
    Bpn.comp_phi_p Real.arctan t
      = (84381.406000 - 46.811015 * t + 0.0511269 * t ^ 2 + 0.00053289 * t ^ 3
          - 0.000000440 * t ^ 4 - 0.0000000176 * t ^ 5) * (Real.pi / 648000) ∧
    Bpn.comp_psi_p Real.arctan t
      = (5038.481507 * t + 1.5584176 * t ^ 2 - 0.00018522 * t ^ 3
          - 0.000026452 * t ^ 4 - 0.0000000148 * t ^ 5) * (Real.pi / 648000) := by
  refine ⟨?_, ?_, ?_, ?_, ?_, ?_, ?_, ?_⟩
  · simp only [Bpn.ctor, Bpn.gen_r_bias_prec, r_x, r_z, kMtxUnit_eq_one, Matrix.mul_one,
      Matrix.mul_assoc]
  · simp only [Bpn.ctor, Bpn.gen_r_prec, r_x, r_z, kMtxUnit_eq_one, Matrix.mul_one,
      Matrix.mul_assoc]
  · rw [Bpn.comp_gamma_bp, Bpn_kAs2R_eq]
    ring
  · rw [Bpn.comp_phi_bp, Bpn_kAs2R_eq]
    ring
  · rw [Bpn.comp_psi_bp, Bpn_kAs2R_eq]
    ring
  · rw [Bpn.comp_gamma_p, Bpn_kAs2R_eq]
    ring
  · rw [Bpn.comp_phi_p, Bpn_kAs2R_eq]
    ring
  · rw [Bpn.comp_psi_p, Bpn_kAs2R_eq]
    ring

/-- C8. For every `t`, `gen_r_bias_prec_nut` and `gen_r_prec_nut` each produce
`R1(-(eps + deps')) * R3(-(psi + dpsi')) * R1(phi) * R3(gamma)`, where
`(dpsi, deps)` is the result of `calc_nutation` at `t`, `fj2 = -2.7774e-6 * t`,
`dpsi' = dpsi * (1 + 0.4697e-6 + fj2)`, `deps' = deps * (1 + fj2)`, and
`gamma`, `phi`, `psi` are the angles of the variant. -/
theorem gen_r_prec_nut_is_fw_product (calc_ob : ℝ → ℝ) (t : ℝ)
    (dat_ls dat_pl : List (List ℝ)) :
    (Bpn.ctor calc_ob Real.sin Real.cos Real.arctan t dat_ls dat_pl).r_bias_prec_nut
      = R1 Real.sin Real.cos
          (-(calc_ob t
            + (Nutation.calc_nutation Real.sin Real.cos Real.arctan t dat_ls dat_pl).2
              * (1 + -2.7774e-6 * t)))
        * R3 Real.sin Real.cos
          (-(Bpn.comp_psi_bp Real.arctan t
            + (Nutation.calc_nutation Real.sin Real.cos Real.arctan t dat_ls dat_pl).1
              * (1 + 0.4697e-6 + -2.7774e-6 * t)))
        * R1 Real.sin Real.cos (Bpn.comp_phi_bp Real.arctan t)
        * R3 Real.sin Real.cos (Bpn.comp_gamma_bp Real.arctan t) ∧
    (Bpn.ctor calc_ob Real.sin Real.cos Real.arctan t dat_ls dat_pl).r_prec_nut
      = R1 Real.sin Real.cos
          (-(calc_ob t
            + (Nutation.calc_nutation Real.sin Real.cos Real.arctan t dat_ls dat_pl).2
              * (1 + -2.7774e-6 * t)))
        * R3 Real.sin Real.cos
          (-(Bpn.comp_psi_p Real.arctan t
            + (Nutation.calc_nutation Real.sin Real.cos Real.arctan t dat_ls dat_pl).1
              * (1 + 0.4697e-6 + -2.7774e-6 * t)))
        * R1 Real.sin Real.cos (Bpn.comp_phi_p Real.arctan t)
        * R3 Real.sin Real.cos (Bpn.comp_gamma_p Real.arctan t) := by
  have hdpsi : ∀ d : ℝ, d + d * (0.4697e-6 + -2.7774e-6 * t)
      = d * (1 + 0.4697e-6 + -2.7774e-6 * t) := fun d => by ring
  have hdeps : ∀ d : ℝ, d + d * (-2.7774e-6 * t) = d * (1 + -2.7774e-6 * t) := fun d => by ring
  have hneg : ∀ a b : ℝ, -a - b = -(a + b) := fun a b => by ring
  constructor
  · simp only [Bpn.ctor, Bpn.gen_r_bias_prec_nut, r_x, r_z, kMtxUnit_eq_one, Matrix.mul_one,
      Matrix.mul_assoc, hdpsi, hdeps, hneg]
  · simp only [Bpn.ctor, Bpn.gen_r_prec_nut, r_x, r_z, kMtxUnit_eq_one, Matrix.mul_one,
      Matrix.mul_assoc, hdpsi, hdeps, hneg]
theorem Bpn_kMas2R_eq : (Bpn.kMas2R Real.arctan : ℝ) = Real.pi / 648000000 := by
  unfold Bpn.kMas2R
  rw [Bpn_kAs2R_eq]
  norm_num
  ring

theorem R3_R2_R1_entry_2_0 (a b c : ℝ) :
    (R3 Real.sin Real.cos c * (R2 Real.sin Real.cos b * R1 Real.sin Real.cos a)) 2 0
      = Real.sin b := by
  simp [R1, R2, R3, Matrix.mul_apply, Fin.sum_univ_three, Matrix.vecHead, Matrix.vecTail]

theorem R3_R1_R2_entry_2_0 (a b c : ℝ) :
    (R3 Real.sin Real.cos c * R1 Real.sin Real.cos a * R2 Real.sin Real.cos b) 2 0
      = Real.cos a * Real.sin b := by
  simp [R1, R2, R3, Matrix.mul_apply, Fin.sum_univ_three, Matrix.vecHead, Matrix.vecTail]

/-- C10 as amended.  `gen_r_bias` composes the three rotations of the frame
bias in the order x, then y, then z: the rotation about x by -5.1 mas is
applied to a vector first, then the rotation about y by -17.3 mas, then the
rotation about z by +78.0 mas; the matrix is
`R3(78.0 mas) * R2(-17.3 mas) * R1(-5.1 mas)`, one mas being
`pi / 648000000`. -/
theorem gen_r_bias_is_z_y_x_product :
    Bpn.gen_r_bias Real.sin Real.cos Real.arctan
      = R3 Real.sin Real.cos (78.0 * (Real.pi / 648000000))
        * R2 Real.sin Real.cos (-17.3 * (Real.pi / 648000000))
        * R1 Real.sin Real.cos (-5.1 * (Real.pi / 648000000)) := by
  simp only [Bpn.gen_r_bias, r_x, r_y, r_z, kMtxUnit_eq_one, Matrix.mul_one, Matrix.mul_assoc,
    Bpn_kMas2R_eq]

/-- C10, counterexample.  The matrix of `gen_r_bias` is not
`R3(78.0 mas) * R1(-5.1 mas) * R2(-17.3 mas)`, the product in which the
rotation about y is applied first: the entries of row 2, column 0 are
`sin (-17.3 mas)` and `cos (-5.1 mas) * sin (-17.3 mas)`. -/
theorem gen_r_bias_not_y_first :
    Bpn.gen_r_bias Real.sin Real.cos Real.arctan
      ≠ R3 Real.sin Real.cos (78.0 * Bpn.kMas2R Real.arctan)
        * R1 Real.sin Real.cos (-5.1 * Bpn.kMas2R Real.arctan)
        * R2 Real.sin Real.cos (-17.3 * Bpn.kMas2R Real.arctan) := by
  intro h
  have hcode : Bpn.gen_r_bias Real.sin Real.cos Real.arctan
      = R3 Real.sin Real.cos (78.0 * Bpn.kMas2R Real.arctan)
        * (R2 Real.sin Real.cos (-17.3 * Bpn.kMas2R Real.arctan)
          * R1 Real.sin Real.cos (-5.1 * Bpn.kMas2R Real.arctan)) := by
    simp only [Bpn.gen_r_bias, r_x, r_y, r_z, kMtxUnit_eq_one, Matrix.mul_one]
  rw [hcode] at h
  have h20 := congrFun (congrFun h 2) 0
  rw [R3_R2_R1_entry_2_0, R3_R1_R2_entry_2_0, Bpn_kMas2R_eq] at h20
  have hpi := Real.pi_pos
  have hsin : Real.sin (-17.3 * (Real.pi / 648000000)) < 0 :=
    Real.sin_neg_of_neg_of_neg_pi_lt (by nlinarith) (by nlinarith)
  have hcos : Real.cos (-5.1 * (Real.pi / 648000000)) ≠ 1 := by
    intro hc
    rw [Real.cos_eq_one_iff_of_lt_of_lt (by nlinarith) (by nlinarith)] at hc
    nlinarith
  have hz : Real.sin (-17.3 * (Real.pi / 648000000))
      * (1 - Real.cos (-5.1 * (Real.pi / 648000000))) = 0 := by linarith
  rcases mul_eq_zero.mp hz with h1 | h1
  · linarith
  · exact hcos (by linarith)
theorem calc_nutation_exRowLs (t C D : ℝ) :
    Nutation.calc_nutation Real.sin Real.cos Real.arctan t [exRowLs C D] []
      = (C * Nutation.kU2R, D * Nutation.kU2R) := by
  simp [Nutation.calc_nutation, Nutation.calc_lunisolar, Nutation.calc_planetary,
    Nutation.calc_lunisolar_row, Nutation.fmod_p, col, exRowLs]
  constructor <;> norm_num

theorem R1_R3_R1_entries (a b c : ℝ) :
    (R1 Real.sin Real.cos a * R3 Real.sin Real.cos b * R1 Real.sin Real.cos c) 0 0
      = Real.cos b ∧
    (R1 Real.sin Real.cos a * R3 Real.sin Real.cos b * R1 Real.sin Real.cos c) 0 1
      = Real.sin b * Real.cos c ∧
    (R1 Real.sin Real.cos a * R3 Real.sin Real.cos b * R1 Real.sin Real.cos c) 0 2
      = Real.sin b * Real.sin c := by
  refine ⟨?_, ?_, ?_⟩ <;>
    simp [R1, R3, Matrix.mul_apply, Fin.sum_univ_three, Matrix.vecHead, Matrix.vecTail]

theorem gen_r_nut_eq (calc_ob : ℝ → ℝ) (t : ℝ) (dat_ls dat_pl : List (List ℝ)) :
    (Bpn.ctor calc_ob Real.sin Real.cos Real.arctan t dat_ls dat_pl).r_nut
      = R1 Real.sin Real.cos
          (-(calc_ob t
            + (Nutation.calc_nutation Real.sin Real.cos Real.arctan t dat_ls dat_pl).2
              * (1 + -2.7774e-6 * t)))
        * R3 Real.sin Real.cos
          (-((Nutation.calc_nutation Real.sin Real.cos Real.arctan t dat_ls dat_pl).1
              * (1 + 0.4697e-6 + -2.7774e-6 * t)))
        * R1 Real.sin Real.cos (calc_ob t) := by
  have hdpsi : ∀ d : ℝ, d + d * (0.4697e-6 + -2.7774e-6 * t)
      = d * (1 + 0.4697e-6 + -2.7774e-6 * t) := fun d => by ring
  have hdeps : ∀ d : ℝ, d + d * (-2.7774e-6 * t) = d * (1 + -2.7774e-6 * t) := fun d => by ring
  have hneg : ∀ a b : ℝ, -a - b = -(a + b) := fun a b => by ring
  simp only [Bpn.ctor, Bpn.gen_r_nut, r_x, r_z, kMtxUnit_eq_one, Matrix.mul_one,
    Matrix.mul_assoc, hdpsi, hdeps, hneg]

theorem Nutation_kU2R_eq : (Nutation.kU2R : ℝ) = 4.848136811095359935899141e-13 := by
  unfold Nutation.kU2R Nutation.kAs2R
  norm_num

/-- C9 as amended.  For every `t`, `gen_r_nut` produces the matrix
`R1(-(eps + deps')) * R3(-dpsi') * R1(eps)` (the rightmost factor is applied
to a vector first), where `eps` is the obliquity at `t`, `(dpsi, deps)` is the
result of `calc_nutation` at `t`, `fj2 = -2.7774e-6 * t`,
`dpsi' = dpsi * (1 + 0.4697e-6 + fj2)` and `deps' = deps * (1 + fj2)`. -/
theorem gen_r_nut_is_product (calc_ob : ℝ → ℝ) (t : ℝ) (dat_ls dat_pl : List (List ℝ)) :
    (Bpn.ctor calc_ob Real.sin Real.cos Real.arctan t dat_ls dat_pl).r_nut
      = R1 Real.sin Real.cos
          (-(calc_ob t
            + (Nutation.calc_nutation Real.sin Real.cos Real.arctan t dat_ls dat_pl).2
              * (1 + -2.7774e-6 * t)))
        * R3 Real.sin Real.cos
          (-((Nutation.calc_nutation Real.sin Real.cos Real.arctan t dat_ls dat_pl).1
              * (1 + 0.4697e-6 + -2.7774e-6 * t)))
        * R1 Real.sin Real.cos (calc_ob t) :=
  gen_r_nut_eq calc_ob t dat_ls dat_pl

theorem cos_ne_of_lt (x y : ℝ) (hx : 0 ≤ x) (hxy : x < y) (hy : y ≤ Real.pi) :
    Real.cos y ≠ Real.cos x :=
  ne_of_lt (Real.strictAntiOn_cos ⟨hx, le_trans hxy.le hy⟩ ⟨le_trans hx hxy.le, hy⟩ hxy)

/-- C9, counterexample.  Whatever the obliquity function is, the matrix of
`gen_r_nut` is not always `R1(eps) * R3(-dpsi) * R1(-eps - deps)` with the
angles `(dpsi, deps)` of `calc_nutation`: at `t = 0`, with the luni-solar table
of the one row `exRowLs 1e12 1e12` and the empty planetary table, the entry of
row 0, column 0 is `cos (dpsi * 1.0000004697)` in the code and `cos dpsi` in
that product.  Nor is it always that product with the adjusted angles `dpsi'`
and `deps'` in place of `dpsi` and `deps`: row 0 of the two matrices cannot
agree both for the table `[exRowLs 1e12 1e12]` and for the table
`[exRowLs 1e12 2e12]`.  Nor is it always the product in the order of the code,
`R1(-eps - deps) * R3(-dpsi) * R1(eps)`, with the angles not adjusted. -/
theorem gen_r_nut_not_claimed_product :
    (¬ ∃ calc_ob : ℝ → ℝ, ∀ (t : ℝ) (dat_ls dat_pl : List (List ℝ)),
      (Bpn.ctor calc_ob Real.sin Real.cos Real.arctan t dat_ls dat_pl).r_nut
        = R1 Real.sin Real.cos (calc_ob t)
          * R3 Real.sin Real.cos
            (-(Nutation.calc_nutation Real.sin Real.cos Real.arctan t dat_ls dat_pl).1)
          * R1 Real.sin Real.cos
            (-(calc_ob t)
              - (Nutation.calc_nutation Real.sin Real.cos Real.arctan t dat_ls dat_pl).2)) ∧
    (¬ ∃ calc_ob : ℝ → ℝ, ∀ (t : ℝ) (dat_ls dat_pl : List (List ℝ)),
      (Bpn.ctor calc_ob Real.sin Real.cos Real.arctan t dat_ls dat_pl).r_nut
        = R1 Real.sin Real.cos (calc_ob t)
          * R3 Real.sin Real.cos
            (-((Nutation.calc_nutation Real.sin Real.cos Real.arctan t dat_ls dat_pl).1
              * (1 + 0.4697e-6 + -2.7774e-6 * t)))
          * R1 Real.sin Real.cos
            (-(calc_ob t)
              - (Nutation.calc_nutation Real.sin Real.cos Real.arctan t dat_ls dat_pl).2
                * (1 + -2.7774e-6 * t))) ∧
    (¬ ∃ calc_ob : ℝ → ℝ, ∀ (t : ℝ) (dat_ls dat_pl : List (List ℝ)),
      (Bpn.ctor calc_ob Real.sin Real.cos Real.arctan t dat_ls dat_pl).r_nut
        = R1 Real.sin Real.cos
            (-(calc_ob t)
              - (Nutation.calc_nutation Real.sin Real.cos Real.arctan t dat_ls dat_pl).2)
          * R3 Real.sin Real.cos
            (-(Nutation.calc_nutation Real.sin Real.cos Real.arctan t dat_ls dat_pl).1)
          * R1 Real.sin Real.cos (calc_ob t)) := by
  have hpi := Real.pi_gt_three
  refine ⟨?_, ?_, ?_⟩
  · rintro ⟨calc_ob, h⟩
    have h0 := h 0 [exRowLs 1e12 1e12] []
    rw [gen_r_nut_eq] at h0
    have e := congrFun (congrFun h0 0) 0
    rw [(R1_R3_R1_entries _ _ _).1, (R1_R3_R1_entries _ _ _).1, Real.cos_neg, Real.cos_neg,
      calc_nutation_exRowLs, Nutation_kU2R_eq] at e
    refine cos_ne_of_lt _ _ ?_ ?_ ?_ e
    · norm_num
    · norm_num
    · norm_num
      linarith
  rotate_left
  · rintro ⟨calc_ob, h⟩
    have h0 := h 0 [exRowLs 1e12 1e12] []
    rw [gen_r_nut_eq] at h0
    have e := congrFun (congrFun h0 0) 0
    rw [(R1_R3_R1_entries _ _ _).1, (R1_R3_R1_entries _ _ _).1, Real.cos_neg, Real.cos_neg,
      calc_nutation_exRowLs, Nutation_kU2R_eq] at e
    refine cos_ne_of_lt _ _ ?_ ?_ ?_ e
    · norm_num
    · norm_num
    · norm_num
      linarith
  · rintro ⟨calc_ob, h⟩
    have key : ∀ D : ℝ, Real.cos (D * Nutation.kU2R)
        = Real.cos (calc_ob 0) ^ 2 - Real.sin (calc_ob 0) ^ 2 := by
      intro D
      have h0 := h 0 [exRowLs 1e12 D] []
      rw [gen_r_nut_eq] at h0
      have e1 := congrFun (congrFun h0 0) 1
      have e2 := congrFun (congrFun h0 0) 2
      rw [(R1_R3_R1_entries _ _ _).2.1, (R1_R3_R1_entries _ _ _).2.1,
        calc_nutation_exRowLs] at e1
      rw [(R1_R3_R1_entries _ _ _).2.2, (R1_R3_R1_entries _ _ _).2.2,
        calc_nutation_exRowLs] at e2
      simp only [mul_zero, add_zero, mul_one] at e1 e2
      have hs : Real.sin (-(1e12 * Nutation.kU2R * (1 + 0.4697e-6))) ≠ 0 := by
        rw [Real.sin_neg, Nutation_kU2R_eq]
        apply neg_ne_zero.mpr
        apply ne_of_gt
        apply Real.sin_pos_of_pos_of_lt_pi
        · norm_num
        · norm_num
          linarith
      have c1 := mul_left_cancel₀ hs e1
      have c2 := mul_left_cancel₀ hs e2
      have hsum : -calc_ob 0 - D * Nutation.kU2R = -(calc_ob 0 + D * Nutation.kU2R) := by ring
      rw [hsum, Real.cos_neg] at c1
      rw [hsum, Real.sin_neg] at c2
      have hd : D * Nutation.kU2R = (calc_ob 0 + D * Nutation.kU2R) - calc_ob 0 := by ring
      rw [hd, Real.cos_sub, ← c1]
      have c2' : Real.sin (calc_ob 0 + D * Nutation.kU2R) = -Real.sin (calc_ob 0) := by
        linarith
      rw [c2']
      ring
    have k1 := key 1e12
    have k2 := key 2e12
    rw [← k1, Nutation_kU2R_eq] at k2
    refine cos_ne_of_lt _ _ ?_ ?_ ?_ k2
    · norm_num
    · norm_num
    · norm_num
      linarith
section NutationLemmas

theorem Nutation_kPi2_eq : (Nutation.kPi2 Real.arctan : ℝ) = 2 * Real.pi := by
  unfold Nutation.kPi2 Nutation.kPi
  have h1 : (1.0 : ℝ) = 1 := by norm_num
  rw [h1, Real.arctan_one]
  ring

theorem col_ofFn {n : Nat} (r : Fin n → ℝ) (j : Nat) (hj : j < n) :
    col (List.ofFn r) j = r ⟨j, hj⟩ := by
  unfold col
  rw [List.getD_eq_getElem _ _ (by simpa using hj)]
  simp

/-- The loop of `calc_lunisolar` is a sum over the rows of the table. -/
theorem calc_lunisolar_foldr (t l lp f d om : ℝ) (rows : List (List ℝ)) :
    List.foldr (Nutation.calc_lunisolar_row Real.sin Real.cos Real.arctan t l lp f d om)
        (0.0, 0.0) rows
      = ((rows.map (fun row =>
            (col row 5 + col row 6 * t)
              * Real.sin (Nutation.fmod_p (col row 0 * l + col row 1 * lp + col row 2 * f
                  + col row 3 * d + col row 4 * om) (2 * Real.pi))
            + col row 7
              * Real.cos (Nutation.fmod_p (col row 0 * l + col row 1 * lp + col row 2 * f
                  + col row 3 * d + col row 4 * om) (2 * Real.pi)))).sum,
         (rows.map (fun row =>
            (col row 8 + col row 9 * t)
              * Real.cos (Nutation.fmod_p (col row 0 * l + col row 1 * lp + col row 2 * f
                  + col row 3 * d + col row 4 * om) (2 * Real.pi))
            + col row 10
              * Real.sin (Nutation.fmod_p (col row 0 * l + col row 1 * lp + col row 2 * f
                  + col row 3 * d + col row 4 * om) (2 * Real.pi)))).sum) := by
  induction rows with
  | nil =>
    simp only [List.foldr_nil, List.map_nil, List.sum_nil]
    norm_num
  | cons row rest ih =>
    rw [List.foldr_cons, ih]
    simp only [Nutation.calc_lunisolar_row, Nutation_kPi2_eq, List.map_cons, List.sum_cons]
    rw [add_comm, add_comm (List.sum _)]

/-- The loop of `calc_planetary` is a sum over the rows of the table. -/
theorem calc_planetary_foldr (l f d om pa lme lve lea lma lju lsa lur lne : ℝ)
    (rows : List (List ℝ)) :
    List.foldr
        (Nutation.calc_planetary_row Real.sin Real.cos Real.arctan
          l f d om pa lme lve lea lma lju lsa lur lne) (0.0, 0.0) rows
      = ((rows.map (fun row =>
            col row 14
              * Real.sin (Nutation.fmod_p (col row 0 * l + col row 2 * f + col row 3 * d
                  + col row 4 * om + col row 5 * lme + col row 6 * lve + col row 7 * lea
                  + col row 8 * lma + col row 9 * lju + col row 10 * lsa + col row 11 * lur
                  + col row 12 * lne + col row 13 * pa) (2 * Real.pi))
            + col row 15
              * Real.cos (Nutation.fmod_p (col row 0 * l + col row 2 * f + col row 3 * d
                  + col row 4 * om + col row 5 * lme + col row 6 * lve + col row 7 * lea
                  + col row 8 * lma + col row 9 * lju + col row 10 * lsa + col row 11 * lur
                  + col row 12 * lne + col row 13 * pa) (2 * Real.pi)))).sum,
         (rows.map (fun row =>
            col row 16
              * Real.sin (Nutation.fmod_p (col row 0 * l + col row 2 * f + col row 3 * d
                  + col row 4 * om + col row 5 * lme + col row 6 * lve + col row 7 * lea
                  + col row 8 * lma + col row 9 * lju + col row 10 * lsa + col row 11 * lur
                  + col row 12 * lne + col row 13 * pa) (2 * Real.pi))
            + col row 17
              * Real.cos (Nutation.fmod_p (col row 0 * l + col row 2 * f + col row 3 * d
                  + col row 4 * om + col row 5 * lme + col row 6 * lve + col row 7 * lea
                  + col row 8 * lma + col row 9 * lju + col row 10 * lsa + col row 11 * lur
                  + col row 12 * lne + col row 13 * pa) (2 * Real.pi)))).sum) := by
  induction rows with
  | nil =>
    simp only [List.foldr_nil, List.map_nil, List.sum_nil]
    norm_num
  | cons row rest ih =>
    rw [List.foldr_cons, ih]
    simp only [Nutation.calc_planetary_row, Nutation_kPi2_eq, List.map_cons, List.sum_cons]
    rw [add_comm, add_comm (List.sum _)]

end NutationLemmas

/-- C11. For every `t` and every luni-solar table whose rows have the 11
columns `m0 .. m4, A, B, C, D, E, F` (the row `r` has them as `r 0 .. r 10`),
`calc_lunisolar` returns `dpsi = kU2R * SUM [(A + B*t)*sin a + C*cos a]` and
`deps = kU2R * SUM [(D + E*t)*cos a + F*sin a]`, the sums taken over the rows
of the table, each row once, with `a` the combination
`m0*l + m1*l' + m2*F + m3*D + m4*Om` of the five arguments at `t`, reduced
modulo `2*pi` by `fmod_p`.  For the empty table it returns `(0, 0)`. -/
theorem calc_lunisolar_is_sum (t : ℝ) (rows : List (Fin 11 → ℝ)) :
    Nutation.calc_lunisolar Real.sin Real.cos Real.arctan t (rows.map List.ofFn)
      = (Nutation.kU2R * (rows.map (fun r =>
            (r 5 + r 6 * t)
              * Real.sin (Nutation.fmod_p
                  (r 0 * Nutation.calc_l_iers2003 t + r 1 * Nutation.calc_lp_mhb2000 t
                    + r 2 * Nutation.calc_f_iers2003 t + r 3 * Nutation.calc_d_mhb2000 t
                    + r 4 * Nutation.calc_om_iers2003 t) (2 * Real.pi))
            + r 7
              * Real.cos (Nutation.fmod_p
                  (r 0 * Nutation.calc_l_iers2003 t + r 1 * Nutation.calc_lp_mhb2000 t
                    + r 2 * Nutation.calc_f_iers2003 t + r 3 * Nutation.calc_d_mhb2000 t
                    + r 4 * Nutation.calc_om_iers2003 t) (2 * Real.pi)))).sum,
         Nutation.kU2R * (rows.map (fun r =>
            (r 8 + r 9 * t)
              * Real.cos (Nutation.fmod_p
                  (r 0 * Nutation.calc_l_iers2003 t + r 1 * Nutation.calc_lp_mhb2000 t
                    + r 2 * Nutation.calc_f_iers2003 t + r 3 * Nutation.calc_d_mhb2000 t
                    + r 4 * Nutation.calc_om_iers2003 t) (2 * Real.pi))
            + r 10
              * Real.sin (Nutation.fmod_p
                  (r 0 * Nutation.calc_l_iers2003 t + r 1 * Nutation.calc_lp_mhb2000 t
                    + r 2 * Nutation.calc_f_iers2003 t + r 3 * Nutation.calc_d_mhb2000 t
                    + r 4 * Nutation.calc_om_iers2003 t) (2 * Real.pi)))).sum) ∧
    Nutation.calc_lunisolar Real.sin Real.cos Real.arctan t [] = (0, 0) := by
  constructor
  · simp only [Nutation.calc_lunisolar, calc_lunisolar_foldr, List.map_map]
    have hcol : ∀ (r : Fin 11 → ℝ) (j : Fin 11), col (List.ofFn r) j.val = r j :=
      fun r j => col_ofFn r j.val j.isLt
    have h0 := fun r => hcol r 0
    have h1 := fun r => hcol r 1
    have h2 := fun r => hcol r 2
    have h3 := fun r => hcol r 3
    have h4 := fun r => hcol r 4
    have h5 := fun r => hcol r 5
    have h6 := fun r => hcol r 6
    have h7 := fun r => hcol r 7
    have h8 := fun r => hcol r 8
    have h9 := fun r => hcol r 9
    have h10 := fun r => hcol r 10
    simp only [Fin.val_zero, Fin.val_one, Fin.val_two] at h0 h1 h2
    have e3 : ((3 : Fin 11) : Nat) = 3 := rfl
    have e4 : ((4 : Fin 11) : Nat) = 4 := rfl
    have e5 : ((5 : Fin 11) : Nat) = 5 := rfl
    have e6 : ((6 : Fin 11) : Nat) = 6 := rfl
    have e7 : ((7 : Fin 11) : Nat) = 7 := rfl
    have e8 : ((8 : Fin 11) : Nat) = 8 := rfl
    have e9 : ((9 : Fin 11) : Nat) = 9 := rfl
    have e10 : ((10 : Fin 11) : Nat) = 10 := rfl
    rw [e3] at h3
    rw [e4] at h4
    rw [e5] at h5
    rw [e6] at h6
    rw [e7] at h7
    rw [e8] at h8
    rw [e9] at h9
    rw [e10] at h10
    simp only [Function.comp_def, h0, h1, h2, h3, h4, h5, h6, h7, h8, h9, h10, mul_comm _ Nutation.kU2R]
  · simp only [Nutation.calc_lunisolar, List.foldr_nil]
    norm_num
section FmodLemmas

variable {K : Type} [LinearOrderedField K] [FloorRing K]

theorem fmod_p_eq_fract (a n : K) (hn : 0 < n) :
    Nutation.fmod_p a n = Int.fract (a / n) * n := by
  unfold Nutation.fmod_p Int.fract
  field_simp
  ring

theorem fmod_p_mem (a n : K) (hn : 0 < n) :
    0 ≤ Nutation.fmod_p a n ∧ Nutation.fmod_p a n < n := by
  rw [fmod_p_eq_fract a n hn]
  constructor
  · exact mul_nonneg (Int.fract_nonneg _) hn.le
  · calc Int.fract (a / n) * n < 1 * n := mul_lt_mul_of_pos_right (Int.fract_lt_one _) hn
      _ = n := one_mul n

theorem fmod_p_of_nonneg_of_lt (x n : K) (hx : 0 ≤ x) (hxn : x < n) :
    Nutation.fmod_p x n = x := by
  have hn : 0 < n := lt_of_le_of_lt hx hxn
  have h : ⌊x / n⌋ = 0 := by
    rw [Int.floor_eq_zero_iff]
    exact ⟨div_nonneg hx hn.le, (div_lt_one hn).mpr hxn⟩
  unfold Nutation.fmod_p
  rw [h]
  simp

end FmodLemmas

/-- C14. The method `fmod_p` is a non-negative modulo: for every real `a` and
every `n > 0`, `0 <= fmod_p a n < n`, and `a - fmod_p a n` is an integer
multiple of `n`. -/
theorem fmod_p_nonneg_modulo (a n : ℝ) (hn : 0 < n) :
    0 ≤ Nutation.fmod_p a n ∧ Nutation.fmod_p a n < n ∧
      ∃ k : ℤ, a - Nutation.fmod_p a n = (k : ℝ) * n :=
  ⟨(fmod_p_mem a n hn).1, (fmod_p_mem a n hn).2, ⌊a / n⌋, by unfold Nutation.fmod_p; ring⟩

/-- Witness of C14: `a = -7.5`, `n = 2`, where `fmod_p` lies in `[0, 2)`. -/
theorem fmod_p_nonneg_modulo_witness :
    (0 : ℝ) < 2 ∧ 0 ≤ Nutation.fmod_p (-7.5 : ℝ) 2 ∧ Nutation.fmod_p (-7.5 : ℝ) 2 < 2 ∧
      ∃ k : ℤ, (-7.5 : ℝ) - Nutation.fmod_p (-7.5 : ℝ) 2 = (k : ℝ) * 2 :=
  ⟨two_pos, fmod_p_nonneg_modulo (-7.5) 2 two_pos⟩

/-- C15. The nutation does not depend on the order of the rows: for every
`t`, when the luni-solar tables of two runs are permutations of each other and
the planetary tables are too, `calc_nutation` returns the same
`(dpsi, deps)`. -/
theorem calc_nutation_perm (t : ℝ) (ls ls' pl pl' : List (List ℝ))
    (hls : ls.Perm ls') (hpl : pl.Perm pl') :
    Nutation.calc_nutation Real.sin Real.cos Real.arctan t ls pl
      = Nutation.calc_nutation Real.sin Real.cos Real.arctan t ls' pl' := by
  simp only [Nutation.calc_nutation, Nutation.calc_lunisolar, Nutation.calc_planetary,
    calc_lunisolar_foldr, calc_planetary_foldr]
  rw [(hls.map _).sum_eq, (hls.map _).sum_eq, (hpl.map _).sum_eq, (hpl.map _).sum_eq]

/-- Witness of C15: two luni-solar tables of the same two rows in the two
orders, and the planetary table of one row. -/
theorem calc_nutation_perm_witness :
    [exRowLs (1 : ℝ) 2, exRowLs 3 4].Perm [exRowLs 3 4, exRowLs 1 2] ∧
    [(exRowPl : List ℝ)].Perm [exRowPl] ∧
    Nutation.calc_nutation Real.sin Real.cos Real.arctan 0
        [exRowLs 1 2, exRowLs 3 4] [exRowPl]
      = Nutation.calc_nutation Real.sin Real.cos Real.arctan 0
        [exRowLs 3 4, exRowLs 1 2] [exRowPl] :=
  ⟨List.Perm.swap _ _ _, List.Perm.refl _,
    calc_nutation_perm 0 _ _ _ _ (List.Perm.swap _ _ _) (List.Perm.refl _)⟩
/-- C12 as amended.  For every `t` and every planetary table whose rows have
18 columns (the row `r` has them as `r 0 .. r 17`), the argument `a` used by
`calc_planetary` for a row is the combination, reduced modulo `2*pi` by
`fmod_p`, of the 13 multipliers of columns 0 and 2 to 13 with the 13
arguments that the function computes (mean anomaly of the Moon, F, D, Om, the
mean longitudes of Mercury to Neptune, the general precession); column 1, the
multiplier of the mean anomaly of the Sun, is not read.  The row adds
`col14*sin a + col15*cos a` to the sum of `dpsi` and
`col16*sin a + col17*cos a` to the sum of `deps`. -/
theorem calc_planetary_is_sum (t : ℝ) (rows : List (Fin 18 → ℝ)) :
    Nutation.calc_planetary Real.sin Real.cos Real.arctan t (rows.map List.ofFn)
      = (Nutation.kU2R * (rows.map (fun r =>
            r 14 * Real.sin (Nutation.fmod_p
                (r 0 * Nutation.calc_l_mhb2000 Real.arctan t
                  + r 2 * Nutation.calc_f_mhb2000 Real.arctan t
                  + r 3 * Nutation.calc_d_mhb2000_2 Real.arctan t
                  + r 4 * Nutation.calc_om_mhb2000 Real.arctan t
                  + r 5 * Nutation.calc_lme_iers2003 Real.arctan t
                  + r 6 * Nutation.calc_lve_iers2003 Real.arctan t
                  + r 7 * Nutation.calc_lea_iers2003 Real.arctan t
                  + r 8 * Nutation.calc_lma_iers2003 Real.arctan t
                  + r 9 * Nutation.calc_lju_iers2003 Real.arctan t
                  + r 10 * Nutation.calc_lsa_iers2003 Real.arctan t
                  + r 11 * Nutation.calc_lur_iers2003 Real.arctan t
                  + r 12 * Nutation.calc_lne_mhb2000 Real.arctan t
                  + r 13 * Nutation.calc_pa_iers2003 t) (2 * Real.pi))
            + r 15 * Real.cos (Nutation.fmod_p
                (r 0 * Nutation.calc_l_mhb2000 Real.arctan t
                  + r 2 * Nutation.calc_f_mhb2000 Real.arctan t
                  + r 3 * Nutation.calc_d_mhb2000_2 Real.arctan t
                  + r 4 * Nutation.calc_om_mhb2000 Real.arctan t
                  + r 5 * Nutation.calc_lme_iers2003 Real.arctan t
                  + r 6 * Nutation.calc_lve_iers2003 Real.arctan t
                  + r 7 * Nutation.calc_lea_iers2003 Real.arctan t
                  + r 8 * Nutation.calc_lma_iers2003 Real.arctan t
                  + r 9 * Nutation.calc_lju_iers2003 Real.arctan t
                  + r 10 * Nutation.calc_lsa_iers2003 Real.arctan t
                  + r 11 * Nutation.calc_lur_iers2003 Real.arctan t
                  + r 12 * Nutation.calc_lne_mhb2000 Real.arctan t
                  + r 13 * Nutation.calc_pa_iers2003 t) (2 * Real.pi)))).sum,
         Nutation.kU2R * (rows.map (fun r =>
            r 16 * Real.sin (Nutation.fmod_p
                (r 0 * Nutation.calc_l_mhb2000 Real.arctan t
                  + r 2 * Nutation.calc_f_mhb2000 Real.arctan t
                  + r 3 * Nutation.calc_d_mhb2000_2 Real.arctan t
                  + r 4 * Nutation.calc_om_mhb2000 Real.arctan t
                  + r 5 * Nutation.calc_lme_iers2003 Real.arctan t
                  + r 6 * Nutation.calc_lve_iers2003 Real.arctan t
                  + r 7 * Nutation.calc_lea_iers2003 Real.arctan t
                  + r 8 * Nutation.calc_lma_iers2003 Real.arctan t
                  + r 9 * Nutation.calc_lju_iers2003 Real.arctan t
                  + r 10 * Nutation.calc_lsa_iers2003 Real.arctan t
                  + r 11 * Nutation.calc_lur_iers2003 Real.arctan t
                  + r 12 * Nutation.calc_lne_mhb2000 Real.arctan t
                  + r 13 * Nutation.calc_pa_iers2003 t) (2 * Real.pi))
            + r 17 * Real.cos (Nutation.fmod_p
                (r 0 * Nutation.calc_l_mhb2000 Real.arctan t
                  + r 2 * Nutation.calc_f_mhb2000 Real.arctan t
                  + r 3 * Nutation.calc_d_mhb2000_2 Real.arctan t
                  + r 4 * Nutation.calc_om_mhb2000 Real.arctan t
                  + r 5 * Nutation.calc_lme_iers2003 Real.arctan t
                  + r 6 * Nutation.calc_lve_iers2003 Real.arctan t
                  + r 7 * Nutation.calc_lea_iers2003 Real.arctan t
                  + r 8 * Nutation.calc_lma_iers2003 Real.arctan t
                  + r 9 * Nutation.calc_lju_iers2003 Real.arctan t
                  + r 10 * Nutation.calc_lsa_iers2003 Real.arctan t
                  + r 11 * Nutation.calc_lur_iers2003 Real.arctan t
                  + r 12 * Nutation.calc_lne_mhb2000 Real.arctan t
                  + r 13 * Nutation.calc_pa_iers2003 t) (2 * Real.pi)))).sum) := by
  simp only [Nutation.calc_planetary, calc_planetary_foldr, List.map_map]
  have hcol : ∀ (r : Fin 18 → ℝ) (j : Fin 18), col (List.ofFn r) j.val = r j :=
    fun r j => col_ofFn r j.val j.isLt
  have h0 := fun r => hcol r 0
  have h2 := fun r => hcol r 2
  have h3 := fun r => hcol r 3
  have h4 := fun r => hcol r 4
  have h5 := fun r => hcol r 5
  have h6 := fun r => hcol r 6
  have h7 := fun r => hcol r 7
  have h8 := fun r => hcol r 8
  have h9 := fun r => hcol r 9
  have h10 := fun r => hcol r 10
  have h11 := fun r => hcol r 11
  have h12 := fun r => hcol r 12
  have h13 := fun r => hcol r 13
  have h14 := fun r => hcol r 14
  have h15 := fun r => hcol r 15
  have h16 := fun r => hcol r 16
  have h17 := fun r => hcol r 17
  have e0 : ((0 : Fin 18) : Nat) = 0 := rfl
  have e2 : ((2 : Fin 18) : Nat) = 2 := rfl
  have e3 : ((3 : Fin 18) : Nat) = 3 := rfl
  have e4 : ((4 : Fin 18) : Nat) = 4 := rfl
  have e5 : ((5 : Fin 18) : Nat) = 5 := rfl
  have e6 : ((6 : Fin 18) : Nat) = 6 := rfl
  have e7 : ((7 : Fin 18) : Nat) = 7 := rfl
  have e8 : ((8 : Fin 18) : Nat) = 8 := rfl
  have e9 : ((9 : Fin 18) : Nat) = 9 := rfl
  have e10 : ((10 : Fin 18) : Nat) = 10 := rfl
  have e11 : ((11 : Fin 18) : Nat) = 11 := rfl
  have e12 : ((12 : Fin 18) : Nat) = 12 := rfl
  have e13 : ((13 : Fin 18) : Nat) = 13 := rfl
  have e14 : ((14 : Fin 18) : Nat) = 14 := rfl
  have e15 : ((15 : Fin 18) : Nat) = 15 := rfl
  have e16 : ((16 : Fin 18) : Nat) = 16 := rfl
  have e17 : ((17 : Fin 18) : Nat) = 17 := rfl
  rw [e0] at h0
  rw [e2] at h2
  rw [e3] at h3
  rw [e4] at h4
  rw [e5] at h5
  rw [e6] at h6
  rw [e7] at h7
  rw [e8] at h8
  rw [e9] at h9
  rw [e10] at h10
  rw [e11] at h11
  rw [e12] at h12
  rw [e13] at h13
  rw [e14] at h14
  rw [e15] at h15
  rw [e16] at h16
  rw [e17] at h17
  simp only [Function.comp_def, h0, h2, h3, h4, h5, h6, h7, h8, h9, h10, h11, h12, h13, h14,
    h15, h16, h17, mul_comm _ Nutation.kU2R]

theorem calc_lp_mhb2000_zero :
    Nutation.calc_lp_mhb2000 (0 : ℝ) = 1287104.79305 * 4.848136811095359935899141e-6 := by
  unfold Nutation.calc_lp_mhb2000 Nutation.kTurnas Nutation.kAs2R
  simp only [mul_zero, add_zero]
  rw [fmod_p_of_nonneg_of_lt _ _ (by norm_num) (by norm_num)]

/-- C12, counterexample.  At `t = 0`, for the row `exRowPl` (multiplier 1 in
column 1, sine coefficient of longitude 1), the code adds `0` to the sum of
`dpsi`: its argument does not contain column 1 and is `0`.  With the argument
of the specification, which contains column 1 times the mean anomaly of the
Sun (`calc_lp_mhb2000`, about 6.24 radians at `t = 0`), the row adds the sine
of that anomaly, which is negative. -/
theorem calc_planetary_row_ignores_column_1 :
    (Nutation.calc_planetary_row Real.sin Real.cos Real.arctan
        (Nutation.calc_l_mhb2000 Real.arctan 0) (Nutation.calc_f_mhb2000 Real.arctan 0)
        (Nutation.calc_d_mhb2000_2 Real.arctan 0) (Nutation.calc_om_mhb2000 Real.arctan 0)
        (Nutation.calc_pa_iers2003 0) (Nutation.calc_lme_iers2003 Real.arctan 0)
        (Nutation.calc_lve_iers2003 Real.arctan 0) (Nutation.calc_lea_iers2003 Real.arctan 0)
        (Nutation.calc_lma_iers2003 Real.arctan 0) (Nutation.calc_lju_iers2003 Real.arctan 0)
        (Nutation.calc_lsa_iers2003 Real.arctan 0) (Nutation.calc_lur_iers2003 Real.arctan 0)
        (Nutation.calc_lne_mhb2000 Real.arctan 0) exRowPl (0, 0)).1 = 0 ∧
    (calc_planetary_row_spec Real.sin Real.cos Real.arctan
        (Nutation.calc_l_mhb2000 Real.arctan 0) (Nutation.calc_lp_mhb2000 0)
        (Nutation.calc_f_mhb2000 Real.arctan 0)
        (Nutation.calc_d_mhb2000_2 Real.arctan 0) (Nutation.calc_om_mhb2000 Real.arctan 0)
        (Nutation.calc_pa_iers2003 0) (Nutation.calc_lme_iers2003 Real.arctan 0)
        (Nutation.calc_lve_iers2003 Real.arctan 0) (Nutation.calc_lea_iers2003 Real.arctan 0)
        (Nutation.calc_lma_iers2003 Real.arctan 0) (Nutation.calc_lju_iers2003 Real.arctan 0)
        (Nutation.calc_lsa_iers2003 Real.arctan 0) (Nutation.calc_lur_iers2003 Real.arctan 0)
        (Nutation.calc_lne_mhb2000 Real.arctan 0) exRowPl (0, 0)).1
      = Real.sin (Nutation.calc_lp_mhb2000 0) ∧
    Real.sin (Nutation.calc_lp_mhb2000 (0 : ℝ)) < 0 := by
  have hpi1 := Real.pi_gt_d2
  have hpi2 := Real.pi_lt_d2
  have hlp := calc_lp_mhb2000_zero
  have hlo : Real.pi < Nutation.calc_lp_mhb2000 (0 : ℝ) := by
    rw [hlp]
    norm_num
    linarith
  have hhi : Nutation.calc_lp_mhb2000 (0 : ℝ) < 2 * Real.pi := by
    rw [hlp]
    norm_num
    linarith
  refine ⟨?_, ?_, ?_⟩
  · simp [Nutation.calc_planetary_row, Nutation.fmod_p, col, exRowPl]
  · have hred : Nutation.fmod_p (Nutation.calc_lp_mhb2000 (0 : ℝ)) (2 * Real.pi)
        = Nutation.calc_lp_mhb2000 0 :=
      fmod_p_of_nonneg_of_lt _ _ (by linarith [Real.pi_pos]) hhi
    simp [calc_planetary_row_spec, col, exRowPl, Nutation_kPi2_eq, hred]
  · have h := Real.sin_neg_of_neg_of_neg_pi_lt
      (show Nutation.calc_lp_mhb2000 (0 : ℝ) - 2 * Real.pi < 0 by linarith)
      (show -Real.pi < Nutation.calc_lp_mhb2000 (0 : ℝ) - 2 * Real.pi by linarith)
    rwa [Real.sin_sub_two_pi] at h
section FmodLemmas2

variable {K : Type} [LinearOrderedField K] [FloorRing K]

theorem fmod_mem_of_nonneg (x y : K) (hx : 0 ≤ x) (hy : 0 < y) :
    0 ≤ fmod x y ∧ fmod x y < y := by
  have h : fmod x y = Nutation.fmod_p x y := by
    unfold fmod Nutation.fmod_p
    rw [if_pos (div_nonneg hx hy.le)]
  rw [h]
  exact fmod_p_mem x y hy

theorem fmod_of_neg_of_gt (x y : K) (hx : x < 0) (hxy : -y < x) : fmod x y = x := by
  have hy : 0 < y := by linarith
  have hq : x / y < 0 := div_neg_of_neg_of_pos hx hy
  have hq1 : -1 < x / y := by
    rw [lt_div_iff₀ hy]
    linarith
  have hc : ⌈x / y⌉ = 0 := by
    rw [Int.ceil_eq_zero_iff]
    exact ⟨hq1, hq.le⟩
  unfold fmod
  rw [if_neg (not_le.mpr hq), hc]
  simp

end FmodLemmas2

theorem pi_gt_d27 : (3.141592653589793238462643368 : ℝ) < Real.pi := by
  pi_lower_bound [
    2-140277275420239/239468288116263,
    2-69927534494596/459321499207585,
    2-6543008689211/170260321943783,
    2-16684643659960/1732471089815797,
    2-4648333765401/1929499693311800,
    2-2921551221718/4850153686330739,
    2-573011775981/3804952003282939,
    2-821067518605/21808229606008286,
    2-511297692367/54321823632357300,
    2-218180021574/92720384674466279,
    2-43413046864/73797294254353277,
    2-71099663801/483445691746015304,
    2-29231843254/795053467065421885,
    2-8652357621/941314148312134064,
    2-5078604342/2210062194588370085,
    2-2693754949/4688977973086756921,
    2-1674963395/11662332488729458952,
    2-850041075/23674455633433178261,
    2-490597100/54654390802538176491,
    2-663920195/295852982410266960797,
    2-182021207/324445723196348973384,
    2-995166640/7095383346527733919937,
    2-61563143/1755742534143232967214,
    2-11690770/1333653945893284798249,
    2-10005338/4565536231983357478117,
    2-1158461/2114469563682774760046,
    2-1763958/12878588066804976162215,
    2-1079388/31522277551398592235827,
    2-394057/46031914844602589741926,
    2-233628/109165366445106305234753,
    2-60256/112621232395369142865503,
    2-35743/267221236690631922019853,
    2-11281/337355316689367844028846,
    2-8923/1067359805272308934407624,
    2-1408/673693872385256518948851,
    2-5421/10375268415342260196651262,
    2-3155/24153456447448685423673612,
    2-1121/34327765042903298079160568,
    2-239/29275061000013874187044992,
    2-184/90152489104645235990230557,
    2-29/56835264870319822689493170,
    2-19/148947590694631259462120027,
    2-27/846649462895798737995208568,
    2-14/1756013700820915901027099249,
    2-8/4013745601876379202347655425,
    2-2/4013745601876379202347655425]

theorem kTurnas_mul_kAs2R_lt : (Nutation.kTurnas : ℝ) * Nutation.kAs2R < 2 * Real.pi := by
  have h := pi_gt_d27
  unfold Nutation.kTurnas Nutation.kAs2R
  norm_num at h ⊢
  linarith

theorem arcsec_arg_mem (v : ℝ) :
    Nutation.fmod_p v Nutation.kTurnas * Nutation.kAs2R ∈ Set.Ico 0 (2 * Real.pi) := by
  have hT : (0 : ℝ) < Nutation.kTurnas := by
    unfold Nutation.kTurnas
    norm_num
  have hA : (0 : ℝ) < Nutation.kAs2R := by
    unfold Nutation.kAs2R
    norm_num
  obtain ⟨h0, h1⟩ := fmod_p_mem v Nutation.kTurnas hT
  refine ⟨mul_nonneg h0 hA.le, lt_trans ?_ kTurnas_mul_kAs2R_lt⟩
  exact mul_lt_mul_of_pos_right h1 hA

theorem fmod_arg_mem (a b t : ℝ) (ha : 0 ≤ a) (hb : 0 ≤ b) (ht : 0 ≤ t) :
    fmod (a + b * t) (Nutation.kPi2 Real.arctan) ∈ Set.Ico 0 (2 * Real.pi) := by
  rw [Nutation_kPi2_eq]
  exact fmod_mem_of_nonneg _ _ (add_nonneg ha (mul_nonneg hb ht))
    (by linarith [Real.pi_pos])

theorem fmod_arg_neg_one (a b : ℝ) (hb : 0 < b) :
    fmod (a + b * (-(a + 1) / b)) (Nutation.kPi2 Real.arctan) = -1 := by
  have hx : a + b * (-(a + 1) / b) = -1 := by
    field_simp
  rw [hx, Nutation_kPi2_eq]
  exact fmod_of_neg_of_gt _ _ (by norm_num) (by linarith [Real.pi_gt_three])

theorem fmod_mem_Ioo (x y : ℝ) (hy : 0 < y) : fmod x y ∈ Set.Ioo (-y) y := by
  by_cases hx : 0 ≤ x / y
  · have hx0 : 0 ≤ x := by
      have := mul_nonneg hx hy.le
      rwa [div_mul_cancel₀ x hy.ne'] at this
    obtain ⟨h0, h1⟩ := fmod_mem_of_nonneg x y hx0 hy
    exact ⟨by linarith, h1⟩
  · unfold fmod
    rw [if_neg hx]
    have hq : x = x / y * y := (div_mul_cancel₀ x hy.ne').symm
    have h1 : x / y ≤ (⌈x / y⌉ : ℝ) := Int.le_ceil _
    have h2 : (⌈x / y⌉ : ℝ) < x / y + 1 := Int.ceil_lt_add_one _
    constructor
    · have : (⌈x / y⌉ : ℝ) * y < (x / y + 1) * y := mul_lt_mul_of_pos_right h2 hy
      nlinarith
    · have : x / y * y ≤ (⌈x / y⌉ : ℝ) * y := mul_le_mul_of_nonneg_right h1 hy.le
      nlinarith

theorem fmod_arg_mem_Ioo (a b t : ℝ) :
    fmod (a + b * t) (Nutation.kPi2 Real.arctan) ∈ Set.Ioo (-(2 * Real.pi)) (2 * Real.pi) := by
  rw [Nutation_kPi2_eq]
  exact fmod_mem_Ioo _ _ (by linarith [Real.pi_pos])

theorem calc_pa_neg (t : ℝ) (h0 : -4000 ≤ t) (h1 : t < 0) :
    Nutation.calc_pa_iers2003 t < 0 := by
  unfold Nutation.calc_pa_iers2003
  apply mul_neg_of_pos_of_neg _ h1
  have : (0.00000538691 : ℝ) * t ≥ 0.00000538691 * (-4000) := by
    apply mul_le_mul_of_nonneg_left h0
    norm_num
  norm_num at this ⊢
  linarith

/-- Claim C13, as the code has it. The six arguments reduced with `fmod_p`
(`calc_l_iers2003`, `calc_lp_mhb2000`, `calc_f_iers2003`, `calc_d_mhb2000`,
`calc_om_iers2003`, `calc_om_mhb2000`) lie in `[0, 2π)` for every `t`,
negative ones included. The eleven arguments reduced with `std::fmod`
(`calc_l_mhb2000`, `calc_f_mhb2000`, `calc_d_mhb2000_2`, `calc_lme_iers2003`
to `calc_lne_mhb2000`) lie in `[0, 2π)` for every `t ≥ 0`, and in the open
interval `(-2π, 2π)` for every `t`. The general precession `calc_pa_iers2003`
is the polynomial `(0.024381750 + 0.00000538691 t) t` with no reduction at
all; it lies in `[0, 2π)` for `0 ≤ t ≤ 200` and is negative for
`-4000 ≤ t < 0`. -/
theorem fundamental_arguments_range (t : ℝ) :
    (Nutation.calc_l_iers2003 t ∈ Set.Ico 0 (2 * Real.pi)
      ∧ Nutation.calc_lp_mhb2000 t ∈ Set.Ico 0 (2 * Real.pi)
      ∧ Nutation.calc_f_iers2003 t ∈ Set.Ico 0 (2 * Real.pi)
      ∧ Nutation.calc_d_mhb2000 t ∈ Set.Ico 0 (2 * Real.pi)
      ∧ Nutation.calc_om_iers2003 t ∈ Set.Ico 0 (2 * Real.pi)
      ∧ Nutation.calc_om_mhb2000 Real.arctan t ∈ Set.Ico 0 (2 * Real.pi))
    ∧ (0 ≤ t →
        Nutation.calc_l_mhb2000 Real.arctan t ∈ Set.Ico 0 (2 * Real.pi)
        ∧ Nutation.calc_f_mhb2000 Real.arctan t ∈ Set.Ico 0 (2 * Real.pi)
        ∧ Nutation.calc_d_mhb2000_2 Real.arctan t ∈ Set.Ico 0 (2 * Real.pi)
        ∧ Nutation.calc_lme_iers2003 Real.arctan t ∈ Set.Ico 0 (2 * Real.pi)
        ∧ Nutation.calc_lve_iers2003 Real.arctan t ∈ Set.Ico 0 (2 * Real.pi)
        ∧ Nutation.calc_lea_iers2003 Real.arctan t ∈ Set.Ico 0 (2 * Real.pi)
        ∧ Nutation.calc_lma_iers2003 Real.arctan t ∈ Set.Ico 0 (2 * Real.pi)
        ∧ Nutation.calc_lju_iers2003 Real.arctan t ∈ Set.Ico 0 (2 * Real.pi)
        ∧ Nutation.calc_lsa_iers2003 Real.arctan t ∈ Set.Ico 0 (2 * Real.pi)
        ∧ Nutation.calc_lur_iers2003 Real.arctan t ∈ Set.Ico 0 (2 * Real.pi)
        ∧ Nutation.calc_lne_mhb2000 Real.arctan t ∈ Set.Ico 0 (2 * Real.pi))
    ∧ Nutation.calc_pa_iers2003 t = (0.024381750 + 0.00000538691 * t) * t
    ∧ (0 ≤ t → t ≤ 200 → Nutation.calc_pa_iers2003 t ∈ Set.Ico 0 (2 * Real.pi))
    ∧ (Nutation.calc_l_mhb2000 Real.arctan t ∈ Set.Ioo (-(2 * Real.pi)) (2 * Real.pi)
        ∧ Nutation.calc_f_mhb2000 Real.arctan t ∈ Set.Ioo (-(2 * Real.pi)) (2 * Real.pi)
        ∧ Nutation.calc_d_mhb2000_2 Real.arctan t ∈ Set.Ioo (-(2 * Real.pi)) (2 * Real.pi)
        ∧ Nutation.calc_lme_iers2003 Real.arctan t ∈ Set.Ioo (-(2 * Real.pi)) (2 * Real.pi)
        ∧ Nutation.calc_lve_iers2003 Real.arctan t ∈ Set.Ioo (-(2 * Real.pi)) (2 * Real.pi)
        ∧ Nutation.calc_lea_iers2003 Real.arctan t ∈ Set.Ioo (-(2 * Real.pi)) (2 * Real.pi)
        ∧ Nutation.calc_lma_iers2003 Real.arctan t ∈ Set.Ioo (-(2 * Real.pi)) (2 * Real.pi)
        ∧ Nutation.calc_lju_iers2003 Real.arctan t ∈ Set.Ioo (-(2 * Real.pi)) (2 * Real.pi)
        ∧ Nutation.calc_lsa_iers2003 Real.arctan t ∈ Set.Ioo (-(2 * Real.pi)) (2 * Real.pi)
        ∧ Nutation.calc_lur_iers2003 Real.arctan t ∈ Set.Ioo (-(2 * Real.pi)) (2 * Real.pi)
        ∧ Nutation.calc_lne_mhb2000 Real.arctan t ∈ Set.Ioo (-(2 * Real.pi)) (2 * Real.pi))
    ∧ (-4000 ≤ t → t < 0 → Nutation.calc_pa_iers2003 t < 0) := by
  refine ⟨⟨arcsec_arg_mem _, arcsec_arg_mem _, arcsec_arg_mem _, arcsec_arg_mem _,
    arcsec_arg_mem _, ?_⟩, ?_, rfl, ?_, ?_, calc_pa_neg t⟩
  · unfold Nutation.calc_om_mhb2000
    simp only [Nutation_kPi2_eq]
    exact fmod_p_mem _ _ (by linarith [Real.pi_pos])
  · intro ht
    refine ⟨?_, ?_, ?_, ?_, ?_, ?_, ?_, ?_, ?_, ?_, ?_⟩ <;>
      exact fmod_arg_mem _ _ t (by norm_num) (by norm_num) ht
  · intro h0 h200
    unfold Nutation.calc_pa_iers2003
    constructor
    · apply mul_nonneg _ h0
      nlinarith
    · have h1 : (0.024381750 + 0.00000538691 * t) * t
          ≤ (0.024381750 + 0.00000538691 * 200) * 200 := by
        apply mul_le_mul _ h200 h0 (by norm_num)
        nlinarith
      have h2 : ((0.024381750 : ℝ) + 0.00000538691 * 200) * 200 < 6 := by norm_num
      linarith [Real.pi_gt_three]
  · refine ⟨?_, ?_, ?_, ?_, ?_, ?_, ?_, ?_, ?_, ?_, ?_⟩ <;>
      exact fmod_arg_mem_Ioo _ _ t

/-- The hypotheses of `fundamental_arguments_range` are met at `t = 1` and at
`t = -1`. -/
theorem fundamental_arguments_range_witness :
    (0 : ℝ) ≤ 1 ∧ (1 : ℝ) ≤ 200
      ∧ Nutation.calc_lne_mhb2000 Real.arctan 1 ∈ Set.Ico 0 (2 * Real.pi)
      ∧ Nutation.calc_pa_iers2003 (1 : ℝ) ∈ Set.Ico 0 (2 * Real.pi)
      ∧ Nutation.calc_pa_iers2003 (-1 : ℝ) < 0 :=
  ⟨by norm_num, by norm_num,
    ((fundamental_arguments_range 1).2.1 (by norm_num)).2.2.2.2.2.2.2.2.2.2,
    (fundamental_arguments_range 1).2.2.2.1 (by norm_num) (by norm_num),
    (fundamental_arguments_range (-1)).2.2.2.2.2 (by norm_num) (by norm_num)⟩

/-- Claim C13 does not hold for negative `t`: one century before the epoch
the general precession `calc_pa_iers2003` is negative, and each of the
eleven arguments reduced with `std::fmod` takes the value `-1` at a negative
`t` (the `t` at which its linear polynomial is `-1`). -/
theorem fundamental_arguments_negative :
    Nutation.calc_pa_iers2003 (-1 : ℝ) < 0
    ∧ Nutation.calc_l_mhb2000 Real.arctan (-(2.35555598 + 1) / 8328.6914269554) = -1
    ∧ Nutation.calc_f_mhb2000 Real.arctan (-(1.627905234 + 1) / 8433.466158131) = -1
    ∧ Nutation.calc_d_mhb2000_2 Real.arctan (-(5.198466741 + 1) / 7771.3771468121) = -1
    ∧ Nutation.calc_lme_iers2003 Real.arctan (-(4.402608842 + 1) / 2608.7903141574) = -1
    ∧ Nutation.calc_lve_iers2003 Real.arctan (-(3.176146697 + 1) / 1021.3285546211) = -1
    ∧ Nutation.calc_lea_iers2003 Real.arctan (-(1.753470314 + 1) / 628.3075849991) = -1
    ∧ Nutation.calc_lma_iers2003 Real.arctan (-(6.203480913 + 1) / 334.0612426700) = -1
    ∧ Nutation.calc_lju_iers2003 Real.arctan (-(0.599546497 + 1) / 52.9690962641) = -1
    ∧ Nutation.calc_lsa_iers2003 Real.arctan (-(0.874016757 + 1) / 21.3299104960) = -1
    ∧ Nutation.calc_lur_iers2003 Real.arctan (-(5.481293872 + 1) / 7.4781598567) = -1
    ∧ Nutation.calc_lne_mhb2000 Real.arctan (-(5.321159000 + 1) / 3.8127774000) = -1
    ∧ (-1 : ℝ) ∉ Set.Ico 0 (2 * Real.pi) := by
  refine ⟨?_, ?_, ?_, ?_, ?_, ?_, ?_, ?_, ?_, ?_, ?_, ?_, ?_⟩
  · unfold Nutation.calc_pa_iers2003
    norm_num
  all_goals first
    | exact fmod_arg_neg_one _ _ (by norm_num)
    | (intro h; have := h.1; norm_num at this)

section TimeLookupLemmas

theorem get_utc_tai_loop_found (stoi : String → Except String Int)
    (l_ls : List (List String)) (dt_t : String) (i : Nat) (row : List String)
    (d v : String) (hrow : l_ls.get? i = some row) (hd : row.get? 0 = some d)
    (hv : row.get? 1 = some v) (hle : d ≤ dt_t) (n : Nat) (hn : i < n)
    (hlen : n ≤ l_ls.length)
    (hlater : ∀ j r, i < j → j < n → l_ls.get? j = some r →
      ∃ dj, r.get? 0 = some dj ∧ ¬ dj ≤ dt_t) :
    Time.get_utc_tai_loop stoi l_ls dt_t n = stoi v := by
  induction n with
  | zero => omega
  | succ m ih =>
    by_cases hm : m = i
    · subst hm
      simp only [Time.get_utc_tai_loop, hrow, at_col, hd, hv, if_pos hle]
    · have him : i < m := by omega
      have hml : m < l_ls.length := by omega
      obtain ⟨r, hr⟩ : ∃ r, l_ls.get? m = some r :=
        ⟨l_ls.get ⟨m, hml⟩, List.get?_eq_get hml⟩
      obtain ⟨dj, hdj, hnle⟩ := hlater m r him (by omega) hr
      simp only [Time.get_utc_tai_loop, hr, at_col, hdj, if_neg hnle]
      exact ih him (by omega) (fun j r2 h1 h2 h3 => hlater j r2 h1 (by omega) h3)

theorem get_utc_tai_loop_none (stoi : String → Except String Int)
    (l_ls : List (List String)) (dt_t : String) (n : Nat)
    (hlen : n ≤ l_ls.length)
    (hall : ∀ j r, j < n → l_ls.get? j = some r →
      ∃ dj, r.get? 0 = some dj ∧ ¬ dj ≤ dt_t) :
    Time.get_utc_tai_loop stoi l_ls dt_t n = .ok 0 := by
  induction n with
  | zero => rfl
  | succ m ih =>
    have hml : m < l_ls.length := by omega
    obtain ⟨r, hr⟩ : ∃ r, l_ls.get? m = some r :=
      ⟨l_ls.get ⟨m, hml⟩, List.get?_eq_get hml⟩
    obtain ⟨dj, hdj, hnle⟩ := hall m r (by omega) hr
    simp only [Time.get_utc_tai_loop, hr, at_col, hdj, if_neg hnle]
    exact ih (by omega) (fun j r2 h2 h3 => hall j r2 (by omega) h3)

theorem get_dut1_loop_found (stod : String → Except String ℝ)
    (l_dut : List (List String)) (dt_t : String) (i : Nat) (row : List String)
    (d v : String) (hrow : l_dut.get? i = some row) (hd : row.get? 0 = some d)
    (hv : row.get? 1 = some v) (hle : d ≤ dt_t) (n : Nat) (hn : i < n)
    (hlen : n ≤ l_dut.length)
    (hlater : ∀ j r, i < j → j < n → l_dut.get? j = some r →
      ∃ dj, r.get? 0 = some dj ∧ ¬ dj ≤ dt_t) :
    Time.get_dut1_loop stod l_dut dt_t n = stod v := by
  induction n with
  | zero => omega
  | succ m ih =>
    by_cases hm : m = i
    · subst hm
      simp only [Time.get_dut1_loop, hrow, at_col, hd, hv, if_pos hle]
    · have him : i < m := by omega
      have hml : m < l_dut.length := by omega
      obtain ⟨r, hr⟩ : ∃ r, l_dut.get? m = some r :=
        ⟨l_dut.get ⟨m, hml⟩, List.get?_eq_get hml⟩
      obtain ⟨dj, hdj, hnle⟩ := hlater m r him (by omega) hr
      simp only [Time.get_dut1_loop, hr, at_col, hdj, if_neg hnle]
      exact ih him (by omega) (fun j r2 h1 h2 h3 => hlater j r2 h1 (by omega) h3)

theorem get_dut1_loop_none (stod : String → Except String ℝ)
    (l_dut : List (List String)) (dt_t : String) (n : Nat)
    (hlen : n ≤ l_dut.length)
    (hall : ∀ j r, j < n → l_dut.get? j = some r →
      ∃ dj, r.get? 0 = some dj ∧ ¬ dj ≤ dt_t) :
    Time.get_dut1_loop stod l_dut dt_t n = .ok 0 := by
  induction n with
  | zero =>
    simp only [Time.get_dut1_loop]
    norm_num
  | succ m ih =>
    have hml : m < l_dut.length := by omega
    obtain ⟨r, hr⟩ : ∃ r, l_dut.get? m = some r :=
      ⟨l_dut.get ⟨m, hml⟩, List.get?_eq_get hml⟩
    obtain ⟨dj, hdj, hnle⟩ := hall m r (by omega) hr
    simp only [Time.get_dut1_loop, hr, at_col, hdj, if_neg hnle]
    exact ih (by omega) (fun j r2 h2 h3 => hall j r2 (by omega) h3)

end TimeLookupLemmas

/-- Claim C16. When row `i` of the leap-second table has an effective date
`d ≤ dt_t` (the target date in 8 characters) and no row of higher index has,
`get_utc_tai` returns the offset of row `i`: the conversion by `std::stoi` of
column 1 of that row. -/
theorem get_utc_tai_last_applicable (localtime_r : Int → Tm)
    (stoi : String → Except String Int) (l_ls : List (List String))
    (ts : Timespec) (i : Nat) (row : List String) (d v : String)
    (hrow : l_ls.get? i = some row) (hd : row.get? 0 = some d)
    (hv : row.get? 1 = some v) (hle : d ≤ Time.gen_dt_t localtime_r ts)
    (hlast : ∀ j r, i < j → l_ls.get? j = some r →
      ∃ dj, r.get? 0 = some dj ∧ ¬ dj ≤ Time.gen_dt_t localtime_r ts) :
    Time.get_utc_tai localtime_r stoi l_ls ts = stoi v := by
  have hi : i < l_ls.length := by
    by_contra hcon
    rw [List.get?_eq_none.mpr (by omega)] at hrow
    exact Option.noConfusion hrow
  exact get_utc_tai_loop_found stoi l_ls _ i row d v hrow hd hv hle _ hi le_rfl
    (fun j r h1 _ h3 => hlast j r h1 h3)

/-- The hypotheses of `get_utc_tai_last_applicable` are met by the table
`exLs` on 2016-12-31: row 0 (2015-07-01) is applicable, row 1 (2017-01-01) is
not, and the offset returned is that of row 0. -/
theorem get_utc_tai_last_applicable_witness :
    Time.get_utc_tai exLocaltime exStoi exLs ⟨1483142400, 0⟩ = .ok (-36) := by
  have hdt : Time.gen_dt_t exLocaltime ⟨1483142400, 0⟩ = "20161231" := by decide
  have h := get_utc_tai_last_applicable exLocaltime exStoi exLs ⟨1483142400, 0⟩ 0
    ["20150701", "-36"] "20150701" "-36" rfl rfl rfl
    (by rw [hdt, String.le_iff_toList_le]; decide)
    (by
      intro j r hj hr
      have hj1 : j = 1 := by
        by_contra hne
        have h2 : exLs.length ≤ j := by
          simp only [exLs, List.length_cons, List.length_nil]
          omega
        rw [List.get?_eq_none.mpr h2] at hr
        exact Option.noConfusion hr
      subst hj1
      refine ⟨"20170101", ?_, ?_⟩
      · simp only [exLs, List.get?_cons_succ, List.get?_cons_zero, Option.some.injEq] at hr
        rw [← hr]
        rfl
      · rw [hdt, String.le_iff_toList_le]
        decide)
  rw [h]
  simp [exStoi]

theorem dates_later (l : List (List String)) (dates : List String)
    (hmap : l.map (fun r => r.get? 0) = dates.map some)
    (hinc : dates.Pairwise (fun a b => a < b)) (k : Nat) (d : String)
    (hk : dates.get? k = some d) :
    ∀ j r, k < j → l.get? j = some r → ∃ dj, r.get? 0 = some dj ∧ ¬ dj ≤ d := by
  intro j r hkj hr
  have h1 : (l.map (fun r => r.get? 0))[j]? = some (r.get? 0) := by
    rw [List.getElem?_map, ← List.get?_eq_getElem?, hr]
    rfl
  rw [hmap, List.getElem?_map, ← List.get?_eq_getElem?] at h1
  cases hdj : dates.get? j with
  | none =>
    rw [hdj] at h1
    exact Option.noConfusion h1
  | some dj =>
    rw [hdj] at h1
    refine ⟨dj, (Option.some.inj h1).symm, ?_⟩
    have hjl : j < dates.length := by
      by_contra hcon
      rw [List.get?_eq_none.mpr (by omega)] at hdj
      exact Option.noConfusion hdj
    have hkl : k < dates.length := by omega
    have e1 : dates.get ⟨k, hkl⟩ = d := by
      have := List.get?_eq_get hkl
      rw [hk] at this
      exact (Option.some.inj this).symm
    have e2 : dates.get ⟨j, hjl⟩ = dj := by
      have := List.get?_eq_get hjl
      rw [hdj] at this
      exact (Option.some.inj this).symm
    have hlt := List.pairwise_iff_get.mp hinc ⟨k, hkl⟩ ⟨j, hjl⟩ hkj
    rw [e1, e2] at hlt
    exact not_le.mpr hlt

theorem dates_row (l : List (List String)) (dates : List String)
    (hmap : l.map (fun r => r.get? 0) = dates.map some) (k : Nat) (d : String)
    (row : List String) (hk : dates.get? k = some d) (hrow : l.get? k = some row) :
    row.get? 0 = some d := by
  have h1 : (l.map (fun r => r.get? 0))[k]? = some (row.get? 0) := by
    rw [List.getElem?_map, ← List.get?_eq_getElem?, hrow]
    rfl
  rw [hmap, List.getElem?_map, ← List.get?_eq_getElem?, hk] at h1
  exact (Option.some.inj h1).symm

/-- Claim C17. For a leap-second table and a DUT1 table whose effective dates
(column 0, the lists `dates_ls` and `dates_dut`) are strictly increasing, and
a target date equal to the effective date of row `k` of the first and of row
`m` of the second, `get_utc_tai` returns the value of row `k` and `get_dut1`
the value of row `m`: the conversions of column 1 of these rows. -/
theorem lookup_exact_date (localtime_r : Int → Tm)
    (stoi : String → Except String Int) (stod : String → Except String ℝ)
    (l_ls l_dut : List (List String)) (ts : Timespec)
    (dates_ls dates_dut : List String) (k m : Nat) (row_k row_m : List String)
    (v_k v_m : String)
    (hls : l_ls.map (fun r => r.get? 0) = dates_ls.map some)
    (hdut : l_dut.map (fun r => r.get? 0) = dates_dut.map some)
    (hinc_ls : dates_ls.Pairwise (fun a b => a < b))
    (hinc_dut : dates_dut.Pairwise (fun a b => a < b))
    (hk : dates_ls.get? k = some (Time.gen_dt_t localtime_r ts))
    (hm : dates_dut.get? m = some (Time.gen_dt_t localtime_r ts))
    (hrow_k : l_ls.get? k = some row_k) (hv_k : row_k.get? 1 = some v_k)
    (hrow_m : l_dut.get? m = some row_m) (hv_m : row_m.get? 1 = some v_m) :
    Time.get_utc_tai localtime_r stoi l_ls ts = stoi v_k
      ∧ Time.get_dut1 localtime_r stod l_dut ts = stod v_m := by
  have hkl : k < l_ls.length := by
    by_contra hcon
    rw [List.get?_eq_none.mpr (by omega)] at hrow_k
    exact Option.noConfusion hrow_k
  have hml : m < l_dut.length := by
    by_contra hcon
    rw [List.get?_eq_none.mpr (by omega)] at hrow_m
    exact Option.noConfusion hrow_m
  constructor
  · exact get_utc_tai_loop_found stoi l_ls _ k row_k _ v_k hrow_k
      (dates_row l_ls dates_ls hls k _ row_k hk hrow_k) hv_k le_rfl _ hkl le_rfl
      (fun j r h1 _ h3 => dates_later l_ls dates_ls hls hinc_ls k _ hk j r h1 h3)
  · exact get_dut1_loop_found stod l_dut _ m row_m _ v_m hrow_m
      (dates_row l_dut dates_dut hdut m _ row_m hm hrow_m) hv_m le_rfl _ hml le_rfl
      (fun j r h1 _ h3 => dates_later l_dut dates_dut hdut hinc_dut m _ hm j r h1 h3)

/-- The hypotheses of `lookup_exact_date` are met by the tables `exLs` and
`exDut` on 2017-01-01, the effective date of row 1 of both: the values
returned are those of row 1, not those of row 0. -/
theorem lookup_exact_date_witness :
    Time.get_utc_tai exLocaltime exStoi exLs ⟨1483228800, 0⟩ = .ok (-37)
      ∧ Time.get_dut1 exLocaltime (exStod : String → Except String ℝ) exDut
          ⟨1483228800, 0⟩ = .ok 0.6 := by
  have hdt : Time.gen_dt_t exLocaltime ⟨1483228800, 0⟩ = "20170101" := by decide
  have h := lookup_exact_date exLocaltime exStoi (exStod : String → Except String ℝ)
    exLs exDut ⟨1483228800, 0⟩ ["20150701", "20170101"] ["20161201", "20170101"]
    1 1 ["20170101", "-37"] ["20170101", "0.6"] "-37" "0.6" rfl rfl
    (by simp [String.lt_iff_toList_lt]; decide)
    (by simp [String.lt_iff_toList_lt]; decide)
    (by rw [hdt]; rfl) (by rw [hdt]; rfl) rfl rfl rfl rfl
  rw [h.1, h.2]
  simp [exStoi, exStod]

theorem rows_all_later (l : List (List String)) (dt_t : String)
    (h : ∀ r ∈ l, ∃ d, r.get? 0 = some d ∧ dt_t < d) :
    ∀ j r, j < l.length → l.get? j = some r →
      ∃ dj, r.get? 0 = some dj ∧ ¬ dj ≤ dt_t := by
  intro j r _ hr
  obtain ⟨d, hd, hlt⟩ := h r (List.get?_mem hr)
  exact ⟨d, hd, not_le.mpr hlt⟩

/-- Claim C18. For a leap-second table and a DUT1 table in which every row
has an effective date later than the target date, `get_utc_tai` returns `0`
and `get_dut1` returns `0.0`; so they do for the empty tables. -/
theorem lookup_before_all_entries (localtime_r : Int → Tm)
    (stoi : String → Except String Int) (stod : String → Except String ℝ)
    (l_ls l_dut : List (List String)) (ts : Timespec)
    (hls : ∀ r ∈ l_ls, ∃ d, r.get? 0 = some d ∧ Time.gen_dt_t localtime_r ts < d)
    (hdut : ∀ r ∈ l_dut, ∃ d, r.get? 0 = some d ∧ Time.gen_dt_t localtime_r ts < d) :
    (Time.get_utc_tai localtime_r stoi l_ls ts = .ok 0
      ∧ Time.get_dut1 localtime_r stod l_dut ts = .ok 0)
    ∧ (Time.get_utc_tai localtime_r stoi [] ts = .ok 0
      ∧ Time.get_dut1 localtime_r stod [] ts = .ok 0) := by
  refine ⟨⟨?_, ?_⟩, ?_, ?_⟩
  · exact get_utc_tai_loop_none stoi l_ls _ _ le_rfl (rows_all_later l_ls _ hls)
  · exact get_dut1_loop_none stod l_dut _ _ le_rfl (rows_all_later l_dut _ hdut)
  · exact get_utc_tai_loop_none stoi [] _ _ le_rfl
      (rows_all_later [] _ (fun r hr => absurd hr (List.not_mem_nil r)))
  · exact get_dut1_loop_none stod [] _ _ le_rfl
      (rows_all_later [] _ (fun r hr => absurd hr (List.not_mem_nil r)))

theorem exLs_after_1970 :
    ∀ r ∈ exLs, ∃ d, r.get? 0 = some d ∧ Time.gen_dt_t exLocaltime ⟨0, 0⟩ < d := by
  have hdt : Time.gen_dt_t exLocaltime ⟨0, 0⟩ = "19700101" := by decide
  intro r hr
  simp only [exLs, List.mem_cons, List.mem_singleton, List.not_mem_nil, or_false] at hr
  rcases hr with rfl | rfl
  · exact ⟨"20150701", rfl, by rw [hdt, String.lt_iff_toList_lt]; decide⟩
  · exact ⟨"20170101", rfl, by rw [hdt, String.lt_iff_toList_lt]; decide⟩

theorem exDut_after_1970 :
    ∀ r ∈ exDut, ∃ d, r.get? 0 = some d ∧ Time.gen_dt_t exLocaltime ⟨0, 0⟩ < d := by
  have hdt : Time.gen_dt_t exLocaltime ⟨0, 0⟩ = "19700101" := by decide
  intro r hr
  simp only [exDut, List.mem_cons, List.mem_singleton, List.not_mem_nil, or_false] at hr
  rcases hr with rfl | rfl
  · exact ⟨"20161201", rfl, by rw [hdt, String.lt_iff_toList_lt]; decide⟩
  · exact ⟨"20170101", rfl, by rw [hdt, String.lt_iff_toList_lt]; decide⟩

/-- The hypotheses of `lookup_before_all_entries` are met by the tables
`exLs` and `exDut` on 1970-01-01, earlier than every effective date. -/
theorem lookup_before_all_entries_witness :
    Time.get_utc_tai exLocaltime exStoi exLs ⟨0, 0⟩ = .ok 0
      ∧ Time.get_dut1 exLocaltime (exStod : String → Except String ℝ) exDut ⟨0, 0⟩
          = .ok 0 :=
  (lookup_before_all_entries exLocaltime exStoi exStod exLs exDut ⟨0, 0⟩
    exLs_after_1970 exDut_after_1970).1

theorem ctor_loaded (localtime_r : Int → Tm) (stoi : String → Except String Int)
    (stod : String → Except String ℝ) (f_ls f_dut : Option (List (List String)))
    (l_ls l_dut : List (List String)) (ts : Timespec)
    (hls_ne : l_ls ≠ []) (hdut_ne : l_dut ≠ []) (n : Int) (x : ℝ)
    (hn : Time.get_utc_tai localtime_r stoi l_ls ts = .ok n)
    (hx : Time.get_dut1 localtime_r stod l_dut ts = .ok x) :
    ∃ o, Time.ctor localtime_r stoi stod f_ls f_dut l_ls l_dut ts = .ok o
      ∧ o.utc_tai = n ∧ o.dut1 = x ∧ o.ts = ts := by
  have h1 : ¬ (l_ls.length = 0 ∨ l_dut.length = 0) := by
    simp only [List.length_eq_zero]
    tauto
  have hc : Time.ctor localtime_r stoi stod f_ls f_dut l_ls l_dut ts
      = .ok { l_ls := l_ls, l_dut := l_dut, ts := ts, ts_tai := ⟨0, 0⟩, ts_ut1 := ⟨0, 0⟩,
              ts_tt := ⟨0, 0⟩, ts_tcg := ⟨0, 0⟩, ts_tcb := ⟨0, 0⟩, ts_tdb := ⟨0, 0⟩,
              jd := 0.0, t := 0.0, dut1 := x, dlt_t := 0.0, utc_tai := n } := by
    unfold Time.ctor
    simp only [if_neg h1, hn, hx]
  exact ⟨_, hc, rfl, rfl, rfl⟩

/-- Claim C19, as the code has it. With both tables loaded, when no row of
the leap-second table is applicable to the target date (every effective date
is later) and the DUT1 lookup gives `x`, the constructor succeeds and leaves
`utc_tai = 0` and `dut1 = x`; when no row of the DUT1 table is applicable and
the leap-second lookup gives `n`, it succeeds and leaves `utc_tai = n` and
`dut1 = 0`. No error is raised: the offset is silently zero. -/
theorem ctor_no_applicable_entry (localtime_r : Int → Tm)
    (stoi : String → Except String Int) (stod : String → Except String ℝ)
    (f_ls f_dut : Option (List (List String)))
    (l_ls l_dut : List (List String)) (ts : Timespec)
    (hls_ne : l_ls ≠ []) (hdut_ne : l_dut ≠ []) :
    ((∀ r ∈ l_ls, ∃ d, r.get? 0 = some d ∧ Time.gen_dt_t localtime_r ts < d) →
      ∀ x, Time.get_dut1 localtime_r stod l_dut ts = .ok x →
        ∃ o, Time.ctor localtime_r stoi stod f_ls f_dut l_ls l_dut ts = .ok o
          ∧ o.utc_tai = 0 ∧ o.dut1 = x)
    ∧ ((∀ r ∈ l_dut, ∃ d, r.get? 0 = some d ∧ Time.gen_dt_t localtime_r ts < d) →
      ∀ n, Time.get_utc_tai localtime_r stoi l_ls ts = .ok n →
        ∃ o, Time.ctor localtime_r stoi stod f_ls f_dut l_ls l_dut ts = .ok o
          ∧ o.utc_tai = n ∧ o.dut1 = 0) := by
  constructor
  · intro hls x hx
    obtain ⟨o, ho, h1, h2, _⟩ := ctor_loaded localtime_r stoi stod f_ls f_dut l_ls l_dut
      ts hls_ne hdut_ne 0 x
      (get_utc_tai_loop_none stoi l_ls _ _ le_rfl (rows_all_later l_ls _ hls)) hx
    exact ⟨o, ho, h1, h2⟩
  · intro hdut n hn
    obtain ⟨o, ho, h1, h2, _⟩ := ctor_loaded localtime_r stoi stod f_ls f_dut l_ls l_dut
      ts hls_ne hdut_ne n 0 hn
      (get_dut1_loop_none stod l_dut _ _ le_rfl (rows_all_later l_dut _ hdut))
    exact ⟨o, ho, h1, h2⟩

/-- The hypotheses of `ctor_no_applicable_entry` are met by the tables `exLs`
and `exDut` on 1970-01-01: the object is constructed, with `utc_tai = 0` and
`dut1 = 0`. -/
theorem ctor_no_applicable_entry_witness :
    ∃ o, Time.ctor exLocaltime exStoi (exStod : String → Except String ℝ) none none
        exLs exDut ⟨0, 0⟩ = .ok o ∧ o.utc_tai = 0 ∧ o.dut1 = 0 :=
  (ctor_no_applicable_entry exLocaltime exStoi exStod none none exLs exDut ⟨0, 0⟩
    (by simp [exLs]) (by simp [exDut])).1 exLs_after_1970 0
    (get_dut1_loop_none exStod exDut _ _ le_rfl (rows_all_later exDut _ exDut_after_1970))

/-- Claim C19 does not hold: on 1970-01-01 no row of `exLs` and no row of
`exDut` is applicable, and the lookups return `0` and `0.0` with no error;
so does the constructor, which leaves `utc_tai = 0` and `dut1 = 0`. -/
theorem lookup_silent_default :
    Time.get_utc_tai exLocaltime exStoi exLs ⟨0, 0⟩ = .ok 0
    ∧ Time.get_dut1 exLocaltime (exStod : String → Except String ℝ) exDut ⟨0, 0⟩ = .ok 0
    ∧ ∃ o, Time.ctor exLocaltime exStoi (exStod : String → Except String ℝ) none none
        exLs exDut ⟨0, 0⟩ = .ok o ∧ o.utc_tai = 0 ∧ o.dut1 = 0 := by
  have h1 := get_utc_tai_loop_none exStoi exLs _ _ le_rfl
    (rows_all_later exLs _ exLs_after_1970)
  have h2 := get_dut1_loop_none (exStod : String → Except String ℝ) exDut _ _ le_rfl
    (rows_all_later exDut _ exDut_after_1970)
  refine ⟨h1, h2, ?_⟩
  obtain ⟨o, ho, h3, h4, _⟩ := ctor_loaded exLocaltime exStoi
    (exStod : String → Except String ℝ) none none exLs exDut ⟨0, 0⟩
    (by simp [exLs]) (by simp [exDut]) 0 0 h1 h2
  exact ⟨o, ho, h3, h4⟩

section ToLongLemmas

variable {K : Type} [LinearOrderedField K] [FloorRing K]

theorem toLong_intCast (n : Int) : toLong (n : K) = n := by
  unfold toLong
  split <;> simp

theorem toLong_sub_abs_lt (x : K) : |((toLong x : Int) : K) - x| < 1 := by
  unfold toLong
  rw [abs_lt]
  split
  · constructor <;> linarith [Int.floor_le x, Int.lt_floor_add_one x]
  · constructor <;> linarith [Int.le_ceil x, Int.ceil_lt_add_one x]

theorem toLong_of_nonneg (x : K) (h : 0 ≤ x) : toLong x = ⌊x⌋ := by
  unfold toLong
  rw [if_pos h]

theorem toLong_of_neg (x : K) (h : x < 0) : toLong x = ⌈x⌉ := by
  unfold toLong
  rw [if_neg (not_le.mpr h)]

end ToLongLemmas

theorem total_ns_utc2ut1 (o : Time ℝ) (ts : Timespec) :
    total_ns (Time.utc2ut1 o ts).1
      = ts.tv_sec * 1000000000 + toLong ((ts.tv_nsec : ℝ) + o.dut1 * 1.0e9) := by
  have e1 : ∀ n : Int, toLong ((n : ℝ) - 1.0e9) = n - 1000000000 := by
    intro n
    have : (n : ℝ) - 1.0e9 = ((n - 1000000000 : Int) : ℝ) := by
      push_cast
      norm_num
    rw [this, toLong_intCast]
  have e2 : ∀ n : Int, toLong ((n : ℝ) + 1.0e9) = n + 1000000000 := by
    intro n
    have : (n : ℝ) + 1.0e9 = ((n + 1000000000 : Int) : ℝ) := by
      push_cast
      norm_num
    rw [this, toLong_intCast]
  unfold Time.utc2ut1 total_ns
  simp only [e1, e2]
  split_ifs <;> simp only [] <;> ring

/-- Claim C20, as the code has it. For every UTC instant and every DUT1 the
total time of the instant returned by `utc2ut1` is `sec * 1e9` plus the sum
`nsec + DUT1 * 1e9` of the nanoseconds alone truncated toward zero. It is
within one nanosecond of the input's total plus `DUT1 * 1e9`, and it is the
floor of that sum when `nsec + DUT1 * 1e9 ≥ 0`. -/
theorem utc2ut1_total (o : Time ℝ) (ts : Timespec) :
    total_ns (Time.utc2ut1 o ts).1
        = ts.tv_sec * 1000000000 + toLong ((ts.tv_nsec : ℝ) + o.dut1 * 1.0e9)
    ∧ |((total_ns (Time.utc2ut1 o ts).1 : Int) : ℝ)
          - (((total_ns ts : Int) : ℝ) + o.dut1 * 1.0e9)| < 1
    ∧ (0 ≤ (ts.tv_nsec : ℝ) + o.dut1 * 1.0e9 →
        total_ns (Time.utc2ut1 o ts).1
          = ⌊((total_ns ts : Int) : ℝ) + o.dut1 * 1.0e9⌋) := by
  refine ⟨total_ns_utc2ut1 o ts, ?_, ?_⟩
  · rw [total_ns_utc2ut1]
    have h := toLong_sub_abs_lt ((ts.tv_nsec : ℝ) + o.dut1 * 1.0e9)
    have e : (((ts.tv_sec * 1000000000
          + toLong ((ts.tv_nsec : ℝ) + o.dut1 * 1.0e9) : Int) : ℝ)
          - (((total_ns ts : Int) : ℝ) + o.dut1 * 1.0e9))
        = ((toLong ((ts.tv_nsec : ℝ) + o.dut1 * 1.0e9) : Int) : ℝ)
          - ((ts.tv_nsec : ℝ) + o.dut1 * 1.0e9) := by
      unfold total_ns
      push_cast
      ring
    rw [e]
    exact h
  · intro h0
    rw [total_ns_utc2ut1, toLong_of_nonneg _ h0]
    have e : ((total_ns ts : Int) : ℝ) + o.dut1 * 1.0e9
        = ((ts.tv_nsec : ℝ) + o.dut1 * 1.0e9) + ((ts.tv_sec * 1000000000 : Int) : ℝ) := by
      unfold total_ns
      push_cast
      ring
    rw [e, Int.floor_add_int]
    ring

/-- The hypothesis of `utc2ut1_total` is met at 1 s 250 ms with DUT1 = 0.5 s:
the total of the instant returned is 1 750 000 000 ns. -/
theorem utc2ut1_total_witness :
    (0 : ℝ) ≤ ((250000000 : Int) : ℝ) + (exTime (0.5 : ℝ)).dut1 * 1.0e9
    ∧ total_ns (Time.utc2ut1 (exTime (0.5 : ℝ)) ⟨1, 250000000⟩).1
        = ⌊((total_ns ⟨1, 250000000⟩ : Int) : ℝ) + (exTime (0.5 : ℝ)).dut1 * 1.0e9⌋ := by
  have h0 : (0 : ℝ) ≤ ((250000000 : Int) : ℝ) + (exTime (0.5 : ℝ)).dut1 * 1.0e9 := by
    simp only [exTime]
    norm_num
  exact ⟨h0, (utc2ut1_total (exTime (0.5 : ℝ)) ⟨1, 250000000⟩).2.2 h0⟩

/-- Claim C20 does not hold. At 1 s 0 ns with DUT1 = -0.5000000005 s the
instant returned has the total 500 000 000 ns, and the input's total plus
`DUT1 * 1e9` is 499 999 999.5 ns, which truncates to 499 999 999. At 0 s 1 ns
with DUT1 = -0.0000000005 s the instant returned has the total 0 ns, and the
input's total plus the truncated `DUT1 * 1e9` is 1 ns. -/
theorem utc2ut1_not_truncated_total :
    total_ns (Time.utc2ut1 (exTime (-0.5000000005 : ℝ)) ⟨1, 0⟩).1 = 500000000
    ∧ toLong (((total_ns ⟨1, 0⟩ : Int) : ℝ) + (-0.5000000005) * 1.0e9) = 499999999
    ∧ total_ns (Time.utc2ut1 (exTime (-0.0000000005 : ℝ)) ⟨0, 1⟩).1 = 0
    ∧ total_ns ⟨0, 1⟩ + toLong ((-0.0000000005 : ℝ) * 1.0e9) = 1 := by
  refine ⟨?_, ?_, ?_, ?_⟩
  · rw [total_ns_utc2ut1]
    have hx : (((0 : Int) : ℝ) + (exTime (-0.5000000005 : ℝ)).dut1 * 1.0e9) < 0 := by
      simp only [exTime]
      norm_num
    have hc : ⌈(((0 : Int) : ℝ) + (exTime (-0.5000000005 : ℝ)).dut1 * 1.0e9)⌉
        = -500000000 := by
      rw [Int.ceil_eq_iff]
      simp only [exTime]
      norm_num
    show (1 : Int) * 1000000000
      + toLong ((((0 : Int) : ℝ)) + (exTime (-0.5000000005 : ℝ)).dut1 * 1.0e9) = 500000000
    rw [toLong_of_neg _ hx, hc]
    norm_num
  · have hx : (0 : ℝ) ≤ ((total_ns ⟨1, 0⟩ : Int) : ℝ) + (-0.5000000005) * 1.0e9 := by
      simp only [total_ns]
      norm_num
    rw [toLong_of_nonneg _ hx, Int.floor_eq_iff]
    simp only [total_ns]
    norm_num
  · rw [total_ns_utc2ut1]
    have hx : (0 : ℝ) ≤ (((1 : Int) : ℝ) + (exTime (-0.0000000005 : ℝ)).dut1 * 1.0e9) := by
      simp only [exTime]
      norm_num
    have hc : ⌊(((1 : Int) : ℝ) + (exTime (-0.0000000005 : ℝ)).dut1 * 1.0e9)⌋ = 0 := by
      rw [Int.floor_eq_iff]
      simp only [exTime]
      norm_num
    show (0 : Int) * 1000000000
      + toLong ((((1 : Int) : ℝ)) + (exTime (-0.0000000005 : ℝ)).dut1 * 1.0e9) = 0
    rw [toLong_of_nonneg _ hx, hc]
    norm_num
  · have hx : ((-0.0000000005 : ℝ) * 1.0e9) < 0 := by norm_num
    have hc : ⌈((-0.0000000005 : ℝ) * 1.0e9)⌉ = 0 := by
      rw [Int.ceil_eq_iff]
      norm_num
    rw [toLong_of_neg _ hx, hc]
    simp [total_ns]

/-- Claim C26. At each of the 14 boundary years between consecutive regimes
of ΔT the polynomials of the two adjacent regimes, evaluated at the boundary
year in exact arithmetic, differ by less than one second. -/
theorem dlt_t_boundaries_lt_one (K : Type) [LinearOrderedField K] :
    |calc_dlt_t_bf_m500 (-500 : K) - calc_dlt_t_bf_0500 (-500)| < 1
    ∧ |calc_dlt_t_bf_0500 (500 : K) - calc_dlt_t_bf_1600 500| < 1
    ∧ |calc_dlt_t_bf_1600 (1600 : K) - calc_dlt_t_bf_1700 1600| < 1
    ∧ |calc_dlt_t_bf_1700 (1700 : K) - calc_dlt_t_bf_1800 1700| < 1
    ∧ |calc_dlt_t_bf_1800 (1800 : K) - calc_dlt_t_bf_1860 1800| < 1
    ∧ |calc_dlt_t_bf_1860 (1860 : K) - calc_dlt_t_bf_1900 1860| < 1
    ∧ |calc_dlt_t_bf_1900 (1900 : K) - calc_dlt_t_bf_1920 1900| < 1
    ∧ |calc_dlt_t_bf_1920 (1920 : K) - calc_dlt_t_bf_1941 1920| < 1
    ∧ |calc_dlt_t_bf_1941 (1941 : K) - calc_dlt_t_bf_1961 1941| < 1
    ∧ |calc_dlt_t_bf_1961 (1961 : K) - calc_dlt_t_bf_1986 1961| < 1
    ∧ |calc_dlt_t_bf_1986 (1986 : K) - calc_dlt_t_bf_2005 1986| < 1
    ∧ |calc_dlt_t_bf_2005 (2005 : K) - calc_dlt_t_bf_2050 2005| < 1
    ∧ |calc_dlt_t_bf_2050 (2050 : K) - calc_dlt_t_to_2150 2050| < 1
    ∧ |calc_dlt_t_to_2150 (2150 : K) - calc_dlt_t_af_2150 2150| < 1 := by
  simp only [calc_dlt_t_bf_m500, calc_dlt_t_bf_0500, calc_dlt_t_bf_1600,
    calc_dlt_t_bf_1700, calc_dlt_t_bf_1800, calc_dlt_t_bf_1860, calc_dlt_t_bf_1900,
    calc_dlt_t_bf_1920, calc_dlt_t_bf_1941, calc_dlt_t_bf_1961, calc_dlt_t_bf_1986,
    calc_dlt_t_bf_2005, calc_dlt_t_bf_2050, calc_dlt_t_to_2150, calc_dlt_t_af_2150,
    abs_lt]
  refine ⟨?_, ?_, ?_, ?_, ?_, ?_, ?_, ?_, ?_, ?_, ?_, ?_, ?_, ?_⟩ <;>
    constructor <;> norm_num

/-- Claim C27. For every Julian Day `jd`, `jd2t` returns
`(jd - 2451545) / 36525`; `calc_t` returns this number for the Julian Day of
the object, which is the member `jd` when it is not zero and `gc2jd` of the
instant otherwise; for an object whose member `jd` is zero or was set by
`calc_jd`, it is `gc2jd` of the instant. -/
theorem jd2t_formula (localtime_r : Int → Tm) (jd : ℝ) (o : Time ℝ) :
    Time.jd2t jd = (jd - 2451545) / 36525
    ∧ (Time.calc_t localtime_r o).1
        = ((if o.jd = 0 then Time.gc2jd localtime_r o.ts else o.jd) - 2451545) / 36525
    ∧ (Time.calc_t localtime_r (Time.calc_jd localtime_r o).2).1
        = (Time.gc2jd localtime_r o.ts - 2451545) / 36525 := by
  have h : ∀ x : ℝ, Time.jd2t x = (x - 2451545) / 36525 := by
    intro x
    simp only [Time.jd2t, kJ2000, kJy]
    norm_num
  refine ⟨h jd, ?_, ?_⟩
  · simp only [Time.calc_t, h]
    norm_num
  · simp only [Time.calc_t, Time.calc_jd, h]
    split_ifs <;> rfl

section CarryLemmas

theorem toLong_sub_1e9 (n : Int) : toLong ((n : ℝ) - 1.0e9) = n - 1000000000 := by
  have h : (n : ℝ) - 1.0e9 = ((n - 1000000000 : Int) : ℝ) := by
    push_cast
    norm_num
  rw [h, toLong_intCast]

theorem toLong_add_1e9 (n : Int) : toLong ((n : ℝ) + 1.0e9) = n + 1000000000 := by
  have h : (n : ℝ) + 1.0e9 = ((n + 1000000000 : Int) : ℝ) := by
    push_cast
    norm_num
  rw [h, toLong_intCast]

theorem toLong_le_of_le (x : ℝ) (n : Int) (h0 : 0 ≤ n) (h : x ≤ (n : ℝ)) :
    toLong x ≤ n := by
  unfold toLong
  split
  · exact (Int.floor_le_floor h).trans (le_of_eq (Int.floor_intCast n))
  · rename_i hx
    have hx0 : x ≤ ((0 : Int) : ℝ) := by
      push_cast
      linarith [not_le.mp hx]
    exact (Int.ceil_le.mpr hx0).trans h0

theorem kTtTai_floor : ⌊(kTtTai : ℝ)⌋ = 32 := by
  rw [Int.floor_eq_iff]
  unfold kTtTai
  norm_num

theorem round_b64_kTtTai :
    round_b64 47 (kTtTai : ℝ) = 1132373831306969 / 35184372088832 := by
  have h : ⌊(kTtTai : ℝ) * 2 ^ 47 + 1 / 2⌋ = 4529495325227876 := by
    rw [Int.floor_eq_iff]
    unfold kTtTai
    norm_num
  unfold round_b64
  rw [h]
  norm_num

theorem round_b64_kTtTai_floor : ⌊round_b64 47 (kTtTai : ℝ)⌋ = 32 := by
  rw [round_b64_kTtTai, Int.floor_eq_iff]
  norm_num

/-- The increment of the nanoseconds in `tai2tt` as binary64 arithmetic gives
it: `183999999.99999749660491943359375`. -/
theorem tai2tt_increment :
    round_b64 25 ((round_b64 47 (kTtTai : ℝ) - ((32 : Int) : ℝ)) * 1.0e9)
      = 1543503871999979 / 8388608 := by
  have h : ⌊(round_b64 47 (kTtTai : ℝ) - ((32 : Int) : ℝ)) * 1.0e9 * 2 ^ 25 + 1 / 2⌋
      = 6174015487999916 := by
    rw [round_b64_kTtTai, Int.floor_eq_iff]
    norm_num
  have e : ∀ x : ℝ, round_b64 25 x = (⌊x * 2 ^ 25 + 1 / 2⌋ : ℝ) / 2 ^ 25 := fun _ => rfl
  rw [e, h]
  norm_num

/-- The two roundings of `tai2tt` are roundings to the nearest binary64
number: the values lie in the binades whose spacing is `2^-47` and `2^-25`,
each is within half a spacing of the number it rounds, and neither is a
tie. -/
theorem tai2tt_roundings :
    ((2 : ℝ) ^ 5 ≤ round_b64 47 (kTtTai : ℝ) ∧ round_b64 47 (kTtTai : ℝ) < 2 ^ 6)
    ∧ |round_b64 47 (kTtTai : ℝ) - kTtTai| < 1 / 2 ^ 48
    ∧ ((2 : ℝ) ^ 27 ≤ round_b64 25 ((round_b64 47 (kTtTai : ℝ) - ((32 : Int) : ℝ)) * 1.0e9)
      ∧ round_b64 25 ((round_b64 47 (kTtTai : ℝ) - ((32 : Int) : ℝ)) * 1.0e9) < 2 ^ 28)
    ∧ |round_b64 25 ((round_b64 47 (kTtTai : ℝ) - ((32 : Int) : ℝ)) * 1.0e9)
        - (round_b64 47 (kTtTai : ℝ) - ((32 : Int) : ℝ)) * 1.0e9| < 1 / 2 ^ 26
    ∧ (kTtTai - ((32 : Int) : ℝ)) * 1.0e9 = (184000000 : ℝ) := by
  rw [tai2tt_increment, round_b64_kTtTai]
  unfold kTtTai
  refine ⟨⟨?_, ?_⟩, ?_, ⟨?_, ?_⟩, ?_, ?_⟩
  · norm_num
  · norm_num
  · rw [abs_lt]
    constructor <;> norm_num
  · norm_num
  · norm_num
  · rw [abs_lt]
    constructor <;> norm_num
  · norm_num

theorem toLong_add_increment (n : Int) (h : 0 ≤ n) :
    toLong ((n : ℝ) + 1543503871999979 / 8388608) = n + 183999999 := by
  have hn : (0 : ℝ) ≤ (n : ℝ) := by exact_mod_cast h
  have h0 : (0 : ℝ) ≤ (n : ℝ) + 1543503871999979 / 8388608 := by positivity
  rw [toLong_of_nonneg _ h0, Int.floor_eq_iff]
  push_cast
  constructor
  · have : (183999999 : ℝ) ≤ 1543503871999979 / 8388608 := by norm_num
    linarith
  · have : (1543503871999979 : ℝ) / 8388608 < 183999999 + 1 := by norm_num
    linarith

theorem tai2tt_eq (o : Time ℝ) (ts : Timespec) (h0 : 0 ≤ ts.tv_nsec) :
    (Time.tai2tt o ts).1
      = if ((ts.tv_nsec + 183999999 : Int) : ℝ) > 1.0e9 then
          ⟨ts.tv_sec + 32 + 1, ts.tv_nsec + 183999999 - 1000000000⟩
        else ⟨ts.tv_sec + 32, ts.tv_nsec + 183999999⟩ := by
  have hneg : ¬ (ts.tv_nsec + 183999999 < 0) := by omega
  unfold Time.tai2tt
  simp only [round_b64_kTtTai_floor, tai2tt_increment, toLong_add_increment _ h0,
    toLong_sub_1e9, if_neg hneg]

theorem total_ns_tai2tt (o : Time ℝ) (ts : Timespec) (h0 : 0 ≤ ts.tv_nsec) :
    total_ns (Time.tai2tt o ts).1 = total_ns ts + 32183999999 := by
  rw [tai2tt_eq o ts h0]
  unfold total_ns
  split_ifs <;> simp only [] <;> ring

end CarryLemmas

/-- Claim C21 fails on the code. For the TAI instant 0 s 0 ns, and for
2017-01-01 00:00:37.5 TAI, `tai2tt` returns an instant whose total is the
total of the input plus 32 183 999 999 ns, one nanosecond less than
32.184 s: the increment `(kTtTai - f_tt_tai) * 1.0e9`, which is 184000000 in
exact arithmetic, is `183999999.99999749...` in the binary64 arithmetic of
the program, and the conversion to `long` cuts it to 183999999. -/
theorem tai2tt_one_ns_short :
    (Time.tai2tt (exTime2017 : Time ℝ) ⟨0, 0⟩).1 = ⟨32, 183999999⟩
    ∧ total_ns (Time.tai2tt (exTime2017 : Time ℝ) ⟨0, 0⟩).1
        = total_ns ⟨0, 0⟩ + 32183999999
    ∧ total_ns (Time.tai2tt (exTime2017 : Time ℝ) ⟨0, 0⟩).1
        ≠ total_ns ⟨0, 0⟩ + 32184000000
    ∧ (Time.tai2tt (exTime2017 : Time ℝ) ⟨1483228837, 500000000⟩).1
        = ⟨1483228869, 683999999⟩
    ∧ total_ns (Time.tai2tt (exTime2017 : Time ℝ) ⟨1483228837, 500000000⟩).1
        ≠ total_ns ⟨1483228837, 500000000⟩ + 32184000000 := by
  have h1 : (Time.tai2tt (exTime2017 : Time ℝ) ⟨0, 0⟩).1 = ⟨32, 183999999⟩ := by
    rw [tai2tt_eq _ _ (le_refl 0)]
    have hc : ¬ ((((⟨0, 0⟩ : Timespec).tv_nsec + 183999999 : Int) : ℝ) > 1.0e9) := by
      norm_num
    rw [if_neg hc]
    rfl
  have h2 : (Time.tai2tt (exTime2017 : Time ℝ) ⟨1483228837, 500000000⟩).1
      = ⟨1483228869, 683999999⟩ := by
    rw [tai2tt_eq _ _ (by decide)]
    have hc : ¬ ((((⟨1483228837, 500000000⟩ : Timespec).tv_nsec + 183999999 : Int) : ℝ)
        > 1.0e9) := by
      norm_num
    rw [if_neg hc]
    rfl
  refine ⟨h1, ?_, ?_, h2, ?_⟩
  · rw [h1]
    decide
  · rw [h1]
    decide
  · rw [h2]
    decide

/-- Claim C23. For every TCB instant with `0 <= nsec < 1e9` and every Julian
Day `jd` of the object, the total time of the instant returned by `tcb2tdb`
is within one nanosecond of the total of the input minus
`(L_B * (jd - T0) * 86400 + TDB0)` seconds. -/
theorem tcb2tdb_total (o : Time ℝ) (ts : Timespec) (h0 : 0 ≤ ts.tv_nsec)
    (h1 : ts.tv_nsec < 1000000000) :
    |((total_ns (Time.tcb2tdb o ts).1 : Int) : ℝ)
        - (((total_ns ts : Int) : ℝ)
            - (kLB * (o.jd - kT0) * 86400 + kTdb0) * 1.0e9)| < 1 := by
  have hv : kLB * (o.jd - kT0) * ((kSecDay : Int) : ℝ) + kTdb0
      = kLB * (o.jd - kT0) * 86400 + kTdb0 := by
    unfold kSecDay
    push_cast
    ring
  generalize hvv : kLB * (o.jd - kT0) * 86400 + kTdb0 = v at hv
  have hinc0 : 0 ≤ (v - (⌊v⌋ : ℝ)) * 1.0e9 :=
    mul_nonneg (by linarith [Int.floor_le v]) (by norm_num)
  have hle : toLong ((ts.tv_nsec : ℝ) - (v - (⌊v⌋ : ℝ)) * 1.0e9) ≤ ts.tv_nsec :=
    toLong_le_of_le _ _ h0 (by linarith)
  have hnc : ¬ (((toLong ((ts.tv_nsec : ℝ) - (v - (⌊v⌋ : ℝ)) * 1.0e9) : Int) : ℝ)
      > 1.0e9) := by
    have h2 : ((toLong ((ts.tv_nsec : ℝ) - (v - (⌊v⌋ : ℝ)) * 1.0e9) : Int) : ℝ)
        ≤ (ts.tv_nsec : ℝ) := by exact_mod_cast hle
    have h3 : (ts.tv_nsec : ℝ) < 1000000000 := by exact_mod_cast h1
    have h4 : (1.0e9 : ℝ) = 1000000000 := by norm_num
    intro hgt
    rw [h4] at hgt
    linarith
  have htot : total_ns (Time.tcb2tdb o ts).1
      = (ts.tv_sec - ⌊v⌋) * 1000000000
        + toLong ((ts.tv_nsec : ℝ) - (v - (⌊v⌋ : ℝ)) * 1.0e9) := by
    unfold Time.tcb2tdb total_ns
    simp only [hv, if_neg hnc, toLong_add_1e9]
    split_ifs <;> ring
  have habs := toLong_sub_abs_lt ((ts.tv_nsec : ℝ) - (v - (⌊v⌋ : ℝ)) * 1.0e9)
  have e : ((total_ns (Time.tcb2tdb o ts).1 : Int) : ℝ)
        - (((total_ns ts : Int) : ℝ) - v * 1.0e9)
      = ((toLong ((ts.tv_nsec : ℝ) - (v - (⌊v⌋ : ℝ)) * 1.0e9) : Int) : ℝ)
        - ((ts.tv_nsec : ℝ) - (v - (⌊v⌋ : ℝ)) * 1.0e9) := by
    rw [htot]
    unfold total_ns
    push_cast
    ring
  rw [e]
  exact habs

/-- The hypotheses of `tcb2tdb_total` are met at 0 s 500 000 000 ns with the
Julian Day `exJd`. -/
theorem tcb2tdb_total_witness :
    |((total_ns (Time.tcb2tdb (exTimeJd (exJd : ℝ)) ⟨0, 500000000⟩).1 : Int) : ℝ)
        - (((total_ns ⟨0, 500000000⟩ : Int) : ℝ)
            - (kLB * ((exTimeJd (exJd : ℝ)).jd - kT0) * 86400 + kTdb0) * 1.0e9)| < 1 :=
  tcb2tdb_total (exTimeJd exJd) ⟨0, 500000000⟩ (by decide) (by decide)

theorem exJd_tcb_floor :
    ⌊(kLB : ℝ) * ((exTimeJd (exJd : ℝ)).jd - kT0) * ((kSecDay : Int) : ℝ)⌋ = 21 := by
  rw [Int.floor_eq_iff]
  simp only [exTimeJd, exJd, kLB, kT0, kSecDay]
  norm_num

theorem exJd_tcb_nsec :
    toLong (((500000000 : Int) : ℝ)
      + ((kLB : ℝ) * ((exTimeJd (exJd : ℝ)).jd - kT0) * ((kSecDay : Int) : ℝ)
          - ((21 : Int) : ℝ)) * 1.0e9) = 1042896349 := by
  have h0 : (0 : ℝ) ≤ ((500000000 : Int) : ℝ)
      + ((kLB : ℝ) * ((exTimeJd (exJd : ℝ)).jd - kT0) * ((kSecDay : Int) : ℝ)
          - ((21 : Int) : ℝ)) * 1.0e9 := by
    simp only [exTimeJd, exJd, kLB, kT0, kSecDay]
    norm_num
  rw [toLong_of_nonneg _ h0, Int.floor_eq_iff]
  simp only [exTimeJd, exJd, kLB, kT0, kSecDay]
  norm_num

/-- Claim C22 fails on the code. With the Julian Day `exJd` (2021-01-11) the
term `L_B * (jd - T0) * 86400` is 21.542896349 s; at the TT instant
0 s 500 000 000 ns the nanoseconds reach 1 042 896 349 and the branch of the
carry is taken, which subtracts 1e9 from `ts_tcb.tv_nsec` and increments
`ts_tcg.tv_sec` instead of `ts_tcb.tv_sec`. The instant returned is
21 s 42 896 349 ns, one second less than the TT total plus the term
(22 042 896 349 ns), and the member `ts_tcg` has become 1 s. -/
theorem tt2tcb_carry_lost :
    (Time.tt2tcb (exTimeJd (exJd : ℝ)) ⟨0, 500000000⟩).1 = ⟨21, 42896349⟩
    ∧ (Time.tt2tcb (exTimeJd (exJd : ℝ)) ⟨0, 500000000⟩).2.ts_tcg = ⟨1, 0⟩
    ∧ ⌊((total_ns ⟨0, 500000000⟩ : Int) : ℝ)
        + (kLB : ℝ) * (exJd - kT0) * 86400 * 1.0e9⌋ = 22042896349 := by
  have hc : (((1042896349 : Int) : ℝ) > 1.0e9) := by norm_num
  have h9 : toLong (((1042896349 : Int) : ℝ) - 1.0e9) = 42896349 := by
    rw [toLong_sub_1e9]
    norm_num
  refine ⟨?_, ?_, ?_⟩
  · unfold Time.tt2tcb
    simp only [exJd_tcb_floor, exJd_tcb_nsec, if_pos hc, h9]
    rfl
  · unfold Time.tt2tcb
    simp only [exJd_tcb_floor, exJd_tcb_nsec, if_pos hc, h9]
    rfl
  · rw [Int.floor_eq_iff]
    simp only [total_ns, exJd, kLB, kT0]
    norm_num

/-- Claim C24 fails on the code. At 0 s 500 000 000 ns with DUT1 = 0.5 s the
nanoseconds of `utc2ut1` reach exactly 1e9; the test `tv_nsec > 1.0e9` of the
carry is strict, so no carry is made and the instant returned has
`tv_nsec = 1000000000`, outside `[0, 1e9)`. -/
theorem utc2ut1_nsec_not_normalized :
    (Time.utc2ut1 (exTime (0.5 : ℝ)) ⟨0, 500000000⟩).1 = ⟨0, 1000000000⟩
    ∧ ¬ ((Time.utc2ut1 (exTime (0.5 : ℝ)) ⟨0, 500000000⟩).1.tv_nsec < 1000000000) := by
  have e : toLong (((500000000 : Int) : ℝ) + (exTime (0.5 : ℝ)).dut1 * 1.0e9)
      = 1000000000 := by
    have h : ((500000000 : Int) : ℝ) + (exTime (0.5 : ℝ)).dut1 * 1.0e9
        = ((1000000000 : Int) : ℝ) := by
      simp only [exTime]
      norm_num
    rw [h, toLong_intCast]
  have hc : ¬ (((1000000000 : Int) : ℝ) > 1.0e9) := by norm_num
  have hn : ¬ ((1000000000 : Int) < 0) := by decide
  have h1 : (Time.utc2ut1 (exTime (0.5 : ℝ)) ⟨0, 500000000⟩).1 = ⟨0, 1000000000⟩ := by
    unfold Time.utc2ut1
    simp only [e, if_neg hc, if_neg hn]
  refine ⟨h1, ?_⟩
  rw [h1]
  decide

section SunMoonLemmas

variable {K : Type} [LinearOrderedField K]
variable (sqrt : K → K) (jpl : K → Jpl K)

theorem calc_t1_update_congr (a b : Apos K) (t2 : K) (s : T1Vars K)
    (hp : a.p_e 1 = b.p_e 1) (hau : a.au = b.au) :
    calc_t1_update sqrt a t2 s = calc_t1_update sqrt b t2 s := by
  simp only [calc_t1_update, hp, hau]

theorem calc_t1_loop_congr (a b : Apos K) (target : Nat) (t2 : K)
    (hp : a.p_e 1 = b.p_e 1) (hau : a.au = b.au) :
    ∀ (n : Nat) (s : T1Vars K), 11 - s.m = n →
      calc_t1_loop sqrt jpl a target t2 s = calc_t1_loop sqrt jpl b target t2 s := by
  intro n
  induction n with
  | zero =>
    intro s hs
    have hm : (calc_t1_update sqrt b t2 s).m > 10 := by
      rw [calc_t1_update_m]
      omega
    conv_lhs => rw [calc_t1_loop]
    conv_rhs => rw [calc_t1_loop]
    rw [calc_t1_update_congr sqrt a b t2 s hp hau]
    by_cases hdf : s.df > 1.0e-10
    · rw [if_pos hdf, if_pos hdf, if_pos hm, if_pos hm]
    · rw [if_neg hdf, if_neg hdf]
  | succ n ih =>
    intro s hs
    conv_lhs => rw [calc_t1_loop]
    conv_rhs => rw [calc_t1_loop]
    rw [calc_t1_update_congr sqrt a b t2 s hp hau]
    by_cases hdf : s.df > 1.0e-10
    · rw [if_pos hdf, if_pos hdf]
      by_cases hm : (calc_t1_update sqrt b t2 s).m > 10
      · rw [if_pos hm, if_pos hm]
      · rw [if_neg hm, if_neg hm]
        apply ih
        show 11 - (calc_t1_update sqrt b t2 s).m = n
        rw [calc_t1_update_m]
        omega
    · rw [if_neg hdf, if_neg hdf]

theorem calc_t1_congr (a b : Apos K) (target : Nat) (h : t2_state a = t2_state b) :
    calc_t1 sqrt jpl a target = calc_t1 sqrt jpl b target := by
  simp only [t2_state, Prod.mk.injEq] at h
  obtain ⟨-, ⟨hjd, -, hau⟩, -, ⟨hpe, -⟩, ⟨hpm, hvm⟩, ⟨hps, hvs⟩, -⟩ := h
  have hinit : calc_t1_init a target = calc_t1_init b target := by
    simp only [calc_t1_init, hjd, hpm, hvm, hps, hvs]
  unfold calc_t1 calc_t1_run
  rw [hinit, hjd]
  cases calc_t1_init b target with
  | none => rfl
  | some s =>
    simp only []
    rw [calc_t1_loop_congr sqrt jpl a b target b.jd hpe hau (11 - s.m) s rfl]

end SunMoonLemmas

theorem t2_state_calc_val_t1 {K : Type} (jpl : K → Jpl K) (a : Apos K) (t1 : K) :
    t2_state (calc_val_t1 jpl a t1) = t2_state a := by
  simp only [t2_state, calc_val_t1]
  simp only [Function.update_noteq (show (1 : Fin 2) ≠ 0 by decide)]

theorem t2_state_eps {K : Type} (a : Apos K) (e : K) :
    t2_state { a with eps := e } = t2_state a := rfl

section SunMoonFrame

variable {K : Type} [LinearOrderedField K] [FloorRing K]
variable (sqrt : K → K) (jpl : K → Jpl K)
variable (calc_ob : K → K) (sin cos atan asin : K → K)
variable (rotate : Coord K → Mat3 K → Coord K)
variable (rect2pol rect_eq2ec : K → Coord K → Coord K)

theorem sun_t2_state (a : Apos K) :
    (sun sqrt jpl calc_ob sin cos atan asin rotate rect2pol rect_eq2ec a).map
        (fun r => t2_state r.2)
      = (sun sqrt jpl calc_ob sin cos atan asin rotate rect2pol rect_eq2ec a).map
        (fun _ => t2_state a) := by
  unfold sun sun_pos_sun
  cases calc_t1 sqrt jpl a 11 with
  | error msg => rfl
  | ok t1 =>
    simp only [Except.map]
    rw [t2_state_eps, t2_state_calc_val_t1]

theorem moon_t2_state (a : Apos K) :
    (moon sqrt jpl calc_ob sin cos atan asin rotate rect2pol rect_eq2ec a).map
        (fun r => t2_state r.2)
      = (moon sqrt jpl calc_ob sin cos atan asin rotate rect2pol rect_eq2ec a).map
        (fun _ => t2_state a) := by
  unfold moon moon_pos_moon
  cases calc_t1 sqrt jpl a 10 with
  | error msg => rfl
  | ok t1 =>
    simp only [Except.map]
    rw [t2_state_eps, t2_state_calc_val_t1]

theorem sun_congr (a b : Apos K) (h : t2_state a = t2_state b) :
    (sun sqrt jpl calc_ob sin cos atan asin rotate rect2pol rect_eq2ec a).map Prod.fst
      = (sun sqrt jpl calc_ob sin cos atan asin rotate rect2pol rect_eq2ec b).map
          Prod.fst := by
  unfold sun sun_pos_sun
  rw [calc_t1_congr sqrt jpl a b 11 h]
  cases calc_t1 sqrt jpl b 11 with
  | error msg => rfl
  | ok t1 =>
    have hA : t2_state (calc_val_t1 jpl a t1) = t2_state (calc_val_t1 jpl b t1) := by
      rw [t2_state_calc_val_t1, t2_state_calc_val_t1, h]
    have hS : (calc_val_t1 jpl a t1).p_s 0 = (calc_val_t1 jpl b t1).p_s 0 := by
      simp only [calc_val_t1, Function.update_same]
    simp only [Except.map]
    generalize calc_val_t1 jpl a t1 = A at hA hS ⊢
    generalize calc_val_t1 jpl b t1 = B at hA hS ⊢
    simp only [t2_state, Prod.mk.injEq] at hA
    obtain ⟨⟨h1, h2⟩, ⟨-, h4, h5⟩, ⟨h6, -, h8⟩, ⟨h9, h10⟩, -, -, ⟨h11, -⟩⟩ := hA
    simp only [Except.map, conv_lorentz, h1, h2, h4, h5, h6, h8, h9, h10, h11, hS]

theorem moon_congr (a b : Apos K) (h : t2_state a = t2_state b) :
    (moon sqrt jpl calc_ob sin cos atan asin rotate rect2pol rect_eq2ec a).map Prod.fst
      = (moon sqrt jpl calc_ob sin cos atan asin rotate rect2pol rect_eq2ec b).map
          Prod.fst := by
  unfold moon moon_pos_moon
  rw [calc_t1_congr sqrt jpl a b 10 h]
  cases calc_t1 sqrt jpl b 10 with
  | error msg => rfl
  | ok t1 =>
    have hA : t2_state (calc_val_t1 jpl a t1) = t2_state (calc_val_t1 jpl b t1) := by
      rw [t2_state_calc_val_t1, t2_state_calc_val_t1, h]
    have hS : (calc_val_t1 jpl a t1).p_m 0 = (calc_val_t1 jpl b t1).p_m 0 := by
      simp only [calc_val_t1, Function.update_same]
    simp only [Except.map]
    generalize calc_val_t1 jpl a t1 = A at hA hS ⊢
    generalize calc_val_t1 jpl b t1 = B at hA hS ⊢
    simp only [t2_state, Prod.mk.injEq] at hA
    obtain ⟨⟨h1, h2⟩, ⟨-, h4, h5⟩, ⟨h6, h7, -⟩, ⟨h9, h10⟩, -, -, ⟨-, h12⟩⟩ := hA
    simp only [Except.map, conv_lorentz, h1, h2, h4, h5, h6, h7, h9, h10, h12, hS]

theorem except_ok_of_map {α β : Type} (x : Except String α) (f g : α → β)
    (h : x.map f = x.map g) (r : α) (hr : x = .ok r) : f r = g r := by
  subst hr
  simp only [Except.map, Except.ok.injEq] at h
  exact h

end SunMoonFrame

/-- Claim C28. For every ephemeris provider `jpl` (a function of the Julian
Day) and every object, `sun` and `moon` leave the state at time `t2` as it
was (`t2_state`: the tables, `jd`, `jcn`, `au`, the radii, positions and
velocities at index 1, the two distances); so `sun` returns the same
`Position` after a call of `moon` as before it, `moon` the same after a call
of `sun`, and a second call of `sun` or of `moon` returns the `Position` of
the first. -/
theorem sun_moon_keep_t2_state {K : Type} [LinearOrderedField K] [FloorRing K]
    (sqrt : K → K) (jpl : K → Jpl K) (calc_ob : K → K) (sin cos atan asin : K → K)
    (rotate : Coord K → Mat3 K → Coord K) (rect2pol rect_eq2ec : K → Coord K → Coord K)
    (a : Apos K) :
    (sun sqrt jpl calc_ob sin cos atan asin rotate rect2pol rect_eq2ec a).map
        (fun r => t2_state r.2)
      = (sun sqrt jpl calc_ob sin cos atan asin rotate rect2pol rect_eq2ec a).map
        (fun _ => t2_state a)
    ∧ (moon sqrt jpl calc_ob sin cos atan asin rotate rect2pol rect_eq2ec a).map
        (fun r => t2_state r.2)
      = (moon sqrt jpl calc_ob sin cos atan asin rotate rect2pol rect_eq2ec a).map
        (fun _ => t2_state a)
    ∧ (∀ r, moon sqrt jpl calc_ob sin cos atan asin rotate rect2pol rect_eq2ec a = .ok r →
        (sun sqrt jpl calc_ob sin cos atan asin rotate rect2pol rect_eq2ec r.2).map Prod.fst
          = (sun sqrt jpl calc_ob sin cos atan asin rotate rect2pol rect_eq2ec a).map
              Prod.fst)
    ∧ (∀ r, sun sqrt jpl calc_ob sin cos atan asin rotate rect2pol rect_eq2ec a = .ok r →
        (moon sqrt jpl calc_ob sin cos atan asin rotate rect2pol rect_eq2ec r.2).map Prod.fst
          = (moon sqrt jpl calc_ob sin cos atan asin rotate rect2pol rect_eq2ec a).map
              Prod.fst)
    ∧ (∀ r, sun sqrt jpl calc_ob sin cos atan asin rotate rect2pol rect_eq2ec a = .ok r →
        (sun sqrt jpl calc_ob sin cos atan asin rotate rect2pol rect_eq2ec r.2).map Prod.fst
          = .ok r.1)
    ∧ (∀ r, moon sqrt jpl calc_ob sin cos atan asin rotate rect2pol rect_eq2ec a = .ok r →
        (moon sqrt jpl calc_ob sin cos atan asin rotate rect2pol rect_eq2ec r.2).map Prod.fst
          = .ok r.1) := by
  have hs := sun_t2_state sqrt jpl calc_ob sin cos atan asin rotate rect2pol rect_eq2ec a
  have hm := moon_t2_state sqrt jpl calc_ob sin cos atan asin rotate rect2pol rect_eq2ec a
  refine ⟨hs, hm, ?_, ?_, ?_, ?_⟩
  · intro r hr
    exact sun_congr sqrt jpl calc_ob sin cos atan asin rotate rect2pol rect_eq2ec r.2 a
      (except_ok_of_map _ _ _ hm r hr)
  · intro r hr
    exact moon_congr sqrt jpl calc_ob sin cos atan asin rotate rect2pol rect_eq2ec r.2 a
      (except_ok_of_map _ _ _ hs r hr)
  · intro r hr
    rw [sun_congr sqrt jpl calc_ob sin cos atan asin rotate rect2pol rect_eq2ec r.2 a
      (except_ok_of_map _ _ _ hs r hr), hr]
    rfl
  · intro r hr
    rw [moon_congr sqrt jpl calc_ob sin cos atan asin rotate rect2pol rect_eq2ec r.2 a
      (except_ok_of_map _ _ _ hm r hr), hr]
    rfl

/-- With the provider `exJplMoving` both `sun` and `moon` return, and `sun`
called after `moon` returns the `Position` that it returns when called
first. -/
theorem sun_moon_keep_t2_state_witness :
    ∃ rs rm,
      sun Real.sqrt exJplMoving (fun _ => 0) Real.sin Real.cos Real.arctan Real.arcsin
          (fun c _ => c) (fun _ c => c) (fun _ c => c)
          (calc_val_t2 Real.sqrt exJplMoving exApos) = .ok rs
      ∧ moon Real.sqrt exJplMoving (fun _ => 0) Real.sin Real.cos Real.arctan Real.arcsin
          (fun c _ => c) (fun _ c => c) (fun _ c => c)
          (calc_val_t2 Real.sqrt exJplMoving exApos) = .ok rm
      ∧ (sun Real.sqrt exJplMoving (fun _ => 0) Real.sin Real.cos Real.arctan Real.arcsin
          (fun c _ => c) (fun _ c => c) (fun _ c => c) rm.2).map Prod.fst = .ok rs.1 := by
  have h11 := calc_t1_moving 11 (Or.inr rfl)
  have h10 := calc_t1_moving 10 (Or.inl rfl)
  have hs : ∃ rs, sun Real.sqrt exJplMoving (fun _ => 0) Real.sin Real.cos Real.arctan
      Real.arcsin (fun c _ => c) (fun _ c => c) (fun _ c => c)
      (calc_val_t2 Real.sqrt exJplMoving exApos) = .ok rs := by
    unfold sun sun_pos_sun
    rw [h11]
    exact ⟨_, rfl⟩
  have hm : ∃ rm, moon Real.sqrt exJplMoving (fun _ => 0) Real.sin Real.cos Real.arctan
      Real.arcsin (fun c _ => c) (fun _ c => c) (fun _ c => c)
      (calc_val_t2 Real.sqrt exJplMoving exApos) = .ok rm := by
    unfold moon moon_pos_moon
    rw [h10]
    exact ⟨_, rfl⟩
  obtain ⟨rs, hrs⟩ := hs
  obtain ⟨rm, hrm⟩ := hm
  refine ⟨rs, rm, hrs, hrm, ?_⟩
  rw [(sun_moon_keep_t2_state Real.sqrt exJplMoving (fun _ => 0) Real.sin Real.cos
    Real.arctan Real.arcsin (fun c _ => c) (fun _ c => c) (fun _ c => c)
    (calc_val_t2 Real.sqrt exJplMoving exApos)).2.2.1 rm hrm, hrs]
  rfl

section FileLemmas

variable {K : Type} [LinearOrderedField K]

theorem read_rec_length (limit : Nat) (line : List K) :
    ∀ c, (read_rec limit line c).length = line.length := by
  induction line with
  | nil => intro c; rfl
  | cons s rest ih =>
    intro c
    simp only [read_rec, List.length_cons, ih]

theorem read_lines_eq (limit : Nat) (lines : List (List K)) :
    ∀ data, read_lines limit lines data
      = data ++ (lines.map (fun l => read_rec limit l 0)).filter (fun r => r.length ≠ 0) := by
  induction lines with
  | nil => intro data; simp [read_lines]
  | cons line rest ih =>
    intro data
    simp only [read_lines, ih, List.map_cons]
    by_cases h : (read_rec limit line 0).length ≠ 0
    · rw [if_pos h, List.filter_cons_of_pos (by simpa using h)]
      simp
    · rw [if_neg h, List.filter_cons_of_neg (by simpa using h)]

end FileLemmas

/-- Claim C30, as the code has it. `get_param_ls` and `get_param_pl` check no
number of columns: when the file is opened they append to the table every
line that has at least one number, with the numbers of columns it has in the
file (`read_rec` keeps the length of a line), and return `true` when the
table is not empty; they return `false` only for a file that cannot be
opened or a table left empty. -/
theorem get_param_keeps_every_row (lines data : List (List ℝ)) :
    get_param_ls (some lines) data
        = (decide ((data ++ (lines.map (fun l => read_rec 4 l 0)).filter
              (fun r => r.length ≠ 0)).length ≠ 0),
            data ++ (lines.map (fun l => read_rec 4 l 0)).filter (fun r => r.length ≠ 0))
    ∧ get_param_pl (some lines) data
        = (decide ((data ++ (lines.map (fun l => read_rec 13 l 0)).filter
              (fun r => r.length ≠ 0)).length ≠ 0),
            data ++ (lines.map (fun l => read_rec 13 l 0)).filter (fun r => r.length ≠ 0))
    ∧ (∀ (limit : Nat) (line : List ℝ) (c : Nat),
        (read_rec limit line c).length = line.length)
    ∧ get_param_ls none data = (false, data)
    ∧ get_param_pl none data = (false, data) := by
  refine ⟨?_, ?_, fun limit line c => read_rec_length limit line c, rfl, rfl⟩
  · simp only [get_param_ls, read_lines_eq]
  · simp only [get_param_pl, read_lines_eq]

/-- Claim C30 does not hold: for a file whose only line has three numbers,
`get_param_ls` and `get_param_pl` return `true` and the table with that row
of three columns. -/
theorem get_param_accepts_short_row :
    get_param_ls (some [[(1 : ℝ), 2, 3]]) [] = (true, [[1, 2, 3]])
    ∧ get_param_pl (some [[(1 : ℝ), 2, 3]]) [] = (true, [[1, 2, 3]]) := by
  constructor <;>
    simp [get_param_ls, get_param_pl, read_lines, read_rec]

/-- Claim C29 fails on the code. For the names `["AU", "RE"]` and the name
`"ASUN"`, which is not among them, the loop of `get_cval` ends with
`idx = 2`, the number of names, and the function reads `cvals[2]`: with two
values this read is outside `cvals` and has no defined value, with three
values it is the third value; no error is raised in either case. With the
provider `exJplMoving`, which has no constants, `calc_val_t2` ends with no
radius of the Sun. For the name `"RE"`, the second of the names, the function
returns the second value. -/
theorem get_cval_absent_name :
    get_cval_idx "ASUN" ["AU", "RE"] 0 = 2
    ∧ get_cval ["AU", "RE"] [(1.5 : ℝ), 2.5] "ASUN" = none
    ∧ get_cval ["AU", "RE"] [(1.5 : ℝ), 2.5, 3.5] "ASUN" = some 3.5
    ∧ (calc_val_t2 Real.sqrt exJplMoving (exApos : Apos ℝ)).r_s = none
    ∧ get_cval ["AU", "RE"] [(1.5 : ℝ), 2.5] "RE" = some 2.5 := by
  have h : get_cval_idx "ASUN" ["AU", "RE"] 0 = 2 := by decide
  have h2 : get_cval_idx "RE" ["AU", "RE"] 0 = 1 := by decide
  refine ⟨h, ?_, ?_, rfl, ?_⟩
  · simp only [get_cval, h]
    rfl
  · simp only [get_cval, h]
    rfl
  · simp only [get_cval, h2]
    rfl


/-- Claim C34. For target 10 or 11, a positive AU, a positive distance `d`
between the target and Earth at `t2` and `c + (r.v)/d > 0` (`r` the position
of the target relative to Earth, `v` its velocity, both at `t2`,
`c = 299792458 * 86400 / (au * 1000)`), `calc_t1` makes one pass through its
loop and returns `t2 - d / (c + (r.v)/d)`, whatever the provider returns: the
step of that pass is negative and fails the test `df > 1.0e-10`. -/
theorem calc_t1_single_pass (jpl : ℝ → Jpl ℝ) (a : Apos ℝ) (target : Nat)
    (htarget : target = 10 ∨ target = 11) (hau : 0 < a.au)
    (hd : 0 < calc_dist Real.sqrt (if target = 10 then a.p_m 1 else a.p_s 1) (a.p_e 1))
    (hc : 0 < 299792458 * 86400 / (a.au * 1000)
      + (((if target = 10 then a.p_m 1 else a.p_s 1).x - (a.p_e 1).x)
            * (if target = 10 then a.v_m 1 else a.v_s 1).x
          + ((if target = 10 then a.p_m 1 else a.p_s 1).y - (a.p_e 1).y)
            * (if target = 10 then a.v_m 1 else a.v_s 1).y
          + ((if target = 10 then a.p_m 1 else a.p_s 1).z - (a.p_e 1).z)
            * (if target = 10 then a.v_m 1 else a.v_s 1).z)
        / calc_dist Real.sqrt (if target = 10 then a.p_m 1 else a.p_s 1) (a.p_e 1)) :
    calc_t1 Real.sqrt jpl a target
        = .ok (a.jd
          - calc_dist Real.sqrt (if target = 10 then a.p_m 1 else a.p_s 1) (a.p_e 1)
            / (299792458 * 86400 / (a.au * 1000)
              + (((if target = 10 then a.p_m 1 else a.p_s 1).x - (a.p_e 1).x)
                    * (if target = 10 then a.v_m 1 else a.v_s 1).x
                  + ((if target = 10 then a.p_m 1 else a.p_s 1).y - (a.p_e 1).y)
                    * (if target = 10 then a.v_m 1 else a.v_s 1).y
                  + ((if target = 10 then a.p_m 1 else a.p_s 1).z - (a.p_e 1).z)
                    * (if target = 10 then a.v_m 1 else a.v_s 1).z)
                / calc_dist Real.sqrt (if target = 10 then a.p_m 1 else a.p_s 1)
                    (a.p_e 1)))
    ∧ ∃ r, calc_t1_run Real.sqrt jpl a target = some r
        ∧ r.vars.m = 1 ∧ r.thrown = none ∧ r.vars.df < 0 := by
  have _hpos := hau
  generalize hP : (if target = 10 then a.p_m 1 else a.p_s 1) = P at hd hc ⊢
  generalize hV : (if target = 10 then a.v_m 1 else a.v_s 1) = V at hc ⊢
  have hinit : calc_t1_init a target = some ⟨a.jd, P, V, 1.0, 0⟩ := by
    rcases htarget with h | h
    · subst h
      rw [if_pos rfl] at hP hV
      subst hP
      subst hV
      simp only [calc_t1_init, if_pos]
    · subst h
      have h11 : ¬ ((11 : Nat) = 10) := by decide
      rw [if_neg h11] at hP hV
      subst hP
      subst hV
      simp only [calc_t1_init, if_neg h11, if_pos]
  generalize hD : calc_dist Real.sqrt P (a.p_e 1) = D at hd hc ⊢
  generalize hW : (P.x - (a.p_e 1).x) * V.x + (P.y - (a.p_e 1).y) * V.y
    + (P.z - (a.p_e 1).z) * V.z = W at hc ⊢
  have hu : calc_t1_update Real.sqrt a a.jd ⟨a.jd, P, V, 1.0, 0⟩
      = ⟨a.jd + -D / (299792458 * 86400 / (a.au * 1000) + W / D), P, V,
          -D / (299792458 * 86400 / (a.au * 1000) + W / D), 1⟩ := by
    simp only [calc_t1_update, hD, hW, kC, kDaySec]
    norm_num
  have hneg : -D / (299792458 * 86400 / (a.au * 1000) + W / D) < 0 :=
    div_neg_of_neg_of_pos (by linarith) hc
  have hstep : ¬ (calc_t1_update Real.sqrt a a.jd ⟨a.jd, P, V, 1.0, 0⟩).df > 1.0e-10 := by
    rw [hu]
    show ¬ (-D / (299792458 * 86400 / (a.au * 1000) + W / D) > 1.0e-10)
    have h10 : (0 : ℝ) < 1.0e-10 := by norm_num
    linarith
  have h1 : (1.0 : ℝ) > 1.0e-10 := by norm_num
  have hloop := calc_t1_loop_one_pass Real.sqrt jpl a target a.jd
    ⟨a.jd, P, V, 1.0, 0⟩ h1 (Nat.zero_lt_succ 9) hstep
  constructor
  · rw [calc_t1_of_first_pass Real.sqrt jpl a target _ hinit hstep, hu]
    congr 1
    ring
  · have hrun : calc_t1_run Real.sqrt jpl a target
        = some ⟨calc_t1_query jpl target
            (calc_t1_update Real.sqrt a a.jd ⟨a.jd, P, V, 1.0, 0⟩), none⟩ := by
      simp only [calc_t1_run, hinit]
      rw [hloop]
    refine ⟨_, hrun, ?_, rfl, ?_⟩
    · simp only [calc_t1_query]
      rw [hu]
    · simp only [calc_t1_query]
      rw [hu]
      exact hneg

theorem exStill_t2 :
    (calc_val_t2 Real.sqrt exJplStill (exApos : Apos ℝ)).au = exAu
    ∧ (calc_val_t2 Real.sqrt exJplStill (exApos : Apos ℝ)).p_e 1 = ⟨0, 0, 0⟩
    ∧ (calc_val_t2 Real.sqrt exJplStill (exApos : Apos ℝ)).p_s 1 = ⟨1, 0, 0⟩
    ∧ (calc_val_t2 Real.sqrt exJplStill (exApos : Apos ℝ)).v_s 1 = ⟨0, 0, 0⟩ := by
  refine ⟨rfl, ?_, ?_, ?_⟩ <;>
    simp [calc_val_t2, exJplStill]

/-- The hypotheses of `calc_t1_single_pass` are met by the Sun at rest one AU
from Earth (provider `exJplStill`): one pass, and `t1 = t2 - 1 / c`. -/
theorem calc_t1_single_pass_witness :
    ∃ r, calc_t1_run Real.sqrt exJplStill (calc_val_t2 Real.sqrt exJplStill exApos) 11
        = some r ∧ r.vars.m = 1 ∧ r.thrown = none ∧ r.vars.df < 0 := by
  obtain ⟨hau, hpe, hps, hvs⟩ := exStill_t2
  have h11 : ¬ ((11 : Nat) = 10) := by decide
  have hd1 : calc_dist Real.sqrt (⟨1, 0, 0⟩ : Coord ℝ) ⟨0, 0, 0⟩ = 1 := by
    simp [calc_dist]
  exact (calc_t1_single_pass exJplStill (calc_val_t2 Real.sqrt exJplStill exApos) 11
    (Or.inr rfl)
    (by rw [hau]; unfold exAu; norm_num)
    (by rw [if_neg h11, hps, hpe, hd1]; norm_num)
    (by
      rw [if_neg h11, if_neg h11, hps, hpe, hvs, hau, hd1]
      unfold exAu
      norm_num)).2

theorem exFast_t2 :
    (calc_val_t2 Real.sqrt exJplFast (exApos : Apos ℝ)).au = exAu
    ∧ (calc_val_t2 Real.sqrt exJplFast (exApos : Apos ℝ)).jd = exJd
    ∧ (calc_val_t2 Real.sqrt exJplFast (exApos : Apos ℝ)).p_e 1 = ⟨0, 0, 0⟩
    ∧ (calc_val_t2 Real.sqrt exJplFast (exApos : Apos ℝ)).p_s 1 = ⟨exC, 0, 0⟩
    ∧ (calc_val_t2 Real.sqrt exJplFast (exApos : Apos ℝ)).v_s 1 = ⟨-2 * exC, 0, 0⟩ := by
  refine ⟨rfl, rfl, ?_, ?_, ?_⟩ <;>
    simp [calc_val_t2, exJplFast, exApos]

theorem exFast_pass_1 :
    calc_t1_update Real.sqrt (calc_val_t2 Real.sqrt exJplFast (exApos : Apos ℝ)) exJd
        ⟨exJd, ⟨exC, 0, 0⟩, ⟨-2 * exC, 0, 0⟩, 1.0, 0⟩
      = ⟨exJd + 1, ⟨exC, 0, 0⟩, ⟨-2 * exC, 0, 0⟩, 1, 1⟩ := by
  obtain ⟨hau, -, hpe, -, -⟩ := exFast_t2
  have hc := exC_pos
  have hD : calc_dist Real.sqrt (⟨exC, 0, 0⟩ : Coord ℝ) ⟨0, 0, 0⟩ = exC := by
    have hsq : Real.sqrt (exC * exC) = exC := Real.sqrt_mul_self hc.le
    simp [calc_dist, hsq]
  have hce : ((kC * kDaySec : Nat) : ℝ) / (exAu * 1000.0) = exC := rfl
  have hX : (((kC * kDaySec : Nat) : ℝ) / exAu * ((exJd : ℝ) - exJd) - exC)
      / (exC + ((exC - 0) * (-2 * exC) + (0 - 0) * 0 + (0 - 0) * 0) / exC) = 1 := by
    have hne : (exC : ℝ) ≠ 0 := hc.ne'
    have h1 : ((exC - 0) * (-2 * exC) + (0 - 0) * 0 + (0 - 0) * 0) / (exC : ℝ)
        = -2 * exC := by
      rw [div_eq_iff hne]
      ring
    have h2 : ((kC * kDaySec : Nat) : ℝ) / exAu * ((exJd : ℝ) - exJd) - exC = -exC := by
      rw [sub_self, mul_zero, zero_sub]
    have h3 : (exC : ℝ) + -2 * exC = -exC := by ring
    rw [h1, h2, h3, div_self (neg_ne_zero.mpr hne)]
  simp only [calc_t1_update, hau, hpe, hD, hce, hX]

theorem exFast_pass_2 :
    calc_t1_update Real.sqrt (calc_val_t2 Real.sqrt exJplFast (exApos : Apos ℝ)) exJd
        ⟨exJd + 1, ⟨exC, 0, 0⟩, ⟨0, 0, 0⟩, 1, 1⟩
      = ⟨exJd - 1000, ⟨exC, 0, 0⟩, ⟨0, 0, 0⟩, -1001, 2⟩ := by
  obtain ⟨hau, -, hpe, -, -⟩ := exFast_t2
  have hc := exC_pos
  have hD : calc_dist Real.sqrt (⟨exC, 0, 0⟩ : Coord ℝ) ⟨0, 0, 0⟩ = exC := by
    have hsq : Real.sqrt (exC * exC) = exC := Real.sqrt_mul_self hc.le
    simp [calc_dist, hsq]
  have hce : ((kC * kDaySec : Nat) : ℝ) / (exAu * 1000.0) = exC := rfl
  have hX : (((kC * kDaySec : Nat) : ℝ) / exAu * ((exJd : ℝ) - (exJd + 1)) - exC)
      / (exC + ((exC - 0) * 0 + (0 - 0) * 0 + (0 - 0) * 0) / exC) = -1001 := by
    have hne : (exC : ℝ) ≠ 0 := hc.ne'
    have hk : ((kC * kDaySec : Nat) : ℝ) / exAu = 1000 * exC := by
      simp only [exC, exAu, kC, kDaySec]
      norm_num
    have h1 : ((exC - 0) * 0 + (0 - 0) * 0 + (0 - 0) * 0) / (exC : ℝ) = 0 := by
      rw [div_eq_iff hne]
      ring
    have h2 : 1000 * (exC : ℝ) * ((exJd : ℝ) - (exJd + 1)) - exC = -1001 * exC := by ring
    rw [hk, h1, h2, add_zero, mul_div_assoc, div_self hne, mul_one]
  simp only [calc_t1_update, hau, hpe, hD, hce, hX]
  congr 1
  ring

/-- Claim C31 fails on the code. With the provider `exJplFast` the first step
of `calc_t1` for the Sun is `+1` day, so the loop makes a second pass with
`t2 - t1 = -1`. In that pass the code multiplies `t2 - t1` by
`kC * kDaySec / au`, which is `1000 * c`, and divides by `c + (r.v)/|r|` with
`c = kC * kDaySec / (au * 1000)`: the step is `-1001` and `calc_t1` returns
`t2 - 1000`. The Newton step with the same `c` in the residual and in the
derivative is `-2` and gives `t2 - 1`. -/
theorem calc_t1_second_pass_unit_mismatch :
    calc_t1 Real.sqrt exJplFast (calc_val_t2 Real.sqrt exJplFast exApos) 11
      = .ok ((exJd : ℝ) - 1000)
    ∧ calc_t1_iter Real.sqrt exJplFast (calc_val_t2 Real.sqrt exJplFast exApos) 11
        ⟨exJd, ⟨exC, 0, 0⟩, ⟨-2 * exC, 0, 0⟩, 1.0, 0⟩ 1
      = ⟨(exJd : ℝ) + 1, ⟨exC, 0, 0⟩, ⟨0, 0, 0⟩, 1, 1⟩
    ∧ (calc_t1_update Real.sqrt (calc_val_t2 Real.sqrt exJplFast exApos) exJd
        ⟨(exJd : ℝ) + 1, ⟨exC, 0, 0⟩, ⟨0, 0, 0⟩, 1, 1⟩).t1 = exJd - 1000
    ∧ calc_t1_update_spec Real.sqrt (calc_val_t2 Real.sqrt exJplFast exApos) exJd
        ⟨(exJd : ℝ) + 1, ⟨exC, 0, 0⟩, ⟨0, 0, 0⟩, 1, 1⟩ = exJd - 1 := by
  obtain ⟨hau, hjd, hpe, hps, hvs⟩ := exFast_t2
  have hc := exC_pos
  have hne : (exC : ℝ) ≠ 0 := hc.ne'
  have hq : calc_t1_query exJplFast 11
      (⟨(exJd : ℝ) + 1, ⟨exC, 0, 0⟩, ⟨-2 * exC, 0, 0⟩, 1, 1⟩ : T1Vars ℝ)
      = ⟨(exJd : ℝ) + 1, ⟨exC, 0, 0⟩, ⟨0, 0, 0⟩, 1, 1⟩ := by
    simp [calc_t1_query, exJplFast]
  have hiter : calc_t1_iter Real.sqrt exJplFast
      (calc_val_t2 Real.sqrt exJplFast exApos) 11
      ⟨exJd, ⟨exC, 0, 0⟩, ⟨-2 * exC, 0, 0⟩, 1.0, 0⟩ 1
      = ⟨(exJd : ℝ) + 1, ⟨exC, 0, 0⟩, ⟨0, 0, 0⟩, 1, 1⟩ := by
    simp only [calc_t1_iter, hjd, exFast_pass_1, hq]
  refine ⟨?_, hiter, ?_, ?_⟩
  · have hinit : calc_t1_init (calc_val_t2 Real.sqrt exJplFast (exApos : Apos ℝ)) 11
        = some ⟨exJd, ⟨exC, 0, 0⟩, ⟨-2 * exC, 0, 0⟩, 1.0, 0⟩ := by
      have h11 : ¬ ((11 : Nat) = 10) := by decide
      simp only [calc_t1_init, if_neg h11, if_pos, hjd, hps, hvs]
    have h1 : (1.0 : ℝ) > 1.0e-10 := by norm_num
    have h1b : (1 : ℝ) > 1.0e-10 := by norm_num
    have hm : ¬ ((1 : Nat) > 10) := by decide
    have hstep : ¬ (calc_t1_update Real.sqrt (calc_val_t2 Real.sqrt exJplFast exApos) exJd
        ⟨(exJd : ℝ) + 1, ⟨exC, 0, 0⟩, ⟨0, 0, 0⟩, 1, 1⟩).df > 1.0e-10 := by
      rw [exFast_pass_2]
      norm_num
    have hloop2 := calc_t1_loop_one_pass Real.sqrt exJplFast
      (calc_val_t2 Real.sqrt exJplFast exApos) 11 exJd
      ⟨(exJd : ℝ) + 1, ⟨exC, 0, 0⟩, ⟨0, 0, 0⟩, 1, 1⟩ h1b (Nat.one_lt_succ_succ 8) hstep
    simp only [calc_t1, calc_t1_run, hinit, hjd]
    rw [calc_t1_loop, if_pos h1, exFast_pass_1, if_neg hm, hq, hloop2, exFast_pass_2]
    rfl
  · rw [exFast_pass_2]
  · have hD : calc_dist Real.sqrt (⟨exC, 0, 0⟩ : Coord ℝ) ⟨0, 0, 0⟩ = exC := by
      have hsq : Real.sqrt (exC * exC) = exC := Real.sqrt_mul_self hc.le
      simp [calc_dist, hsq]
    have hce : ((kC * kDaySec : Nat) : ℝ) / (exAu * 1000) = exC := by
      simp only [exC]
      norm_num
    simp only [calc_t1_update_spec, hau, hpe, hD, hce]
    have h1 : ((exC - 0) * 0 + (0 - 0) * 0 + (0 - 0) * 0) / (exC : ℝ) = 0 := by
      rw [div_eq_iff hne]
      ring
    have h2 : (exC : ℝ) * (exJd - (exJd + 1)) - exC = 2 * -exC := by ring
    rw [h1, add_zero, h2, mul_div_assoc, div_self (neg_ne_zero.mpr hne)]
    ring

theorem conv_lorentz_exAposOrbit :
    conv_lorentz Real.sqrt (exAposOrbit : Apos ℝ) ⟨0, 1, 0⟩
      = ⟨1 / 10000, Real.sqrt (1 - 1 / 10000), 0⟩ := by
  have hv := exAposOrbit_vec_v
  have hsq : Real.sqrt ((1 : ℝ) / 10000 * (1 / 10000)) = 1 / 10000 :=
    Real.sqrt_mul_self (by norm_num)
  have h10 : (1.0 : ℝ) = 1 := by norm_num
  simp only [conv_lorentz, calc_vel, inner_prod, exAposOrbit, hv, zero_div, hsq, h10,
    mul_zero, zero_mul, add_zero, zero_add, one_mul, mul_one, div_one]

/-- Claim C32 fails on the code. For Earth moving at one ten-thousandth of
the speed of light along the x axis (`|v| = 1/10000 < 1`) and the unit
direction `(0, 1, 0)`, the vector returned by `conv_lorentz` is
`(1/10000, sqrt (1 - 1/10000), 0)`: the square of its Euclidean norm is
`1 - 1/10000 + 1/100000000`, not 1, because the factor `f` is
`sqrt (1 - |v|)` and not `sqrt (1 - |v|^2)`. The position that `calc_pos`
makes of it with the distance 2 is not at the distance 2. -/
theorem conv_lorentz_not_unit :
    ((0 : ℝ) * 0 + 1 * 1 + 0 * 0 = 1)
    ∧ calc_vel Real.sqrt (⟨1 / 10000, 0, 0⟩ : Coord ℝ) = 1 / 10000
    ∧ (conv_lorentz Real.sqrt (exAposOrbit : Apos ℝ) ⟨0, 1, 0⟩).x
          * (conv_lorentz Real.sqrt (exAposOrbit : Apos ℝ) ⟨0, 1, 0⟩).x
        + (conv_lorentz Real.sqrt (exAposOrbit : Apos ℝ) ⟨0, 1, 0⟩).y
          * (conv_lorentz Real.sqrt (exAposOrbit : Apos ℝ) ⟨0, 1, 0⟩).y
        + (conv_lorentz Real.sqrt (exAposOrbit : Apos ℝ) ⟨0, 1, 0⟩).z
          * (conv_lorentz Real.sqrt (exAposOrbit : Apos ℝ) ⟨0, 1, 0⟩).z
        = 1 - 1 / 10000 + 1 / 100000000
    ∧ calc_vel Real.sqrt (conv_lorentz Real.sqrt (exAposOrbit : Apos ℝ) ⟨0, 1, 0⟩) ≠ 1
    ∧ calc_vel Real.sqrt
        (calc_pos (conv_lorentz Real.sqrt (exAposOrbit : Apos ℝ) ⟨0, 1, 0⟩) 2) ≠ 2 := by
  have hy : Real.sqrt (1 - 1 / 10000) * Real.sqrt (1 - 1 / 10000) = (1 : ℝ) - 1 / 10000 :=
    Real.mul_self_sqrt (by norm_num)
  have hn : (1 : ℝ) / 10000 * (1 / 10000) + Real.sqrt (1 - 1 / 10000)
      * Real.sqrt (1 - 1 / 10000) + 0 * 0 = 1 - 1 / 10000 + 1 / 100000000 := by
    rw [hy]
    norm_num
  refine ⟨by norm_num, ?_, ?_, ?_, ?_⟩
  · simp only [calc_vel, mul_zero, add_zero]
    exact Real.sqrt_mul_self (by norm_num)
  · rw [conv_lorentz_exAposOrbit]
    exact hn
  · rw [conv_lorentz_exAposOrbit]
    simp only [calc_vel]
    rw [hn]
    intro h
    have h2 := congrArg (fun x => x * x) h
    simp only [] at h2
    rw [Real.mul_self_sqrt (by norm_num)] at h2
    norm_num at h2
  · rw [conv_lorentz_exAposOrbit]
    simp only [calc_vel, calc_pos]
    have e : (1 : ℝ) / 10000 * 2 * (1 / 10000 * 2)
        + Real.sqrt (1 - 1 / 10000) * 2 * (Real.sqrt (1 - 1 / 10000) * 2) + 0 * 2 * (0 * 2)
        = 4 * (1 - 1 / 10000 + 1 / 100000000) := by
      rw [← hn]
      ring
    rw [e]
    intro h
    have h2 := congrArg (fun x => x * x) h
    simp only [] at h2
    rw [Real.mul_self_sqrt (by norm_num)] at h2
    norm_num at h2

/-- The two early exits of `calc_nutation`: were `calc_lunisolar` or
`calc_planetary` to return `false`, the statement `return EXIT_FAILURE` would
return `true` (a process exit status in a function returning `bool`) and
leave `dpsi` and `deps` (here 5 and 7) as they were.  No call reaches these
exits: see `calc_nutation_status`. -/
theorem calc_nutation_body_exit_failure :
    Nutation.calc_nutation_body ((false, 0, 0) : Bool × ℝ × ℝ) (true, 1, 2) 5 7
      = (true, 5, 7)
    ∧ Nutation.calc_nutation_body ((true, 1, 2) : Bool × ℝ × ℝ) (false, 0, 0) 5 7
      = (true, 5, 7) := by
  refine ⟨?_, ?_⟩
  · simp [Nutation.calc_nutation_body, EXIT_FAILURE]
  · simp [Nutation.calc_nutation_body, EXIT_FAILURE]

theorem total_ns_calc_tt (o : Time ℝ) (hfresh : o.ts_tai.tv_sec = 0)
    (h0 : 0 ≤ o.ts.tv_nsec) :
    total_ns (Time.calc_tt o).1 = total_ns o.ts - o.utc_tai * 1000000000 + 32183999999 := by
  have h0b : 0 ≤ (Time.utc2tai o o.ts).2.ts_tai.tv_nsec := h0
  unfold Time.calc_tt
  simp only [if_pos hfresh]
  rw [total_ns_tai2tt _ _ h0b]
  simp only [Time.utc2tai, total_ns]
  ring

theorem total_ns_calc_ut1 (o : Time ℝ) (n : Int) (hdut : o.dut1 * 1.0e9 = (n : ℝ)) :
    total_ns (Time.calc_ut1 o).1 = total_ns o.ts + n := by
  unfold Time.calc_ut1
  rw [total_ns_utc2ut1]
  have e : (o.ts.tv_nsec : ℝ) + o.dut1 * 1.0e9 = ((o.ts.tv_nsec + n : Int) : ℝ) := by
    rw [hdut]
    push_cast
    ring
  rw [e, toLong_intCast]
  unfold total_ns
  ring

/-- For an object as the constructor leaves it (`dlt_t` zero, TAI not yet
computed) with `utc_tai` not zero, `0 <= nsec` and a DUT1 of a whole number `n`
of nanoseconds, the value returned by `calc_dlt_t` is one nanosecond more
than the difference of the totals of the instants returned by `calc_tt` and
`calc_ut1`, in seconds. -/
theorem dlt_t_eq_tt_minus_ut1_add (localtime_r : Int → Tm) (o : Time ℝ) (n : Int)
    (hu : o.utc_tai ≠ 0) (hd : o.dlt_t = 0) (hfresh : o.ts_tai.tv_sec = 0)
    (hn0 : 0 ≤ o.ts.tv_nsec) (hdut : o.dut1 * 1.0e9 = (n : ℝ)) :
    (Time.calc_dlt_t localtime_r o).1
        = (((total_ns (Time.calc_tt o).1 : Int) : ℝ)
            - ((total_ns (Time.calc_ut1 o).1 : Int) : ℝ)) / 1.0e9 + 1 / 1.0e9 := by
  have hd0 : ¬ (o.dlt_t ≠ 0.0) := by
    rw [hd]
    norm_num
  have hdlt : (Time.calc_dlt_t localtime_r o).1 = kTtTai - (o.utc_tai : ℝ) - o.dut1 := by
    unfold Time.calc_dlt_t
    rw [if_neg hd0, if_pos hu]
  rw [hdlt, total_ns_calc_tt o hfresh hn0, total_ns_calc_ut1 o n hdut]
  have hn : o.dut1 = (n : ℝ) / 1.0e9 := by
    rw [← hdut]
    field_simp
  rw [hn]
  unfold kTtTai
  push_cast
  norm_num
  ring

/-- Claim C39 fails on the code. For the object `exTime2017` (2017-01-01
00:00:00 UTC, `utc_tai = -37`, `dut1 = 0.6`) `calc_dlt_t` returns
`32.184 + 37 - 0.6 = 68.584`, `calc_tt` returns 1483228869 s 183999999 ns and
`calc_ut1` returns 1483228800 s 600000000 ns: the difference of the two
instants is 68.583999999 s, one nanosecond less than the value of
`calc_dlt_t`, because `tai2tt` adds 32 s 183999999 ns. -/
theorem dlt_t_not_tt_minus_ut1 :
    (Time.calc_dlt_t exLocaltime (exTime2017 : Time ℝ)).1 = 68.584
    ∧ total_ns (Time.calc_tt (exTime2017 : Time ℝ)).1 = 1483228869183999999
    ∧ total_ns (Time.calc_ut1 (exTime2017 : Time ℝ)).1 = 1483228800600000000
    ∧ (((total_ns (Time.calc_tt (exTime2017 : Time ℝ)).1 : Int) : ℝ)
          - ((total_ns (Time.calc_ut1 (exTime2017 : Time ℝ)).1 : Int) : ℝ)) / 1.0e9
        = 68.583999999
    ∧ (Time.calc_dlt_t exLocaltime (exTime2017 : Time ℝ)).1
        ≠ (((total_ns (Time.calc_tt (exTime2017 : Time ℝ)).1 : Int) : ℝ)
          - ((total_ns (Time.calc_ut1 (exTime2017 : Time ℝ)).1 : Int) : ℝ)) / 1.0e9 := by
  have hdut : (exTime2017 : Time ℝ).dut1 * 1.0e9 = ((600000000 : Int) : ℝ) := by
    simp only [exTime2017]
    norm_num
  have htt : total_ns (Time.calc_tt (exTime2017 : Time ℝ)).1 = 1483228869183999999 := by
    rw [total_ns_calc_tt exTime2017 rfl (by decide)]
    decide
  have hut : total_ns (Time.calc_ut1 (exTime2017 : Time ℝ)).1 = 1483228800600000000 := by
    rw [total_ns_calc_ut1 exTime2017 600000000 hdut]
    decide
  have hdlt := dlt_t_eq_tt_minus_ut1_add exLocaltime (exTime2017 : Time ℝ) 600000000
    (by decide) rfl rfl (by decide) hdut
  rw [htt, hut] at hdlt
  have hdiff : (((1483228869183999999 : Int) : ℝ) - ((1483228800600000000 : Int) : ℝ)) / 1.0e9
      = 68.583999999 := by
    push_cast
    norm_num
  refine ⟨?_, htt, hut, ?_, ?_⟩
  · rw [hdlt, hdiff]
    norm_num
  · rw [htt, hut, hdiff]
  · rw [htt, hut, hdlt, hdiff]
    norm_num

section TdbLemmas

theorem tai2tt_nsec_range (o : Time ℝ) (ts : Timespec) (h0 : 0 ≤ ts.tv_nsec)
    (h1 : ts.tv_nsec < 1000000000) :
    0 ≤ (Time.tai2tt o ts).1.tv_nsec ∧ (Time.tai2tt o ts).1.tv_nsec ≤ 1000000000 := by
  rw [tai2tt_eq o ts h0]
  have h4 : (1.0e9 : ℝ) = ((1000000000 : Int) : ℝ) := by norm_num
  by_cases hc : (((ts.tv_nsec + 183999999 : Int) : ℝ) > 1.0e9)
  · rw [if_pos hc]
    have hc2 : (1000000000 : Int) < ts.tv_nsec + 183999999 := by
      have h3 : ((1000000000 : Int) : ℝ) < ((ts.tv_nsec + 183999999 : Int) : ℝ) := by
        rw [← h4]
        exact hc
      exact_mod_cast h3
    constructor <;> simp only [] <;> omega
  · rw [if_neg hc]
    have hc2 : ts.tv_nsec + 183999999 ≤ (1000000000 : Int) := by
      have h3 : ((ts.tv_nsec + 183999999 : Int) : ℝ) ≤ ((1000000000 : Int) : ℝ) := by
        rw [← h4]
        exact not_lt.mp hc
      exact_mod_cast h3
    constructor <;> simp only [] <;> omega

theorem tt2tcb_no_carry (o : Time ℝ) (ts : Timespec) (h0 : 0 ≤ ts.tv_nsec)
    (hs : (ts.tv_nsec : ℝ) + (kLB * (o.jd - kT0) * 86400
        - (⌊kLB * (o.jd - kT0) * 86400⌋ : ℝ)) * 1.0e9 ≤ 1.0e9) :
    (Time.tt2tcb o ts).1
      = ⟨ts.tv_sec + ⌊kLB * (o.jd - kT0) * 86400⌋,
          ⌊(ts.tv_nsec : ℝ) + (kLB * (o.jd - kT0) * 86400
            - (⌊kLB * (o.jd - kT0) * 86400⌋ : ℝ)) * 1.0e9⌋⟩
    ∧ 0 ≤ ⌊(ts.tv_nsec : ℝ) + (kLB * (o.jd - kT0) * 86400
            - (⌊kLB * (o.jd - kT0) * 86400⌋ : ℝ)) * 1.0e9⌋
    ∧ ⌊(ts.tv_nsec : ℝ) + (kLB * (o.jd - kT0) * 86400
            - (⌊kLB * (o.jd - kT0) * 86400⌋ : ℝ)) * 1.0e9⌋ ≤ 1000000000 := by
  have hv : kLB * (o.jd - kT0) * ((kSecDay : Int) : ℝ) = kLB * (o.jd - kT0) * 86400 := by
    unfold kSecDay
    push_cast
    ring
  generalize kLB * (o.jd - kT0) * 86400 = v at hv hs ⊢
  have hinc0 : 0 ≤ (v - (⌊v⌋ : ℝ)) * 1.0e9 :=
    mul_nonneg (by linarith [Int.floor_le v]) (by norm_num)
  have hn0 : (0 : ℝ) ≤ (ts.tv_nsec : ℝ) := by exact_mod_cast h0
  have hsum0 : 0 ≤ (ts.tv_nsec : ℝ) + (v - (⌊v⌋ : ℝ)) * 1.0e9 := by linarith
  have hfl0 : 0 ≤ ⌊(ts.tv_nsec : ℝ) + (v - (⌊v⌋ : ℝ)) * 1.0e9⌋ := Int.floor_nonneg.mpr hsum0
  have h9 : (1.0e9 : ℝ) = ((1000000000 : Int) : ℝ) := by norm_num
  have hfl1 : ⌊(ts.tv_nsec : ℝ) + (v - (⌊v⌋ : ℝ)) * 1.0e9⌋ ≤ 1000000000 := by
    have h := Int.floor_le_floor hs
    have e9 : ⌊(1.0e9 : ℝ)⌋ = 1000000000 := by rw [h9, Int.floor_intCast]
    rw [e9] at h
    exact h
  have hnc : ¬ (((⌊(ts.tv_nsec : ℝ) + (v - (⌊v⌋ : ℝ)) * 1.0e9⌋ : Int) : ℝ) > 1.0e9) := by
    intro hgt
    have h5 : ((⌊(ts.tv_nsec : ℝ) + (v - (⌊v⌋ : ℝ)) * 1.0e9⌋ : Int) : ℝ)
        ≤ ((1000000000 : Int) : ℝ) := by exact_mod_cast hfl1
    rw [← h9] at h5
    linarith
  have hnb : ¬ (⌊(ts.tv_nsec : ℝ) + (v - (⌊v⌋ : ℝ)) * 1.0e9⌋ < 0) := by omega
  refine ⟨?_, hfl0, hfl1⟩
  unfold Time.tt2tcb
  simp only [hv, toLong_of_nonneg _ hsum0, if_neg hnc, if_neg hnb]

theorem tcb2tdb_abs_lt (o : Time ℝ) (ts : Timespec) (h0 : 0 ≤ ts.tv_nsec)
    (h1 : ts.tv_nsec ≤ 1000000000) :
    |((total_ns (Time.tcb2tdb o ts).1 : Int) : ℝ)
        - (((total_ns ts : Int) : ℝ)
            - (kLB * (o.jd - kT0) * 86400 + kTdb0) * 1.0e9)| < 1 := by
  have hv : kLB * (o.jd - kT0) * ((kSecDay : Int) : ℝ) + kTdb0
      = kLB * (o.jd - kT0) * 86400 + kTdb0 := by
    unfold kSecDay
    push_cast
    ring
  generalize hvv : kLB * (o.jd - kT0) * 86400 + kTdb0 = v at hv
  have hinc0 : 0 ≤ (v - (⌊v⌋ : ℝ)) * 1.0e9 :=
    mul_nonneg (by linarith [Int.floor_le v]) (by norm_num)
  have hle : toLong ((ts.tv_nsec : ℝ) - (v - (⌊v⌋ : ℝ)) * 1.0e9) ≤ ts.tv_nsec :=
    toLong_le_of_le _ _ h0 (by linarith)
  have hnc : ¬ (((toLong ((ts.tv_nsec : ℝ) - (v - (⌊v⌋ : ℝ)) * 1.0e9) : Int) : ℝ)
      > 1.0e9) := by
    have h2 : ((toLong ((ts.tv_nsec : ℝ) - (v - (⌊v⌋ : ℝ)) * 1.0e9) : Int) : ℝ)
        ≤ (ts.tv_nsec : ℝ) := by exact_mod_cast hle
    have h3 : (ts.tv_nsec : ℝ) ≤ 1000000000 := by exact_mod_cast h1
    have h4 : (1.0e9 : ℝ) = 1000000000 := by norm_num
    intro hgt
    rw [h4] at hgt
    linarith
  have htot : total_ns (Time.tcb2tdb o ts).1
      = (ts.tv_sec - ⌊v⌋) * 1000000000
        + toLong ((ts.tv_nsec : ℝ) - (v - (⌊v⌋ : ℝ)) * 1.0e9) := by
    unfold Time.tcb2tdb total_ns
    simp only [hv, if_neg hnc, toLong_add_1e9]
    split_ifs <;> ring
  have habs := toLong_sub_abs_lt ((ts.tv_nsec : ℝ) - (v - (⌊v⌋ : ℝ)) * 1.0e9)
  have e : ((total_ns (Time.tcb2tdb o ts).1 : Int) : ℝ)
        - (((total_ns ts : Int) : ℝ) - v * 1.0e9)
      = ((toLong ((ts.tv_nsec : ℝ) - (v - (⌊v⌋ : ℝ)) * 1.0e9) : Int) : ℝ)
        - ((ts.tv_nsec : ℝ) - (v - (⌊v⌋ : ℝ)) * 1.0e9) := by
    rw [htot]
    unfold total_ns
    push_cast
    ring
  rw [e]
  exact habs

end TdbLemmas

theorem calc_tdb_fresh (localtime_r : Int → Tm) (o : Time ℝ)
    (h1 : o.ts_tai.tv_sec = 0) (h2 : o.ts_tt.tv_sec = 0) (h3 : o.ts_tcb.tv_sec = 0) :
    ∃ oa ob : Time ℝ,
      oa.jd = (if o.jd = 0 then Time.gc2jd localtime_r o.ts else o.jd)
      ∧ ob.jd = (if o.jd = 0 then Time.gc2jd localtime_r o.ts else o.jd)
      ∧ (Time.calc_tdb localtime_r o).1
          = (Time.tcb2tdb ob (Time.tt2tcb oa (Time.calc_tt o).1).1).1 := by
  have h00 : (0.0 : ℝ) = 0 := by norm_num
  by_cases hj : o.jd = 0
  · have hj0 : o.jd = 0.0 := by rw [hj, h00]
    refine ⟨(Time.tai2tt (Time.utc2tai { o with jd := Time.gc2jd localtime_r o.ts } o.ts).2
        (Time.utc2tai { o with jd := Time.gc2jd localtime_r o.ts } o.ts).2.ts_tai).2,
      (Time.tt2tcb (Time.tai2tt
        (Time.utc2tai { o with jd := Time.gc2jd localtime_r o.ts } o.ts).2
        (Time.utc2tai { o with jd := Time.gc2jd localtime_r o.ts } o.ts).2.ts_tai).2
        (Time.calc_tt o).1).2, ?_, ?_, ?_⟩
    · rw [if_pos hj]
      rfl
    · rw [if_pos hj]
      unfold Time.tt2tcb
      simp only []
      split_ifs <;> rfl
    · unfold Time.calc_tdb Time.calc_tt
      simp only [if_pos hj0, if_pos h1]
      have e1 : (Time.utc2tai { o with jd := Time.gc2jd localtime_r o.ts } o.ts).2.ts_tt.tv_sec
          = 0 := h2
      have e2 : (Time.tai2tt
          (Time.utc2tai { o with jd := Time.gc2jd localtime_r o.ts } o.ts).2
          (Time.utc2tai { o with jd := Time.gc2jd localtime_r o.ts }
            o.ts).2.ts_tai).2.ts_tcb.tv_sec = 0 := h3
      rw [if_pos e1, if_pos e2]
      rfl
  · have hj0 : ¬ (o.jd = 0.0) := by rw [h00]; exact hj
    refine ⟨(Time.tai2tt (Time.utc2tai o o.ts).2 (Time.utc2tai o o.ts).2.ts_tai).2,
      (Time.tt2tcb (Time.tai2tt (Time.utc2tai o o.ts).2 (Time.utc2tai o o.ts).2.ts_tai).2
        (Time.calc_tt o).1).2, ?_, ?_, ?_⟩
    · rw [if_neg hj]
      rfl
    · rw [if_neg hj]
      unfold Time.tt2tcb
      simp only []
      split_ifs <;> rfl
    · unfold Time.calc_tdb Time.calc_tt
      simp only [if_neg hj0, if_pos h1]
      have e1 : (Time.utc2tai o o.ts).2.ts_tt.tv_sec = 0 := h2
      have e2 : (Time.tai2tt (Time.utc2tai o o.ts).2
          (Time.utc2tai o o.ts).2.ts_tai).2.ts_tcb.tv_sec = 0 := h3
      rw [if_pos e1, if_pos e2]
      rfl

/-- Claim C35. For an object as the constructor leaves it (TAI, TT and TCB not
yet computed) with `0 <= nsec < 1e9`, and the Julian Day `jd` that `calc_tdb`
uses (the member `jd`, or `gc2jd` of the instant when the member is zero):
when the nanoseconds of TT plus the fractional part of
`L_B * (jd - T0) * 86400` in nanoseconds do not exceed 1e9, the total of the
instant returned by `calc_tdb` is within 2 ns of the total of the instant
returned by `calc_tt` plus 65 500 ns, whatever `jd` is. -/
theorem calc_tdb_is_tt_plus_offset (localtime_r : Int → Tm) (o : Time ℝ)
    (h1 : o.ts_tai.tv_sec = 0) (h2 : o.ts_tt.tv_sec = 0) (h3 : o.ts_tcb.tv_sec = 0)
    (hn0 : 0 ≤ o.ts.tv_nsec) (hn1 : o.ts.tv_nsec < 1000000000)
    (hs : ((Time.calc_tt o).1.tv_nsec : ℝ)
        + (kLB * ((if o.jd = 0 then Time.gc2jd localtime_r o.ts else o.jd) - kT0) * 86400
          - (⌊kLB * ((if o.jd = 0 then Time.gc2jd localtime_r o.ts else o.jd) - kT0)
              * 86400⌋ : ℝ)) * 1.0e9 ≤ 1.0e9) :
    |((total_ns (Time.calc_tdb localtime_r o).1 : Int) : ℝ)
        - (((total_ns (Time.calc_tt o).1 : Int) : ℝ) + 65500)| < 2 := by
  obtain ⟨oa, ob, ha, hb, heq⟩ := calc_tdb_fresh localtime_r o h1 h2 h3
  rw [← ha] at hs
  have htt : 0 ≤ (Time.calc_tt o).1.tv_nsec ∧ (Time.calc_tt o).1.tv_nsec ≤ 1000000000 := by
    unfold Time.calc_tt
    simp only [if_pos h1]
    exact tai2tt_nsec_range _ _ hn0 hn1
  obtain ⟨hcb, hcb0, hcb1⟩ := tt2tcb_no_carry oa (Time.calc_tt o).1 htt.1 hs
  have habs := tcb2tdb_abs_lt ob (Time.tt2tcb oa (Time.calc_tt o).1).1
    (by rw [hcb]; exact hcb0) (by rw [hcb]; exact hcb1)
  rw [heq]
  rw [hb, ← ha] at habs
  generalize kLB * (oa.jd - kT0) * 86400 = v at hs hcb hcb0 hcb1 habs
  generalize (Time.calc_tt o).1 = tt at hs hcb hcb0 hcb1 habs htt ⊢
  have hsum0 : 0 ≤ (tt.tv_nsec : ℝ) + (v - (⌊v⌋ : ℝ)) * 1.0e9 := by
    have hinc0 : 0 ≤ (v - (⌊v⌋ : ℝ)) * 1.0e9 :=
      mul_nonneg (by linarith [Int.floor_le v]) (by norm_num)
    have : (0 : ℝ) ≤ (tt.tv_nsec : ℝ) := by exact_mod_cast htt.1
    linarith
  have hf1 := Int.floor_le ((tt.tv_nsec : ℝ) + (v - (⌊v⌋ : ℝ)) * 1.0e9)
  have hf2 := Int.lt_floor_add_one ((tt.tv_nsec : ℝ) + (v - (⌊v⌋ : ℝ)) * 1.0e9)
  have htcb : ((total_ns (Time.tt2tcb oa tt).1 : Int) : ℝ)
      = ((tt.tv_sec : ℝ) + (⌊v⌋ : ℝ)) * 1000000000
        + ((⌊(tt.tv_nsec : ℝ) + (v - (⌊v⌋ : ℝ)) * 1.0e9⌋ : Int) : ℝ) := by
    rw [hcb]
    unfold total_ns
    push_cast
    ring
  have httot : ((total_ns tt : Int) : ℝ)
      = (tt.tv_sec : ℝ) * 1000000000 + (tt.tv_nsec : ℝ) := by
    unfold total_ns
    push_cast
    ring
  rw [htcb] at habs
  rw [httot]
  rw [abs_lt] at habs ⊢
  have hk : (kTdb0 : ℝ) * 1.0e9 = -65500 := by
    unfold kTdb0
    norm_num
  have h9 : (1.0e9 : ℝ) = 1000000000 := by norm_num
  obtain ⟨ha1, ha2⟩ := habs
  have hexp : (v + kTdb0) * 1.0e9 = v * 1000000000 - 65500 := by
    rw [add_mul, hk, h9]
    ring
  rw [hexp] at ha1 ha2
  rw [h9] at hf1 hf2
  constructor <;> linarith

theorem tai2tt_of_zero (o : Time ℝ) :
    (Time.tai2tt o ⟨0, 0⟩).1 = ⟨32, 183999999⟩ := by
  rw [tai2tt_eq _ _ (le_refl 0)]
  have hc : ¬ ((((⟨0, 0⟩ : Timespec).tv_nsec + 183999999 : Int) : ℝ) > 1.0e9) := by
    norm_num
  rw [if_neg hc]
  rfl

theorem calc_tt_exTimeJd :
    (Time.calc_tt (exTimeJd (exJd : ℝ))).1 = ⟨32, 183999999⟩ := by
  have h0 : (exTimeJd (exJd : ℝ)).ts_tai.tv_sec = 0 := rfl
  unfold Time.calc_tt
  rw [if_pos h0]
  exact tai2tt_of_zero _

/-- The hypotheses of `calc_tdb_is_tt_plus_offset` are met by the object
`exTimeJd exJd` (UTC 0 s 0 ns, Julian Day 2459225.5): TT is 32 s
183 999 999 ns and the fractional part of `L_B * (jd - T0) * 86400` is
542 896 349 ns, so the sum stays below 1e9. -/
theorem calc_tdb_is_tt_plus_offset_witness :
    |((total_ns (Time.calc_tdb exLocaltime (exTimeJd (exJd : ℝ))).1 : Int) : ℝ)
        - (((total_ns (Time.calc_tt (exTimeJd (exJd : ℝ))).1 : Int) : ℝ) + 65500)| < 2 := by
  have hj : ¬ ((exTimeJd (exJd : ℝ)).jd = 0) := by
    show ¬ ((exJd : ℝ) = 0)
    unfold exJd
    norm_num
  have hfl : ⌊(kLB : ℝ) * ((exTimeJd (exJd : ℝ)).jd - kT0) * 86400⌋ = 21 := by
    rw [Int.floor_eq_iff]
    simp only [exTimeJd, exJd, kLB, kT0]
    norm_num
  exact calc_tdb_is_tt_plus_offset exLocaltime (exTimeJd exJd) rfl rfl rfl
    (by decide) (by decide)
    (by
      rw [if_neg hj, hfl, calc_tt_exTimeJd]
      simp only [exTimeJd, exJd, kLB, kT0]
      norm_num)

/-! The product of the nutation matrix and the precession matrix. -/

theorem R1_mul_R1_neg (a : ℝ) :
    R1 Real.sin Real.cos a * R1 Real.sin Real.cos (-a) = 1 := by
  have h := Real.sin_sq_add_cos_sq a
  rw [R1, R1, Matrix.mul_fin_three, Matrix.one_fin_three]
  ext i j
  fin_cases i <;> fin_cases j <;>
    simp [Matrix.vecHead, Matrix.vecTail, Real.sin_neg, Real.cos_neg] <;> nlinarith [h]

theorem R3_mul_R3 (a b : ℝ) :
    R3 Real.sin Real.cos a * R3 Real.sin Real.cos b = R3 Real.sin Real.cos (a + b) := by
  rw [R3, R3, R3, Matrix.mul_fin_three, Real.sin_add, Real.cos_add]
  ext i j
  fin_cases i <;> fin_cases j <;> simp [Matrix.vecHead, Matrix.vecTail] <;> ring

/-- Claim C36. For every `t`, every pair of nutation tables and every
obliquity function, the matrix of precession and nutation that the
constructor of `Bpn` builds is the matrix product of the matrix of nutation
and the matrix of precession of the same object, over the reals:
`r_prec_nut = r_nut * r_prec`. -/
theorem r_prec_nut_eq_r_nut_mul_r_prec (calc_ob : ℝ → ℝ) (t : ℝ)
    (dat_ls dat_pl : List (List ℝ)) :
    (Bpn.ctor calc_ob Real.sin Real.cos Real.arctan t dat_ls dat_pl).r_prec_nut
      = (Bpn.ctor calc_ob Real.sin Real.cos Real.arctan t dat_ls dat_pl).r_nut
        * (Bpn.ctor calc_ob Real.sin Real.cos Real.arctan t dat_ls dat_pl).r_prec := by
  have hR1 : ∀ (a : ℝ) (M : Mat3 ℝ),
      R1 Real.sin Real.cos a * (R1 Real.sin Real.cos (-a) * M) = M := fun a M => by
    rw [← Matrix.mul_assoc, R1_mul_R1_neg, Matrix.one_mul]
  have hR3 : ∀ (a b : ℝ) (M : Mat3 ℝ),
      R3 Real.sin Real.cos a * (R3 Real.sin Real.cos b * M)
        = R3 Real.sin Real.cos (a + b) * M := fun a b M => by
    rw [← Matrix.mul_assoc, R3_mul_R3]
  have hsum : ∀ a b : ℝ, -a + -b = -b - a := fun a b => by ring
  simp only [Bpn.ctor, Bpn.gen_r_prec_nut, Bpn.gen_r_nut, Bpn.gen_r_prec, r_x, r_z,
    kMtxUnit_eq_one, Matrix.mul_one, Matrix.mul_assoc, hR1, hR3, hsum]

/-! The fundamental arguments of `calc_planetary` reduced with `fmod_p`. -/

theorem fmod_eq_fmod_p_sub (x y : ℝ) :
    ∃ k : Int, fmod x y = Nutation.fmod_p x y - (k : ℝ) * y := by
  unfold fmod Nutation.fmod_p
  split_ifs
  · exact ⟨0, by simp⟩
  · exact ⟨⌈x / y⌉ - ⌊x / y⌋, by push_cast; ring⟩

theorem self_eq_fmod_p_sub (x y : ℝ) :
    ∃ k : Int, x = Nutation.fmod_p x y - (k : ℝ) * y :=
  ⟨-⌊x / y⌋, by unfold Nutation.fmod_p; push_cast; ring⟩

theorem self_eq_self_sub (x y : ℝ) : ∃ k : Int, x = x - (k : ℝ) * y :=
  ⟨0, by simp⟩

theorem fmod_p_sub_int_mul (a y : ℝ) (k : Int) :
    Nutation.fmod_p (a - (k : ℝ) * y) y = Nutation.fmod_p a y := by
  unfold Nutation.fmod_p
  by_cases hy : y = 0
  · subst hy
    simp
  · have h : (a - (k : ℝ) * y) / y = a / y - (k : ℝ) := by
      field_simp
      ring
    rw [h, Int.floor_sub_int]
    push_cast
    ring

theorem calc_planetary_row_shift
    (l f d om pa lme lve lea lma lju lsa lur lne : ℝ)
    (l' f' d' om' pa' lme' lve' lea' lma' lju' lsa' lur' lne' : ℝ)
    (hl : ∃ k : Int, l = l' - (k : ℝ) * Nutation.kPi2 Real.arctan)
    (hf : ∃ k : Int, f = f' - (k : ℝ) * Nutation.kPi2 Real.arctan)
    (hd : ∃ k : Int, d = d' - (k : ℝ) * Nutation.kPi2 Real.arctan)
    (hom : ∃ k : Int, om = om' - (k : ℝ) * Nutation.kPi2 Real.arctan)
    (hpa : ∃ k : Int, pa = pa' - (k : ℝ) * Nutation.kPi2 Real.arctan)
    (hlme : ∃ k : Int, lme = lme' - (k : ℝ) * Nutation.kPi2 Real.arctan)
    (hlve : ∃ k : Int, lve = lve' - (k : ℝ) * Nutation.kPi2 Real.arctan)
    (hlea : ∃ k : Int, lea = lea' - (k : ℝ) * Nutation.kPi2 Real.arctan)
    (hlma : ∃ k : Int, lma = lma' - (k : ℝ) * Nutation.kPi2 Real.arctan)
    (hlju : ∃ k : Int, lju = lju' - (k : ℝ) * Nutation.kPi2 Real.arctan)
    (hlsa : ∃ k : Int, lsa = lsa' - (k : ℝ) * Nutation.kPi2 Real.arctan)
    (hlur : ∃ k : Int, lur = lur' - (k : ℝ) * Nutation.kPi2 Real.arctan)
    (hlne : ∃ k : Int, lne = lne' - (k : ℝ) * Nutation.kPi2 Real.arctan)
    (row : List ℝ) (hrow : ∀ j : Nat, j < 14 → ∃ n : Int, col row j = (n : ℝ))
    (acc : ℝ × ℝ) :
    Nutation.calc_planetary_row Real.sin Real.cos Real.arctan
        l f d om pa lme lve lea lma lju lsa lur lne row acc
      = Nutation.calc_planetary_row Real.sin Real.cos Real.arctan
        l' f' d' om' pa' lme' lve' lea' lma' lju' lsa' lur' lne' row acc := by
  obtain ⟨kl, rfl⟩ := hl
  obtain ⟨kf, rfl⟩ := hf
  obtain ⟨kd, rfl⟩ := hd
  obtain ⟨kom, rfl⟩ := hom
  obtain ⟨kpa, rfl⟩ := hpa
  obtain ⟨klme, rfl⟩ := hlme
  obtain ⟨klve, rfl⟩ := hlve
  obtain ⟨klea, rfl⟩ := hlea
  obtain ⟨klma, rfl⟩ := hlma
  obtain ⟨klju, rfl⟩ := hlju
  obtain ⟨klsa, rfl⟩ := hlsa
  obtain ⟨klur, rfl⟩ := hlur
  obtain ⟨klne, rfl⟩ := hlne
  obtain ⟨n0, h0⟩ := hrow 0 (by norm_num)
  obtain ⟨n2, h2⟩ := hrow 2 (by norm_num)
  obtain ⟨n3, h3⟩ := hrow 3 (by norm_num)
  obtain ⟨n4, h4⟩ := hrow 4 (by norm_num)
  obtain ⟨n5, h5⟩ := hrow 5 (by norm_num)
  obtain ⟨n6, h6⟩ := hrow 6 (by norm_num)
  obtain ⟨n7, h7⟩ := hrow 7 (by norm_num)
  obtain ⟨n8, h8⟩ := hrow 8 (by norm_num)
  obtain ⟨n9, h9⟩ := hrow 9 (by norm_num)
  obtain ⟨n10, h10⟩ := hrow 10 (by norm_num)
  obtain ⟨n11, h11⟩ := hrow 11 (by norm_num)
  obtain ⟨n12, h12⟩ := hrow 12 (by norm_num)
  obtain ⟨n13, h13⟩ := hrow 13 (by norm_num)
  have key : col row 0 * (l' - (kl : ℝ) * Nutation.kPi2 Real.arctan)
      + col row 2 * (f' - (kf : ℝ) * Nutation.kPi2 Real.arctan)
      + col row 3 * (d' - (kd : ℝ) * Nutation.kPi2 Real.arctan)
      + col row 4 * (om' - (kom : ℝ) * Nutation.kPi2 Real.arctan)
      + col row 5 * (lme' - (klme : ℝ) * Nutation.kPi2 Real.arctan)
      + col row 6 * (lve' - (klve : ℝ) * Nutation.kPi2 Real.arctan)
      + col row 7 * (lea' - (klea : ℝ) * Nutation.kPi2 Real.arctan)
      + col row 8 * (lma' - (klma : ℝ) * Nutation.kPi2 Real.arctan)
      + col row 9 * (lju' - (klju : ℝ) * Nutation.kPi2 Real.arctan)
      + col row 10 * (lsa' - (klsa : ℝ) * Nutation.kPi2 Real.arctan)
      + col row 11 * (lur' - (klur : ℝ) * Nutation.kPi2 Real.arctan)
      + col row 12 * (lne' - (klne : ℝ) * Nutation.kPi2 Real.arctan)
      + col row 13 * (pa' - (kpa : ℝ) * Nutation.kPi2 Real.arctan)
      = (col row 0 * l' + col row 2 * f' + col row 3 * d' + col row 4 * om'
          + col row 5 * lme' + col row 6 * lve' + col row 7 * lea' + col row 8 * lma'
          + col row 9 * lju' + col row 10 * lsa' + col row 11 * lur' + col row 12 * lne'
          + col row 13 * pa')
        - ((n0 * kl + n2 * kf + n3 * kd + n4 * kom + n5 * klme + n6 * klve + n7 * klea
            + n8 * klma + n9 * klju + n10 * klsa + n11 * klur + n12 * klne
            + n13 * kpa : Int) : ℝ) * Nutation.kPi2 Real.arctan := by
    rw [h0, h2, h3, h4, h5, h6, h7, h8, h9, h10, h11, h12, h13]
    push_cast
    ring
  simp only [Nutation.calc_planetary_row]
  rw [key, fmod_p_sub_int_mul]

theorem foldr_congr_of_mem {α β : Type} (g h : α → β → β) (l : List α)
    (hgh : ∀ x ∈ l, ∀ b : β, g x b = h x b) (b : β) :
    List.foldr g b l = List.foldr h b l := by
  induction l with
  | nil => rfl
  | cons x rest ih =>
    rw [List.foldr_cons, List.foldr_cons,
      ih (fun r hr => hgh r (List.mem_cons_of_mem _ hr))]
    exact hgh x (List.mem_cons_self _ _) _

theorem calc_planetary_foldr_shift
    (l f d om pa lme lve lea lma lju lsa lur lne : ℝ)
    (l' f' d' om' pa' lme' lve' lea' lma' lju' lsa' lur' lne' : ℝ)
    (hl : ∃ k : Int, l = l' - (k : ℝ) * Nutation.kPi2 Real.arctan)
    (hf : ∃ k : Int, f = f' - (k : ℝ) * Nutation.kPi2 Real.arctan)
    (hd : ∃ k : Int, d = d' - (k : ℝ) * Nutation.kPi2 Real.arctan)
    (hom : ∃ k : Int, om = om' - (k : ℝ) * Nutation.kPi2 Real.arctan)
    (hpa : ∃ k : Int, pa = pa' - (k : ℝ) * Nutation.kPi2 Real.arctan)
    (hlme : ∃ k : Int, lme = lme' - (k : ℝ) * Nutation.kPi2 Real.arctan)
    (hlve : ∃ k : Int, lve = lve' - (k : ℝ) * Nutation.kPi2 Real.arctan)
    (hlea : ∃ k : Int, lea = lea' - (k : ℝ) * Nutation.kPi2 Real.arctan)
    (hlma : ∃ k : Int, lma = lma' - (k : ℝ) * Nutation.kPi2 Real.arctan)
    (hlju : ∃ k : Int, lju = lju' - (k : ℝ) * Nutation.kPi2 Real.arctan)
    (hlsa : ∃ k : Int, lsa = lsa' - (k : ℝ) * Nutation.kPi2 Real.arctan)
    (hlur : ∃ k : Int, lur = lur' - (k : ℝ) * Nutation.kPi2 Real.arctan)
    (hlne : ∃ k : Int, lne = lne' - (k : ℝ) * Nutation.kPi2 Real.arctan)
    (rows : List (List ℝ))
    (hrows : ∀ row ∈ rows, ∀ j : Nat, j < 14 → ∃ n : Int, col row j = (n : ℝ))
    (acc : ℝ × ℝ) :
    List.foldr (Nutation.calc_planetary_row Real.sin Real.cos Real.arctan
        l f d om pa lme lve lea lma lju lsa lur lne) acc rows
      = List.foldr (Nutation.calc_planetary_row Real.sin Real.cos Real.arctan
        l' f' d' om' pa' lme' lve' lea' lma' lju' lsa' lur' lne') acc rows := by
  exact foldr_congr_of_mem _ _ rows (fun row hr b =>
    calc_planetary_row_shift l f d om pa lme lve lea lma lju lsa lur lne
      l' f' d' om' pa' lme' lve' lea' lma' lju' lsa' lur' lne'
      hl hf hd hom hpa hlme hlve hlea hlma hlju hlsa hlur hlne row (hrows row hr) b) acc

/-- Claim C37. For every `t` and every planetary table in which columns 0 to
13 of every row hold integers, `calc_planetary` returns the same pair as the
computation in which every fundamental argument, those the source reduces
with `std::fmod` and the general precession it leaves unreduced included, is
reduced to `[0, 2*pi)` with `fmod_p`, over the reals. -/
theorem calc_planetary_eq_fmod_p (t : ℝ) (dat_pl : List (List ℝ))
    (hint : ∀ row ∈ dat_pl, ∀ j : Nat, j < 14 → ∃ n : Int, col row j = (n : ℝ)) :
    Nutation.calc_planetary Real.sin Real.cos Real.arctan t dat_pl
      = calc_planetary_fmod_p Real.sin Real.cos Real.arctan t dat_pl := by
  simp only [Nutation.calc_planetary, calc_planetary_fmod_p, Nutation.calc_l_mhb2000,
    Nutation.calc_f_mhb2000, Nutation.calc_d_mhb2000_2, Nutation.calc_om_mhb2000,
    Nutation.calc_pa_iers2003, Nutation.calc_lme_iers2003, Nutation.calc_lve_iers2003,
    Nutation.calc_lea_iers2003, Nutation.calc_lma_iers2003, Nutation.calc_lju_iers2003,
    Nutation.calc_lsa_iers2003, Nutation.calc_lur_iers2003, Nutation.calc_lne_mhb2000]
  rw [calc_planetary_foldr_shift _ _ _ _ _ _ _ _ _ _ _ _ _ _ _ _ _ _ _ _ _ _ _ _ _ _
    (fmod_eq_fmod_p_sub _ _) (fmod_eq_fmod_p_sub _ _) (fmod_eq_fmod_p_sub _ _)
    (self_eq_self_sub _ _) (self_eq_fmod_p_sub _ _)
    (fmod_eq_fmod_p_sub _ _) (fmod_eq_fmod_p_sub _ _) (fmod_eq_fmod_p_sub _ _)
    (fmod_eq_fmod_p_sub _ _) (fmod_eq_fmod_p_sub _ _) (fmod_eq_fmod_p_sub _ _)
    (fmod_eq_fmod_p_sub _ _) (fmod_eq_fmod_p_sub _ _) dat_pl hint]

/-- The hypothesis of `calc_planetary_eq_fmod_p` is met at `t = -1`, where the
arguments reduced with `std::fmod` are negative, by the table of the one row
`exRowPlInt`. -/
theorem calc_planetary_eq_fmod_p_witness :
    Nutation.calc_planetary Real.sin Real.cos Real.arctan (-1) [exRowPlInt]
      = calc_planetary_fmod_p Real.sin Real.cos Real.arctan (-1) [exRowPlInt] :=
  calc_planetary_eq_fmod_p (-1) [exRowPlInt] (by
    intro row hrow j hj
    rw [List.mem_singleton] at hrow
    subst hrow
    refine ⟨([1, 0, 2, 0, 0, 0, 0, 0, 0, 0, 0, 0, 0, 3] : List Int).getD j 0, ?_⟩
    interval_cases j <;> simp [col, exRowPlInt])

/-! `Time::gc2jd` and the Julian Day Number. -/

theorem toUInt_of_range (n : Int) (h0 : 0 ≤ n) (h1 : n < 4294967296) : toUInt n = n := by
  unfold toUInt
  exact Int.emod_eq_of_lt h0 h1

theorem floor_intCast_div (n k : Int) (hk : 0 < k) : ⌊(n : ℝ) / (k : ℝ)⌋ = n / k := by
  have hk' : (0 : ℝ) < (k : ℝ) := by exact_mod_cast hk
  have h1 : n % k + k * (n / k) = n := Int.emod_add_ediv n k
  have h2 : 0 ≤ n % k := Int.emod_nonneg n (ne_of_gt hk)
  have h3 : n % k < k := Int.emod_lt_of_pos n hk
  have h1' : ((n % k : Int) : ℝ) + (k : ℝ) * ((n / k : Int) : ℝ) = (n : ℝ) := by
    exact_mod_cast h1
  have h2' : (0 : ℝ) ≤ ((n % k : Int) : ℝ) := by exact_mod_cast h2
  have h3' : ((n % k : Int) : ℝ) < (k : ℝ) := by exact_mod_cast h3
  rw [Int.floor_eq_iff]
  constructor
  · rw [le_div_iff₀ hk']
    nlinarith
  · rw [div_lt_iff₀ hk']
    nlinarith

theorem JDN_next_day (y m d : Int) (h : valid_date y m d) :
    JDN (next_day y m d).1 (next_day y m d).2.1 (next_day y m d).2.2 = JDN y m d + 1 := by
  obtain ⟨_, hm1, hm12, hd1, hd⟩ := h
  unfold next_day
  unfold days_in_month at hd ⊢
  interval_cases m <;> split_ifs at hd ⊢ <;> simp only [JDN] <;> omega

theorem days_in_month_ge (y m : Int) : 28 ≤ days_in_month y m := by
  unfold days_in_month
  split_ifs <;> decide

theorem next_day_valid (y m d : Int) (h : valid_date y m d) :
    valid_date (next_day y m d).1 (next_day y m d).2.1 (next_day y m d).2.2 := by
  obtain ⟨hy, hm1, hm12, hd1, hd⟩ := h
  unfold next_day
  split_ifs with h1 h2
  · show valid_date y m (d + 1)
    exact ⟨hy, hm1, hm12, by omega, by omega⟩
  · show valid_date y (m + 1) 1
    have := days_in_month_ge y (m + 1)
    exact ⟨hy, by omega, by omega, le_refl 1, by omega⟩
  · show valid_date (y + 1) 1 1
    have := days_in_month_ge (y + 1) 1
    exact ⟨by omega, le_refl 1, by decide, le_refl 1, by omega⟩

theorem toLong_365_25 (Y : Int) (hY : 0 ≤ Y) :
    toLong (365.25 * ((Y : Int) : ℝ)) = 365 * Y + Y / 4 := by
  have h : (365.25 : ℝ) * ((Y : Int) : ℝ) = ((1461 * Y : Int) : ℝ) / ((4 : Int) : ℝ) := by
    push_cast
    norm_num
    ring
  have h0 : (0 : ℝ) ≤ 365.25 * ((Y : Int) : ℝ) := by
    have : (0 : ℝ) ≤ ((Y : Int) : ℝ) := by exact_mod_cast hY
    positivity
  rw [toLong_of_nonneg _ h0, h, floor_intCast_div _ _ (by decide)]
  omega

theorem toLong_div_400 (Y : Int) (hY : 0 ≤ Y) :
    toLong (((Y : Int) : ℝ) / 400.0) = Y / 400 := by
  have h : ((Y : Int) : ℝ) / 400.0 = ((Y : Int) : ℝ) / ((400 : Int) : ℝ) := by
    push_cast
    norm_num
  have h0 : (0 : ℝ) ≤ ((Y : Int) : ℝ) / 400.0 := by
    have : (0 : ℝ) ≤ ((Y : Int) : ℝ) := by exact_mod_cast hY
    positivity
  rw [toLong_of_nonneg _ h0, h, floor_intCast_div _ _ (by decide)]

theorem toLong_div_100 (Y : Int) (hY : 0 ≤ Y) :
    toLong (((Y : Int) : ℝ) / 100.0) = Y / 100 := by
  have h : ((Y : Int) : ℝ) / 100.0 = ((Y : Int) : ℝ) / ((100 : Int) : ℝ) := by
    push_cast
    norm_num
  have h0 : (0 : ℝ) ≤ ((Y : Int) : ℝ) / 100.0 := by
    have : (0 : ℝ) ≤ ((Y : Int) : ℝ) := by exact_mod_cast hY
    positivity
  rw [toLong_of_nonneg _ h0, h, floor_intCast_div _ _ (by decide)]

theorem toLong_30_59 (k : Int) (hk : 0 ≤ k) :
    toLong (30.59 * ((k : Int) : ℝ)) = (3059 * k) / 100 := by
  have h : (30.59 : ℝ) * ((k : Int) : ℝ) = ((3059 * k : Int) : ℝ) / ((100 : Int) : ℝ) := by
    push_cast
    norm_num
    ring
  have h0 : (0 : ℝ) ≤ 30.59 * ((k : Int) : ℝ) := by
    have : (0 : ℝ) ≤ ((k : Int) : ℝ) := by exact_mod_cast hk
    positivity
  rw [toLong_of_nonneg _ h0, h, floor_intCast_div _ _ (by decide)]

theorem JDN_of_shifted (y m d : Int) (hm1 : 1 ≤ m) (hm12 : m ≤ 12) :
    JDN y m d
      = 365 * (if m < 3 then y - 1 else y) + (if m < 3 then y - 1 else y) / 4
        + (if m < 3 then y - 1 else y) / 400 - (if m < 3 then y - 1 else y) / 100
        + (3059 * ((if m < 3 then m + 12 else m) - 2)) / 100 + d + 1721089 := by
  unfold JDN
  interval_cases m <;> simp only [] <;> norm_num <;> omega

theorem gc2jd_of_tm (localtime_r : Int → Tm) (ts : Timespec)
    (hdate : valid_date ((localtime_r ts.tv_sec).tm_year + 1900)
      ((localtime_r ts.tv_sec).tm_mon + 1) (localtime_r ts.tv_sec).tm_mday)
    (hyear : (localtime_r ts.tv_sec).tm_year + 1900 ≤ 5000000)
    (htime : valid_time (localtime_r ts.tv_sec).tm_hour (localtime_r ts.tv_sec).tm_min
      (localtime_r ts.tv_sec).tm_sec) :
    Time.gc2jd localtime_r ts
      = ((JDN ((localtime_r ts.tv_sec).tm_year + 1900)
            ((localtime_r ts.tv_sec).tm_mon + 1) (localtime_r ts.tv_sec).tm_mday : Int) : ℝ)
        - 0.5
        + (3600 * (((localtime_r ts.tv_sec).tm_hour : Int) : ℝ)
            + 60 * (((localtime_r ts.tv_sec).tm_min : Int) : ℝ)
            + (((localtime_r ts.tv_sec).tm_sec : Int) : ℝ)
            + ((ts.tv_nsec : Int) : ℝ) / 1000000000) / 86400 := by
  unfold Time.gc2jd
  simp only []
  generalize (localtime_r ts.tv_sec).tm_year + 1900 = y at hdate hyear ⊢
  generalize (localtime_r ts.tv_sec).tm_mon + 1 = m at hdate ⊢
  generalize (localtime_r ts.tv_sec).tm_mday = d at hdate ⊢
  generalize (localtime_r ts.tv_sec).tm_hour = h at htime ⊢
  generalize (localtime_r ts.tv_sec).tm_min = mi at htime ⊢
  generalize (localtime_r ts.tv_sec).tm_sec = s at htime ⊢
  obtain ⟨hy1, hm1, hm12, hd1, hd⟩ := hdate
  obtain ⟨hh0, hh1, hmi0, hmi1, hs0, hs1⟩ := htime
  have hd31 : d ≤ 31 := by
    unfold days_in_month at hd
    split_ifs at hd <;> omega
  have ey : toUInt y = y := toUInt_of_range _ (by omega) (by omega)
  have em : toUInt m = m := toUInt_of_range _ (by omega) (by omega)
  have ed : toUInt d = d := toUInt_of_range _ (by omega) (by omega)
  have eh : toUInt h = h := toUInt_of_range _ (by omega) (by omega)
  have emi : toUInt mi = mi := toUInt_of_range _ (by omega) (by omega)
  have es : toUInt s = s := toUInt_of_range _ (by omega) (by omega)
  have ey1 : toUInt (y - 1) = y - 1 := toUInt_of_range _ (by omega) (by omega)
  have em12 : toUInt (m + 12) = m + 12 := toUInt_of_range _ (by omega) (by omega)
  rw [ey, em, ed, eh, emi, es, ey1, em12, JDN_of_shifted y m d hm1 hm12]
  generalize hY : (if m < 3 then y - 1 else y) = Y
  generalize hM : (if m < 3 then m + 12 else m) = M
  have hY0 : 0 ≤ Y := by
    rw [← hY]
    split_ifs <;> omega
  have hY1 : Y ≤ 5000000 := by
    rw [← hY]
    split_ifs <;> omega
  have hM3 : 3 ≤ M := by
    rw [← hM]
    split_ifs <;> omega
  have hM14 : M ≤ 14 := by
    rw [← hM]
    split_ifs <;> omega
  have eM : toUInt (M - 2) = M - 2 := toUInt_of_range _ (by omega) (by omega)
  rw [eM, toLong_365_25 Y hY0, toLong_div_400 Y hY0, toLong_div_100 Y hY0,
    toLong_30_59 (M - 2) (by omega)]
  have eN : toUInt (365 * Y + Y / 4 + Y / 400 - Y / 100 + 3059 * (M - 2) / 100 + d)
      = 365 * Y + Y / 4 + Y / 400 - Y / 100 + 3059 * (M - 2) / 100 + d :=
    toUInt_of_range _ (by omega) (by omega)
  rw [eN]
  push_cast
  norm_num
  ring

/-- Claim C38. For an instant whose broken-down time is a valid date of the
Gregorian calendar with a year from 1 to 5 000 000 (so that every `int` and
`unsigned int` of the source stays in range) and a valid time of day,
`gc2jd` is `JDN(year, month, day) - 0.5` plus the time of day
`(3600*h + 60*m + s + ns/1e9) / 86400`, where `JDN` is the Julian Day Number:
`JDN(2000, 1, 1) = 2451545`, and from every valid date to the next calendar
day, which is again a valid date, `JDN` increases by exactly 1. -/
theorem gc2jd_is_julian_day (localtime_r : Int → Tm) (ts : Timespec)
    (hdate : valid_date ((localtime_r ts.tv_sec).tm_year + 1900)
      ((localtime_r ts.tv_sec).tm_mon + 1) (localtime_r ts.tv_sec).tm_mday)
    (hyear : (localtime_r ts.tv_sec).tm_year + 1900 ≤ 5000000)
    (htime : valid_time (localtime_r ts.tv_sec).tm_hour (localtime_r ts.tv_sec).tm_min
      (localtime_r ts.tv_sec).tm_sec) :
    Time.gc2jd localtime_r ts
      = ((JDN ((localtime_r ts.tv_sec).tm_year + 1900)
            ((localtime_r ts.tv_sec).tm_mon + 1) (localtime_r ts.tv_sec).tm_mday : Int) : ℝ)
        - 0.5
        + (3600 * (((localtime_r ts.tv_sec).tm_hour : Int) : ℝ)
            + 60 * (((localtime_r ts.tv_sec).tm_min : Int) : ℝ)
            + (((localtime_r ts.tv_sec).tm_sec : Int) : ℝ)
            + ((ts.tv_nsec : Int) : ℝ) / 1000000000) / 86400
    ∧ JDN 2000 1 1 = 2451545
    ∧ ∀ y m d : Int, valid_date y m d →
        valid_date (next_day y m d).1 (next_day y m d).2.1 (next_day y m d).2.2
        ∧ JDN (next_day y m d).1 (next_day y m d).2.1 (next_day y m d).2.2
            = JDN y m d + 1 :=
  ⟨gc2jd_of_tm localtime_r ts hdate hyear htime, by decide,
    fun y m d h => ⟨next_day_valid y m d h, JDN_next_day y m d h⟩⟩

/-- The hypotheses of `gc2jd_is_julian_day` are met by the instant
2017-01-01 00:00:00.5 of `exLocaltime`: the Julian Day Number is 2457755 and
`gc2jd` is 2457754.5 plus half a second. -/
theorem gc2jd_is_julian_day_witness :
    JDN 2017 1 1 = 2457755
    ∧ Time.gc2jd exLocaltime ⟨1483228800, 500000000⟩
      = ((JDN 2017 1 1 : Int) : ℝ) - 0.5
        + (3600 * ((0 : Int) : ℝ) + 60 * ((0 : Int) : ℝ) + ((0 : Int) : ℝ)
            + ((500000000 : Int) : ℝ) / 1000000000) / 86400 :=
  ⟨by decide,
    (gc2jd_is_julian_day exLocaltime ⟨1483228800, 500000000⟩
      (by unfold valid_date; decide) (by decide) (by unfold valid_time; decide)).1⟩
end ApparentSunMoon
